import Mathlib

/-!
# Agenda watchface: render-and-refresh core

A shallow embedding of `src/main.c` (time formatting, item layout, refresh
scheduling) and theorems about it.

Conventions of the embedding

* `caltime_t` and `int` values are `Int`; the C operators `/` and `%` on them
  are `Int.tdiv` and `Int.tmod` (truncation towards zero).
* C strings are lists of characters (`CStr`), without the terminator.
* Global variables of `main.c` are the fields of `State`; a function that
  writes globals takes a `State` and returns the new one.
* The headers `datatypes.h`, `settings.h` and `item_db.h` are not part of the
  sources at hand.  What `main.c` uses from them (calendar accessors and bit
  masks) is collected in the structure `Env`; the code is embedded for an
  arbitrary `Env`.  `stdEnv` is one concrete environment, used to evaluate the
  code on concrete inputs.
* `get_current_time()` is the parameter `now`: one rebuild runs within one
  minute, so every call made during a rebuild returns the same value.
-/

namespace Agenda

/-- A C string: the characters before the terminator. -/
abbrev CStr := List Char

/-- What `main.c` takes from the headers that are not at hand: the `caltime_t`
accessors of `datatypes.h`, the row-design masks and the settings masks. -/
structure Env where
  caltime_to_date_only : Int → Int
  caltime_get_tomorrow : Int → Int
  caltime_get_hour : Int → Int
  caltime_get_minute : Int → Int
  caltime_get_weekday : Int → Int
  caltime_get_month : Int → Int
  caltime_get_day : Int → Int
  ROW_DESIGN_TIME_TYPE_OFFSET : Nat
  ROW_DESIGN_TEXT_BOLD : Nat
  SETTINGS_BOOL_12H : Nat
  SETTINGS_BOOL_AMPM : Nat
  SETTINGS_BOOL_FONT_SIZE0 : Nat
  SETTINGS_BOOL_FONT_SIZE1 : Nat
  SETTINGS_BOOL_SEPARATOR_DATE : Nat
  SETTINGS_BOOL_SHOW_CLOCK_HEADER : Nat
  SETTINGS_BOOL_HEADER_SIZE0 : Nat
  SETTINGS_BOOL_HEADER_SIZE1 : Nat

/-- An agenda item as `main.c` reads it (`AgendaItem` of `datatypes.h`):
the two row designs are `uint8_t`, the two texts may be null. -/
structure AgendaItem where
  row1design : Nat
  row2design : Nat
  start_time : Int
  end_time : Int
  row1text : Option CStr
  row2text : Option CStr
deriving DecidableEq

/-- A text layer created by the layout pass: its frame `GRect(x, y, w, h)`, the
text it shows, whether it uses the bold font and whether it is drawn white on
black (separators).  The field `item` is a specification annotation, not a
variable of the program: the loop index `i` of `display_data` at the moment the
layer was created. -/
structure TextLayer where
  x : Int
  y : Int
  w : Int
  h : Int
  text : Option CStr
  bold : Bool
  inverted : Bool
  item : Nat
deriving DecidableEq

/-- The global variables of `main.c` that the layout pass reads and writes.
`item_layers[k]`, `item_texts[k]` for `k < num_layers` are the lists
`item_layers`, `item_texts`; likewise for the separators.  `countdown_shown`
is a specification annotation: it is raised exactly where
`time_to_showstring` takes its countdown branch. -/
structure State where
  refresh_at : Int
  num_layers : Nat
  elapsed_item_num : Nat
  item_layers : List TextLayer
  item_texts : List (Option CStr)
  num_separators : Nat
  day_separator_layers : List TextLayer
  day_separator_texts : List CStr
  font_index : Int
  line_height : Int
  header_height : Int
  countdown_shown : Bool
deriving DecidableEq

/-! ## Formatting primitives -/

/-- The conversion `%d` of `printf`. -/
def fmt_d (n : Int) : CStr :=
  if n < 0 then '-' :: Nat.toDigits 10 n.natAbs else Nat.toDigits 10 n.toNat

/-- Left padding with `'0'` up to `width` characters. -/
def zero_pad (width : Nat) (digits : CStr) : CStr :=
  List.replicate (width - digits.length) '0' ++ digits

/-- The conversions `%02d` and `%02ld` of `printf`: the sign counts for the
width, the zeros come after it. -/
def fmt_02d (n : Int) : CStr :=
  if n < 0 then '-' :: zero_pad 1 (Nat.toDigits 10 n.natAbs)
  else zero_pad 2 (Nat.toDigits 10 n.toNat)

/-- What `snprintf(buffer, size, ...)` leaves in the buffer when the formatted
text is `out`: at most `size - 1` characters (nothing for `size = 0`). -/
def snprintf (size : Nat) (out : CStr) : CStr :=
  out.take (size - 1)

/-- Reading `table[i]` from a table of strings; an index outside the table
(undefined in C) reads as the empty string. -/
def table_get (table : List String) (i : Int) : CStr :=
  if i < 0 then [] else ((table.get? i.toNat).getD "").toList

/-- Whether `flags & mask` is nonzero. -/
def flag_set (flags mask : Nat) : Bool :=
  (flags &&& mask) != 0

/-! ## `time_to_showstring` -/

/-- The static table `daystrings` of `time_to_showstring`. -/
def daystrings_short : List String :=
  ["Mon", "Tue", "Wed", "Thu", "Fri", "Sat", "Sun"]

/-- The text of the last branch of `time_to_showstring` ("regular" time),
before it is cut to the buffer: lines 114-119. -/
def regular_time (env : Env) (time : Int) (hour_12 append_am_pm : Bool) : CStr :=
  if hour_12 then
    let hour := env.caltime_get_hour time
    fmt_d (if hour.tmod 12 = 0 then 12 else hour.tmod 12) ++ ":".toList
      ++ fmt_02d (env.caltime_get_minute time)
      ++ (if append_am_pm then (if hour < 12 then "am".toList else "pm".toList) else [])
  else
    fmt_02d (env.caltime_get_hour time) ++ ":".toList
      ++ fmt_02d (env.caltime_get_minute time)
      ++ (if append_am_pm then
            (if env.caltime_get_hour time ≤ 12 then "am".toList else "pm".toList)
          else [])

/-- The function `time_to_showstring` (lines 97-121).  Returns the text left in
`buffer` (from its first byte, the dash included) and the state, in which the
countdown branch has set `refresh_at = 1`.  `buffersize` is a `size_t` of 32
bits, so `buffersize--` wraps at zero. -/
def time_to_showstring (env : Env) (s : State) (buffersize : Nat) (time relative_to : Int)
    (relative_time hour_12 append_am_pm prepend_dash : Bool) : CStr × State :=
  let dash : CStr := if prepend_dash then ['-'] else []
  let size : Nat := if prepend_dash then (buffersize + 4294967295) % 4294967296 else buffersize
  if env.caltime_to_date_only relative_to ≠ env.caltime_to_date_only time
      ∧ ¬ (env.caltime_get_tomorrow relative_to = env.caltime_to_date_only time
            ∧ env.caltime_get_hour time < 3) then
    (dash ++ snprintf size (table_get daystrings_short (env.caltime_get_weekday time)), s)
  else if relative_time = true ∧ time ≥ relative_to ∧ time - relative_to ≤ 60 then
    (dash ++ snprintf size (fmt_d (time - relative_to) ++ "min".toList),
      { s with refresh_at := 1, countdown_shown := true })
  else
    (dash ++ snprintf size (regular_time env time hour_12 append_am_pm), s)

/-! ## Fonts and widths -/

/-- The function `set_font_from_settings` (lines 56-77): the two-bit font index
and the line height that goes with it (the font handles are not modelled). -/
def set_font_from_settings (env : Env) (settings : Nat) (s : State) : State :=
  let font_index : Int :=
    ((settings &&& (env.SETTINGS_BOOL_FONT_SIZE0 ||| env.SETTINGS_BOOL_FONT_SIZE1))
      / env.SETTINGS_BOOL_FONT_SIZE0 : Nat)
  { s with
    font_index := font_index
    line_height := if font_index = 1 then 22 else if font_index = 2 then 28 else 16 }

/-- The function `get_item_text_offset` (lines 80-94); `font_index` is the global
it reads. -/
def get_item_text_offset (env : Env) (font_index : Int) (row_design number_of_times : Nat)
    (append_am_pm : Bool) : Int :=
  if (row_design / env.ROW_DESIGN_TIME_TYPE_OFFSET) % 8 = 0 then 0
  else
    let result : Int := if font_index = 2 then 45 else if font_index = 1 then 35 else 28
    let result := if append_am_pm then
      result + (if font_index = 2 then 20 else if font_index = 1 then 17 else 15) else result
    let result := if number_of_times > 1 then result * 2 else result
    result + (if font_index = 2 then 13 else if font_index = 1 then 11 else 9)

/-! ## Layout -/

/-- The time text of a row, lines 142-152 of `create_item_layers`: which time
to show for the time mode `design_time` (1 start, 2 end, 3 both, 4 end once the
item has started), the call of `time_to_showstring` with a buffer of 20 bytes
and, for mode 3, the second call that writes the end time behind the first text
with a budget of 10 bytes.  Returns the text and the state. -/
def row_time_string (env : Env) (settings : Nat) (now : Int) (item : AgendaItem)
    (relative_to : Int) (relative_time : Bool) (design_time : Nat) (s : State) : CStr × State :=
  let hour_12 := flag_set settings env.SETTINGS_BOOL_12H
  let am_pm := flag_set settings env.SETTINGS_BOOL_12H && flag_set settings env.SETTINGS_BOOL_AMPM
  let time_to_show := if design_time = 2 then item.end_time else item.start_time
  let time_to_show :=
    if design_time = 4 ∧ now ≥ item.start_time then item.end_time else time_to_show
  let first := time_to_showstring env s 20 time_to_show relative_to relative_time
    hour_12 am_pm (decide (time_to_show = item.end_time))
  if design_time = 3 then
    let second := time_to_showstring env first.2 10 item.end_time relative_to
      (relative_time && decide (now ≥ item.start_time)) hour_12 am_pm true
    (first.1 ++ second.1, second.2)
  else first

/-- One pass of the loop body of `create_item_layers` (lines 129-183) for
`row` = 0 or 1; `i` is the index of the item in the database (annotation of the
layers).  Returns the new `y` and the new state. -/
def create_item_row (env : Env) (settings : Nat) (now : Int) (i : Nat) (item : AgendaItem)
    (relative_to : Int) (relative_time : Bool) (row : Nat) (y : Int) (s : State) :
    Int × State :=
  if row = 1 ∧ item.row2design = 0 then (y, s)
  else
    let row_design := if row = 0 then item.row1design else item.row2design
    let design_time := (row_design / env.ROW_DESIGN_TIME_TYPE_OFFSET) % 8
    let row_text := if row = 0 then item.row1text else item.row2text
    let am_pm := flag_set settings env.SETTINGS_BOOL_12H && flag_set settings env.SETTINGS_BOOL_AMPM
    let time_layer_width :=
      get_item_text_offset env s.font_index row_design (if design_time = 3 then 2 else 1) am_pm
    -- time text and layer
    let s1 : State :=
      if design_time ≠ 0 then
        let timed := row_time_string env settings now item relative_to relative_time design_time s
        let layer : TextLayer :=
          { x := 0, y := y, w := time_layer_width, h := s.line_height,
            text := some timed.1, bold := false, inverted := false, item := i }
        { timed.2 with
          item_texts := timed.2.item_texts ++ [some timed.1]
          item_layers := timed.2.item_layers ++ [layer]
          num_layers := timed.2.num_layers + 1 }
      else s
    -- text layer
    let text : Option CStr := row_text.map (fun t => t.take 30)
    let layer : TextLayer :=
      { x := time_layer_width, y := y, w := 144 - time_layer_width, h := s.line_height,
        text := text, bold := flag_set row_design env.ROW_DESIGN_TEXT_BOLD,
        inverted := false, item := i }
    (y + s.line_height,
      { s1 with
        item_texts := s1.item_texts ++ [text]
        item_layers := s1.item_layers ++ [layer]
        num_layers := s1.num_layers + 1 })

/-- The function `create_item_layers` (lines 124-186): rows 0 and 1 in turn.
Returns `y` plus the height of the new layers, and the new state. -/
def create_item_layers (env : Env) (settings : Nat) (now : Int) (i : Nat) (y : Int)
    (item : AgendaItem) (relative_to : Int) (relative_time : Bool) (s : State) : Int × State :=
  let r0 := create_item_row env settings now i item relative_to relative_time 0 y s
  create_item_row env settings now i item relative_to relative_time 1 r0.1 r0.2

/-- The static table `daystrings` of `create_day_separator_layer`. -/
def daystrings_long : List String :=
  ["Monday", "Tuesday", "Wednesday", "Thursday", "Friday", "Saturday", "Sunday", "Tomorrow"]

/-- The static table `monthstrings` of `create_day_separator_layer`. -/
def monthstrings : List String :=
  ["Jan", "Feb", "Mar", "Apr", "May", "Jun", "Jul", "Aug", "Sep", "Okt", "Nov", "Dez"]

/-- The function `create_day_separator_layer` (lines 189-210), called with
`i = num_separators`; `item` is the index of the agenda item it precedes
(annotation of the layer).  Returns `y` plus the own height, and the new state. -/
def create_day_separator_layer (env : Env) (settings : Nat) (now : Int) (item : Nat) (y : Int)
    (day : Int) (s : State) : Int × State :=
  let name := table_get daystrings_long
    (if env.caltime_to_date_only day = env.caltime_get_tomorrow now then 7
     else env.caltime_get_weekday day)
  let text : CStr :=
    if flag_set settings env.SETTINGS_BOOL_SEPARATOR_DATE then
      snprintf 20 (name ++ ", ".toList ++ table_get monthstrings (env.caltime_get_month day - 1)
        ++ " ".toList ++ fmt_02d (env.caltime_get_day day))
    else snprintf 20 name
  let layer : TextLayer :=
    { x := 0, y := y, w := 144, h := s.line_height, text := some text, bold := false,
      inverted := true, item := item }
  (y + s.line_height,
    { s with
      day_separator_texts := s.day_separator_texts ++ [text]
      day_separator_layers := s.day_separator_layers ++ [layer] })

/-- The local variables of the loop of `display_data` together with the
globals. -/
structure Loop where
  i : Nat
  y : Int
  previous_item : Option AgendaItem
  last_separator_date : Int
  st : State
deriving DecidableEq

/-- The test of lines 245-246 of `display_data`: whether a date separator is
created before `item`, given the item of the previous iteration that was not
skipped (or none). -/
def separator_needed (env : Env) (now : Int) (previous_item : Option AgendaItem)
    (item : AgendaItem) : Bool :=
  match previous_item with
  | none => decide (env.caltime_to_date_only item.start_time ≥ env.caltime_get_tomorrow now)
  | some p =>
    decide (env.caltime_to_date_only p.start_time ≠ env.caltime_to_date_only item.start_time
      ∧ env.caltime_to_date_only item.start_time ≥ env.caltime_get_tomorrow now)

/-- Lines 244-250 of `display_data`: the date separator before `item`, if one is
needed. -/
def place_separator (env : Env) (settings : Nat) (now : Int) (item : AgendaItem) (l : Loop) :
    Loop :=
  if separator_needed env now l.previous_item item then
    let r := create_day_separator_layer env settings now l.i l.y item.start_time l.st
    { l with y := r.1, last_separator_date := item.start_time,
             st := { r.2 with num_separators := r.2.num_separators + 1 } }
  else l

/-- Lines 255-259 of `display_data`: the start and the end of `item` are offered
to `refresh_at`. -/
def schedule_refresh (now : Int) (item : AgendaItem) (s : State) : State :=
  let s1 : State :=
    if (s.refresh_at = 0 ∨ s.refresh_at > item.start_time) ∧ item.start_time > now then
      { s with refresh_at := item.start_time } else s
  if s1.refresh_at = 0 ∨ s1.refresh_at > item.end_time then
    { s1 with refresh_at := item.end_time } else s1

/-- One execution of the loop body of `display_data` (lines 238-261) for `item`
= `db_get(i)`, the increment `i++` included. -/
def display_step (env : Env) (settings : Nat) (now : Int) (item : AgendaItem) (l : Loop) : Loop :=
  if item.end_time ≠ 0 ∧ item.end_time < now then
    { l with i := l.i + 1, st := { l.st with elapsed_item_num := l.st.elapsed_item_num + 1 } }
  else
    let l1 := place_separator env settings now item l
    let r := create_item_layers env settings now l.i l1.y item l1.last_separator_date
      (decide (l1.st.num_separators = 0)) l1.st
    { i := l.i + 1, y := r.1 + 1, previous_item := some item,
      last_separator_date := l1.last_separator_date, st := schedule_refresh now item r.2 }

/-- The loop `for (i = 0; i < db_size() && y < 168; i++)` of `display_data`, run
on the items from index `l.i` on. -/
def display_loop (env : Env) (settings : Nat) (now : Int) : List AgendaItem → Loop → Loop
  | [], l => l
  | item :: rest, l =>
    if l.y < 168 then display_loop env settings now rest (display_step env settings now item l)
    else l

/-- Lines 217-235 of `display_data`: fresh arrays, the font, the counters reset
and the local variables of the loop before its first iteration. -/
def display_init (env : Env) (settings : Nat) (now : Int) (s : State) : Loop :=
  let s0 := set_font_from_settings env settings
    { s with item_layers := [], item_texts := [], day_separator_layers := [],
             day_separator_texts := [] }
  let s1 : State :=
    { s0 with num_layers := 0, elapsed_item_num := 0, num_separators := 0, refresh_at := 0,
              countdown_shown := false }
  { i := 0, y := s1.header_height, previous_item := none, last_separator_date := now, st := s1 }

/-- The function `display_data` up to the end of its loop (lines 213-262), for a
database that is not empty. -/
def display_items (env : Env) (settings : Nat) (now : Int) (db : List AgendaItem) (s : State) :
    Loop :=
  display_loop env settings now db (display_init env settings now s)

/-- The adjustment of `refresh_at` that ends `display_data` (lines 264-266). -/
def adjust_refresh_at (s : State) : State :=
  if s.refresh_at.tmod (60 * 60) ≥ 60 then { s with refresh_at := s.refresh_at - 60 } else s

/-- The function `display_data` (lines 212-267). -/
def display_data (env : Env) (settings : Nat) (now : Int) (db : List AgendaItem) (s : State) :
    State :=
  if db.length ≤ 0 then s
  else adjust_refresh_at (display_items env settings now db s).st

/-! ## Header, synchronisation and event handlers -/

/-- A rectangle `GRect(x, y, w, h)`. -/
structure GRect where
  x : Int
  y : Int
  w : Int
  h : Int
deriving DecidableEq

/-- A layer of the header: its frame and its bounds (the texts of the header
layers, set by `update_clock` and `update_date` from the system clock, are not
modelled). -/
structure HeaderLayer where
  frame : GRect
  bounds : GRect
deriving DecidableEq

/-- The call `text_layer_create(frame)`: the bounds of a new layer have the size
of the frame and the origin (0, 0). -/
def text_layer_create (frame : GRect) : HeaderLayer :=
  { frame := frame, bounds := { x := 0, y := 0, w := frame.w, h := frame.h } }

/-- The two custom fonts that `set_time_font_from_settings` loads. -/
inductive FontResource where
  | ROBOTO_CONDENSED_30
  | ROBOTO_CONDENSED_BOLD_38
deriving DecidableEq

/-- A call of `fonts_load_custom_font` (with the handle it returned) or of
`fonts_unload_custom_font`. -/
inductive FontEvent where
  | load (resource : FontResource) (handle : Nat)
  | unload (handle : Nat)
deriving DecidableEq

/-- The values of `num_layers`, `num_separators` and whether the region arrays
were allocated (`item_layers != 0`) at the moment a rebuild begins to create
regions. -/
structure RebuildStart where
  num_layers : Nat
  num_separators : Nat
  arrays_allocated : Bool
deriving DecidableEq

/-- What the handlers read from outside `main.c` when they run: the settings
flags (`settings_get_bool_flags()`), the item database (`db_size`, `db_get`),
`get_current_time()`, `time(NULL)` in seconds and
`bluetooth_connection_service_peek()`. -/
structure World where
  settings : Nat
  db : List AgendaItem
  now : Int
  unix_time : Int
  connected : Bool

/-- All globals of `main.c`: those of the layout pass (`st`), whether the four
region arrays are allocated, the sync bookkeeping and the header.  `time_font` is
a font handle, 0 when no font is loaded.  The last three fields are
specification annotations: the font calls made so far, the ids carried by the
sync requests sent so far (`send_sync_request`), and the state in which each
rebuild that created regions has started. -/
structure App where
  st : State
  arrays_allocated : Bool
  last_sync : Int
  last_sync_id : Nat
  text_layer_time : Option HeaderLayer
  text_layer_date : Option HeaderLayer
  text_layer_weekday : Option HeaderLayer
  sync_indicator_layer : Option HeaderLayer
  time_font : Nat
  date_font : Nat
  time_font_id : Int
  header_time_width : Int
  header_weekday_height : Int
  font_events : List FontEvent
  sync_requests : List Nat
  rebuild_starts : List RebuildStart
deriving DecidableEq

/-- The function `sync_layer_set_progress` (lines 46-53). -/
def sync_layer_set_progress (now max : Int) (a : App) : App :=
  match a.sync_indicator_layer with
  | none => a
  | some layer =>
    let width : Int := if max = 0 then 144 else (now * 144).tdiv max
    let moved : HeaderLayer :=
      { layer with bounds := { x := width, y := 0, w := 144 - width, h := 1 } }
    { a with sync_indicator_layer := some moved }

/-- The two-bit header size of the settings, `time_font_id_new` of line 370. -/
def header_size (env : Env) (settings : Nat) : Int :=
  ((settings &&& (env.SETTINGS_BOOL_HEADER_SIZE0 ||| env.SETTINGS_BOOL_HEADER_SIZE1))
    / env.SETTINGS_BOOL_HEADER_SIZE0 : Nat)

/-- The function `set_time_font_from_settings` (lines 369-407).  A font that is
loaded gets a handle that is not 0 and was never returned before. -/
def set_time_font_from_settings (env : Env) (settings : Nat) (a : App) : App :=
  let time_font_id_new := header_size env settings
  let a1 : App :=
    if time_font_id_new ≠ a.time_font_id then
      let events :=
        if a.time_font ≠ 0 then a.font_events ++ [FontEvent.unload a.time_font]
        else a.font_events
      let handle := events.length + 1
      { a with
        time_font_id := time_font_id_new
        time_font := handle
        font_events := events ++ [FontEvent.load
          (if time_font_id_new = 1 then FontResource.ROBOTO_CONDENSED_BOLD_38
           else FontResource.ROBOTO_CONDENSED_30) handle] }
    else a
  if a1.time_font_id = 1 then
    { a1 with date_font := 18, header_weekday_height := 18, header_time_width := 95,
              st := { a1.st with header_height := 48 } }
  else
    { a1 with date_font := 14, header_weekday_height := 16, header_time_width := 75,
              st := { a1.st with header_height := 40 } }

/-- The function `create_header` (lines 410-453). -/
def create_header (env : Env) (settings : Nat) (a : App) : App :=
  let a1 : App :=
    if ¬ flag_set settings env.SETTINGS_BOOL_SHOW_CLOCK_HEADER then
      { a with st := { a.st with header_height := 2 } }
    else
      let b := set_time_font_from_settings env settings a
      { b with
        text_layer_time := some (text_layer_create
          { x := 0, y := 0, w := b.header_time_width, h := b.st.header_height })
        text_layer_date := some (text_layer_create
          { x := b.header_time_width, y := b.header_weekday_height,
            w := 144 - b.header_time_width, h := b.st.header_height - b.header_weekday_height })
        text_layer_weekday := some (text_layer_create
          { x := b.header_time_width, y := 0, w := 144 - b.header_time_width,
            h := b.header_weekday_height }) }
  let indicator : HeaderLayer :=
    { frame := { x := 0, y := 0, w := 144, h := 1 }, bounds := { x := 0, y := 0, w := 0, h := 0 } }
  { a1 with sync_indicator_layer := some indicator }

/-- The function `destroy_header` (lines 456-466). -/
def destroy_header (a : App) : App :=
  { a with text_layer_time := none, text_layer_date := none, text_layer_weekday := none,
           sync_indicator_layer := none }

/-- The function `remove_displayed_data` (lines 269-296). -/
def remove_displayed_data (a : App) : App :=
  { a with
    st := { a.st with num_layers := 0, num_separators := 0, item_layers := [], item_texts := [],
                      day_separator_layers := [], day_separator_texts := [] }
    arrays_allocated := false }

/-- The function `display_data` on all globals: the layout pass `display_data` on
`st`; when it goes on to create regions, the four arrays are allocated afresh,
and the state in which it started is recorded. -/
def App.display_data (env : Env) (w : World) (a : App) : App :=
  if w.db.length ≤ 0 then a
  else
    { a with
      st := Agenda.display_data env w.settings w.now w.db a.st
      arrays_allocated := true
      rebuild_starts := a.rebuild_starts
        ++ [{ num_layers := a.st.num_layers, num_separators := a.st.num_separators,
              arrays_allocated := a.arrays_allocated }] }

/-- The condition of line 360 of `handle_time_tick` under which the tick at
local time `tm_hour`:`tm_min`, instant `tick`, tears the layers down and
rebuilds them. -/
def refresh_due (tm_hour tm_min tick : Int) (s : State) : Bool :=
  decide ((tm_hour = 0 ∧ tm_min = 0) ∨ (s.refresh_at ≠ 0 ∧ tick ≥ s.refresh_at))

/-- The function `handle_no_new_data` (lines 298-300). -/
def handle_no_new_data (w : World) (a : App) : App :=
  { a with last_sync := w.unix_time }

/-- The function `handle_new_data` (lines 302-307). -/
def handle_new_data (env : Env) (w : World) (sync_id : Nat) (a : App) : App :=
  { App.display_data env w a with last_sync := w.unix_time, last_sync_id := sync_id }

/-- The function `handle_data_gone` (lines 309-311). -/
def handle_data_gone (a : App) : App :=
  remove_displayed_data a

/-- The function `handle_time_tick` (lines 347-366) for the tick at local time
`tm_hour`:`tm_min`, instant `tick` = `tm_to_caltime(tick_time)`; `update_clock`
and `update_date` only set header texts. -/
def handle_time_tick (env : Env) (w : World) (tm_hour tm_min tick : Int) (a : App) : App :=
  let a1 : App :=
    if w.connected = true
        ∧ (w.unix_time - a.last_sync > 60 * 30 - 60 * 20 * (a.st.elapsed_item_num : Int)
            ∨ w.unix_time < a.last_sync) then
      { a with sync_requests := a.sync_requests ++ [a.last_sync_id] }
    else a
  if refresh_due tm_hour tm_min tick a1.st then
    App.display_data env w (remove_displayed_data a1)
  else a1

/-- The function `handle_new_settings` (lines 469-473). -/
def handle_new_settings (env : Env) (w : World) (a : App) : App :=
  create_header env w.settings (destroy_header (remove_displayed_data a))

/-- The globals of `main.c` as their initialisers set them, before
`handle_init`. -/
def App.boot : App :=
  { st := { refresh_at := 0, num_layers := 0, elapsed_item_num := 0, item_layers := [],
            item_texts := [], num_separators := 0, day_separator_layers := [],
            day_separator_texts := [], font_index := 0, line_height := 0, header_height := 0,
            countdown_shown := false }
    arrays_allocated := false, last_sync := 0, last_sync_id := 0, text_layer_time := none,
    text_layer_date := none, text_layer_weekday := none, sync_indicator_layer := none,
    time_font := 0, date_font := 0, time_font_id := -1, header_time_width := 0,
    header_weekday_height := 0, font_events := [], sync_requests := [], rebuild_starts := [] }

/-- The function `handle_init` (lines 476-519); `persisted` is the value read
from `PERSIST_LAST_SYNC_ID`, if it exists, and `w` holds the database and the
settings that were restored. -/
def handle_init (env : Env) (w : World) (persisted : Option Nat) (a : App) : App :=
  App.display_data env w
    (handle_new_settings env w { a with last_sync_id := persisted.getD 0 })

/-! ## A concrete environment -/

/-- Modelled from the spec: `datatypes.h` is missing.  Month (1..12) and day of
the month (1..31) of day number `days`, counted from 1970-01-01, in the
proleptic Gregorian calendar ("month/day extraction" of CalendarTimestamp). -/
def civil_from_days (days : Int) : Int × Int :=
  let z := days + 719468
  let era := z / 146097
  let doe := z - era * 146097
  let yoe := (doe - doe / 1460 + doe / 36524 - doe / 146096) / 365
  let doy := doe - (365 * yoe + yoe / 4 - yoe / 100)
  let mp := (5 * doy + 2) / 153
  (if mp < 10 then mp + 3 else mp - 9, doy - (153 * mp + 2) / 5 + 1)

/-- Modelled from the spec: `datatypes.h` and `settings.h` are missing.  The
calendar is CalendarTimestamp as the spec words it: an integral
minute-resolution instant (minutes since 1970-01-01 00:00, a Thursday),
comparable and subtractable (yields minutes), with date-only truncation,
weekday 0=Mon..6=Sun, month/day extraction and "tomorrow of a date".  The spec
gives no values for the masks: the time mode is the low three bits of a row
design, the bold flag the next bit, and the settings flags are distinct bits in
the order in which the spec lists them. -/
def stdEnv : Env where
  caltime_to_date_only t := t - t % 1440
  caltime_get_tomorrow t := t - t % 1440 + 1440
  caltime_get_hour t := (t / 60) % 24
  caltime_get_minute t := t % 60
  caltime_get_weekday t := (t / 1440 + 3) % 7
  caltime_get_month t := (civil_from_days (t / 1440)).1
  caltime_get_day t := (civil_from_days (t / 1440)).2
  ROW_DESIGN_TIME_TYPE_OFFSET := 1
  ROW_DESIGN_TEXT_BOLD := 8
  SETTINGS_BOOL_FONT_SIZE0 := 1
  SETTINGS_BOOL_FONT_SIZE1 := 2
  SETTINGS_BOOL_HEADER_SIZE0 := 4
  SETTINGS_BOOL_HEADER_SIZE1 := 8
  SETTINGS_BOOL_12H := 16
  SETTINGS_BOOL_AMPM := 32
  SETTINGS_BOOL_SEPARATOR_DATE := 64
  SETTINGS_BOOL_SHOW_CLOCK_HEADER := 128

/-- The globals before the first rebuild, as `main.c` initialises them, with the
header height `header_height` that `create_header` has set. -/
def initial_state (header_height : Int) : State :=
  { refresh_at := 0, num_layers := 0, elapsed_item_num := 0, item_layers := [],
    item_texts := [], num_separators := 0, day_separator_layers := [],
    day_separator_texts := [], font_index := 0, line_height := 0,
    header_height := header_height, countdown_shown := false }

/-! ## Notions used to state the properties -/

/-- An item that the loop of `display_data` skips: `end_time != 0 && end_time < now`. -/
def elapsed (now : Int) (item : AgendaItem) : Bool :=
  decide (item.end_time ≠ 0 ∧ item.end_time < now)

/-- The candidates that the items of a list offer to the refresh instant, in
the order of the list: an item that is not skipped offers its `start_time` if it
is still in the future, and always its `end_time`. -/
def refresh_candidates (now : Int) : List AgendaItem → List Int
  | [] => []
  | item :: rest =>
    if elapsed now item then refresh_candidates now rest
    else (if item.start_time > now then [item.start_time] else [])
      ++ item.end_time :: refresh_candidates now rest

/-- The separator `sep` marks the first laid-out item of its date and stands
immediately before it: the item `items[sep.item]` is not skipped, its date is
tomorrow (of `now`) or later, no item before it that is not skipped has the
same date, and among the item layers `rows` those of this item begin exactly
where the separator ends. -/
def separator_placed (env : Env) (now : Int) (items : List AgendaItem) (rows : List TextLayer)
    (sep : TextLayer) : Prop :=
  ∃ item, items[sep.item]? = some item
    ∧ ¬ (item.end_time ≠ 0 ∧ item.end_time < now)
    ∧ env.caltime_get_tomorrow now ≤ env.caltime_to_date_only item.start_time
    ∧ (∀ j item1, j < sep.item → items[j]? = some item1 →
        ¬ (item1.end_time ≠ 0 ∧ item1.end_time < now) →
        env.caltime_to_date_only item1.start_time ≠ env.caltime_to_date_only item.start_time)
    ∧ (∃ row ∈ rows, row.item = sep.item ∧ row.y = sep.y + sep.h)
    ∧ (∀ row ∈ rows, row.item = sep.item → sep.y + sep.h ≤ row.y)

/-- Among the separators `seps` there is one for the date of `item`. -/
def date_has_separator (env : Env) (items : List AgendaItem) (seps : List TextLayer)
    (item : AgendaItem) : Prop :=
  ∃ sep ∈ seps, ∃ item0, items[sep.item]? = some item0
    ∧ env.caltime_to_date_only item0.start_time = env.caltime_to_date_only item.start_time

/-- The globals that the layout pass never writes after the font is chosen, and
those that only the loop of `display_data` itself writes: equal in `s` and `s1`. -/
def same_frame (s s1 : State) : Prop :=
  s1.line_height = s.line_height ∧ s1.font_index = s.font_index
    ∧ s1.header_height = s.header_height ∧ s1.elapsed_item_num = s.elapsed_item_num
    ∧ s1.num_separators = s.num_separators
    ∧ s1.day_separator_layers = s.day_separator_layers
    ∧ s1.day_separator_texts = s.day_separator_texts

/-- The refresh signal between `s` and `s1`: either untouched, or forced to 1
by a countdown. -/
def same_signal (s s1 : State) : Prop :=
  (s1.refresh_at = s.refresh_at ∧ s1.countdown_shown = s.countdown_shown)
    ∨ (s1.refresh_at = 1 ∧ s1.countdown_shown = true)

/-- The item arrays are equal in `s` and `s1`. -/
def same_arrays (s s1 : State) : Prop :=
  s1.item_layers = s.item_layers ∧ s1.item_texts = s.item_texts ∧ s1.num_layers = s.num_layers

/-- The settings of a list applied one after the other with
`set_time_font_from_settings`. -/
def apply_header_settings (env : Env) : List Nat → App → App
  | [], a => a
  | settings :: rest, a =>
    apply_header_settings env rest (set_time_font_from_settings env settings a)

/-- The number of calls of `fonts_load_custom_font` in a list of font calls. -/
def load_count : List FontEvent → Nat
  | [] => 0
  | FontEvent.load _ _ :: rest => load_count rest + 1
  | FontEvent.unload _ :: rest => load_count rest

/-- The number of calls of `fonts_unload_custom_font` in a list of font calls. -/
def unload_count : List FontEvent → Nat
  | [] => 0
  | FontEvent.load _ _ :: rest => unload_count rest
  | FontEvent.unload _ :: rest => unload_count rest + 1

/-- The number of settings of a list whose header size differs from the one
applied before it, `current` being the header size before the first. -/
def tier_changes (env : Env) (current : Int) : List Nat → Nat
  | [] => 0
  | settings :: rest =>
    (if header_size env settings ≠ current then 1 else 0)
      + tier_changes env (header_size env settings) rest

/-- The text that one call of `time_to_showstring` formats (lines 105-119),
before `snprintf` cuts it to the buffer: the weekday, the countdown or the
"regular" time. -/
def showstring_text (env : Env) (time relative_to : Int)
    (relative_time hour_12 append_am_pm : Bool) : CStr :=
  if env.caltime_to_date_only relative_to ≠ env.caltime_to_date_only time
      ∧ ¬ (env.caltime_get_tomorrow relative_to = env.caltime_to_date_only time
            ∧ env.caltime_get_hour time < 3) then
    table_get daystrings_short (env.caltime_get_weekday time)
  else if relative_time = true ∧ time ≥ relative_to ∧ time - relative_to ≤ 60 then
    fmt_d (time - relative_to) ++ "min".toList
  else
    regular_time env time hour_12 append_am_pm

/-! # Theorems -/

/-! ## Formatting -/

theorem toDigits_length_le_two (n : Nat) (h : n ≤ 60) : (Nat.toDigits 10 n).length ≤ 2 := by
  interval_cases n <;> decide

theorem fmt_d_natCast (n : Nat) : fmt_d (n : Int) = (Nat.repr n).toList := by
  have h : ¬ ((n : Int) < 0) := by omega
  simp [fmt_d, h, Nat.repr, List.asString]

theorem time_to_showstring_countdown_eq (env : Env) (s : State) (buffersize : Nat)
    (time relative_to : Int) (hour_12 append_am_pm : Bool)
    (hdate : env.caltime_to_date_only time = env.caltime_to_date_only relative_to)
    (hlo : 0 ≤ time - relative_to) (hhi : time - relative_to ≤ 60) (hbuf : 6 ≤ buffersize) :
    time_to_showstring env s buffersize time relative_to true hour_12 append_am_pm false
      = ((Nat.repr (time - relative_to).toNat).toList ++ "min".toList,
          { s with refresh_at := 1, countdown_shown := true }) := by
  obtain ⟨n, hn⟩ : ∃ n : Nat, time - relative_to = (n : Int) :=
    ⟨(time - relative_to).toNat, by omega⟩
  have hn60 : n ≤ 60 := by omega
  have hlen := toDigits_length_le_two n hn60
  have hge : time ≥ relative_to := by omega
  simp only [time_to_showstring, hdate, ne_eq, not_true_eq_false, false_and, if_false,
    hge, hhi, and_self, if_true, Bool.false_eq_true, List.nil_append, snprintf]
  rw [hn, fmt_d_natCast]
  simp only [Int.toNat_ofNat]
  rw [List.take_of_length_le]
  simp [Nat.repr, List.asString]
  omega

/-- C2: for `time` and `relative_to` on the same calendar date, relative time
enabled, no dash and `0 <= time - relative_to <= 60`, `time_to_showstring`
(called with a buffer of at least 6 bytes; the program passes 20 and 10) writes
the decimal minute difference followed by "min", whatever the 12-hour and am/pm
flags are, and sets `refresh_at` to 1; equal times give "0min" and a difference
of exactly 60 gives "60min". -/
theorem time_to_showstring_countdown (env : Env) (s : State) (buffersize : Nat)
    (time relative_to : Int) (hour_12 append_am_pm : Bool)
    (hdate : env.caltime_to_date_only time = env.caltime_to_date_only relative_to)
    (hlo : 0 ≤ time - relative_to) (hhi : time - relative_to ≤ 60) (hbuf : 6 ≤ buffersize) :
    (time_to_showstring env s buffersize time relative_to true hour_12 append_am_pm false).1
        = (Nat.repr (time - relative_to).toNat).toList ++ "min".toList
      ∧ (time_to_showstring env s buffersize time relative_to true hour_12 append_am_pm false).2.refresh_at
        = 1
      ∧ (time = relative_to →
          (time_to_showstring env s buffersize time relative_to true hour_12 append_am_pm false).1
            = "0min".toList)
      ∧ (time - relative_to = 60 →
          (time_to_showstring env s buffersize time relative_to true hour_12 append_am_pm false).1
            = "60min".toList) := by
  rw [time_to_showstring_countdown_eq env s buffersize time relative_to hour_12 append_am_pm
    hdate hlo hhi hbuf]
  refine ⟨rfl, rfl, ?_, ?_⟩
  · intro h
    have h0 : time - relative_to = 0 := by omega
    simp only [h0]
    decide
  · intro h
    simp only [h]
    decide

/-- Witness of C2: 10:05 relative to 10:00 of the same day gives "5min". -/
theorem time_to_showstring_countdown_witness :
    stdEnv.caltime_to_date_only 28800605 = stdEnv.caltime_to_date_only 28800600
      ∧ (time_to_showstring stdEnv (initial_state 40) 20 28800605 28800600 true true false false).1
          = "5min".toList
      ∧ (time_to_showstring stdEnv (initial_state 40) 20 28800605 28800600 true true false false).2.refresh_at
          = 1 :=
  ⟨by decide,
    (time_to_showstring_countdown stdEnv (initial_state 40) 20 28800605 28800600 true false
      (by decide) (by decide) (by decide) (by decide)).1,
    (time_to_showstring_countdown stdEnv (initial_state 40) 20 28800605 28800600 true false
      (by decide) (by decide) (by decide) (by decide)).2.1⟩

/-- Without an assumption on the calendar the countdown can win over the
continuation exception: in the calendar modelled from the spec, a plain count
of minutes, 00:15 of the next day is 45 minutes after 23:30, and with relative
time enabled `time_to_showstring` takes the countdown branch ("45min", not
"00:15").  The comment of line 109 ('Condition implies that they're on the same
day') does not hold for such a calendar. -/
theorem time_to_showstring_linear_midnight :
    stdEnv.caltime_get_tomorrow 28801410 = stdEnv.caltime_to_date_only 28801455
      ∧ stdEnv.caltime_get_hour 28801455 < 3
      ∧ (time_to_showstring stdEnv (initial_state 40) 20 28801455 28801410 true false false false).1
          = "45min".toList
      ∧ regular_time stdEnv 28801455 false false = "00:15".toList := by
  decide

/-- C10: for every timestamp `T` and all flags, `time_to_showstring` with
`time = T + 61`, `relative_to = T` and relative time enabled renders the
absolute time of `T + 61` (cut to the buffer, after the dash if one is asked
for), also when `T + 61` falls on the next day, and does not touch
`refresh_at`: no countdown. -/
theorem time_to_showstring_61_minutes (s : State) (buffersize : Nat) (T : Int)
    (hour_12 append_am_pm prepend_dash : Bool) :
    time_to_showstring stdEnv s buffersize (T + 61) T true hour_12 append_am_pm prepend_dash
      = ((if prepend_dash then ['-'] else [])
          ++ snprintf (if prepend_dash then (buffersize + 4294967295) % 4294967296 else buffersize)
              (regular_time stdEnv (T + 61) hour_12 append_am_pm), s) := by
  have h1 : ¬ (stdEnv.caltime_to_date_only T ≠ stdEnv.caltime_to_date_only (T + 61)
      ∧ ¬ (stdEnv.caltime_get_tomorrow T = stdEnv.caltime_to_date_only (T + 61)
            ∧ stdEnv.caltime_get_hour (T + 61) < 3)) := by
    simp only [stdEnv]
    omega
  have h2 : ¬ (True ∧ T + 61 ≥ T ∧ T + 61 - T ≤ 60) := by omega
  simp only [time_to_showstring, h1, h2, if_false]

/-! ## What one layout step changes -/

theorem time_to_showstring_state (env : Env) (s : State) (bs : Nat) (t r : Int)
    (rel h12 ap pd : Bool) :
    ((time_to_showstring env s bs t r rel h12 ap pd).2 = s)
      ∨ ((time_to_showstring env s bs t r rel h12 ap pd).2
          = { s with refresh_at := 1, countdown_shown := true }) := by
  unfold time_to_showstring
  split_ifs <;> simp

theorem time_to_showstring_frame (env : Env) (s : State) (bs : Nat) (t r : Int)
    (rel h12 ap pd : Bool) :
    same_frame s (time_to_showstring env s bs t r rel h12 ap pd).2
      ∧ same_signal s (time_to_showstring env s bs t r rel h12 ap pd).2
      ∧ same_arrays s (time_to_showstring env s bs t r rel h12 ap pd).2 := by
  rcases time_to_showstring_state env s bs t r rel h12 ap pd with h | h <;> rw [h] <;>
    simp [same_frame, same_signal, same_arrays]

theorem same_signal_trans {a b c : State} (h1 : same_signal a b) (h2 : same_signal b c) :
    same_signal a c := by
  unfold same_signal at *
  rcases h1 with ⟨h1, h1'⟩ | ⟨h1, h1'⟩ <;> rcases h2 with ⟨h2, h2'⟩ | ⟨h2, h2'⟩ <;> simp_all

theorem same_frame_trans {a b c : State} (h1 : same_frame a b) (h2 : same_frame b c) :
    same_frame a c := by
  unfold same_frame at *
  obtain ⟨a1, a2, a3, a4, a5, a6, a7⟩ := h1
  obtain ⟨b1, b2, b3, b4, b5, b6, b7⟩ := h2
  exact ⟨b1.trans a1, b2.trans a2, b3.trans a3, b4.trans a4, b5.trans a5, b6.trans a6, b7.trans a7⟩

theorem same_arrays_trans {a b c : State} (h1 : same_arrays a b) (h2 : same_arrays b c) :
    same_arrays a c := by
  unfold same_arrays at *
  obtain ⟨a1, a2, a3⟩ := h1
  obtain ⟨b1, b2, b3⟩ := h2
  exact ⟨b1.trans a1, b2.trans a2, b3.trans a3⟩

theorem row_time_string_spec (env : Env) (settings : Nat) (now : Int) (item : AgendaItem)
    (relative_to : Int) (relative_time : Bool) (design_time : Nat) (s : State) :
    same_frame s (row_time_string env settings now item relative_to relative_time design_time s).2
      ∧ same_signal s
          (row_time_string env settings now item relative_to relative_time design_time s).2
      ∧ same_arrays s
          (row_time_string env settings now item relative_to relative_time design_time s).2 := by
  unfold row_time_string
  by_cases h3 : design_time = 3
  · simp only [h3, if_true]
    have h1 := time_to_showstring_frame env s 20 item.start_time relative_to relative_time
      (flag_set settings env.SETTINGS_BOOL_12H)
      (flag_set settings env.SETTINGS_BOOL_12H && flag_set settings env.SETTINGS_BOOL_AMPM)
      (decide (item.start_time = item.end_time))
    have h2 := time_to_showstring_frame env (time_to_showstring env s 20 item.start_time relative_to relative_time
      (flag_set settings env.SETTINGS_BOOL_12H)
      (flag_set settings env.SETTINGS_BOOL_12H && flag_set settings env.SETTINGS_BOOL_AMPM)
      (decide (item.start_time = item.end_time))).2 10 item.end_time relative_to
      (relative_time && decide (now ≥ item.start_time))
      (flag_set settings env.SETTINGS_BOOL_12H)
      (flag_set settings env.SETTINGS_BOOL_12H && flag_set settings env.SETTINGS_BOOL_AMPM) true
    simp only [show ¬ ((3 : Nat) = 2) by decide, show ¬ ((3 : Nat) = 4) by decide, if_false,
      false_and]
    exact ⟨same_frame_trans h1.1 h2.1, same_signal_trans h1.2.1 h2.2.1,
      same_arrays_trans h1.2.2 h2.2.2⟩
  · simp only [h3, if_false]
    exact time_to_showstring_frame _ _ _ _ _ _ _ _ _

theorem create_item_row_spec (env : Env) (settings : Nat) (now : Int) (i : Nat)
    (item : AgendaItem) (relative_to : Int) (relative_time : Bool) (row : Nat) (y : Int)
    (s : State) :
    same_frame s (create_item_row env settings now i item relative_to relative_time row y s).2
      ∧ same_signal s (create_item_row env settings now i item relative_to relative_time row y s).2
      ∧ ∃ new : List TextLayer,
          (create_item_row env settings now i item relative_to relative_time row y s).2.item_layers
              = s.item_layers ++ new
            ∧ (create_item_row env settings now i item relative_to relative_time row y s).2.num_layers
              = s.num_layers + new.length
            ∧ new.length ≤ 2
            ∧ (∀ x ∈ new, x.item = i ∧ x.y = y ∧ x.h = s.line_height)
            ∧ ((new = [] ∧ row = 1
                  ∧ (create_item_row env settings now i item relative_to relative_time row y s).1 = y)
                ∨ (new ≠ []
                  ∧ (create_item_row env settings now i item relative_to relative_time row y s).1
                      = y + s.line_height)) := by
  unfold create_item_row
  by_cases hskip : row = 1 ∧ item.row2design = 0
  · rw [if_pos hskip]
    refine ⟨by simp [same_frame], by simp [same_signal], [], by simp, by simp, by simp, by simp, ?_⟩
    exact Or.inl ⟨rfl, hskip.1, rfl⟩
  · rw [if_neg hskip]
    by_cases hd : ((if row = 0 then item.row1design else item.row2design)
        / env.ROW_DESIGN_TIME_TYPE_OFFSET) % 8 = 0
    · simp only [hd, ne_eq, not_true_eq_false, if_false]
      refine ⟨by simp [same_frame], by simp [same_signal], [_], rfl, rfl, by simp, ?_, ?_⟩
      · intro x hx
        simp only [List.mem_singleton] at hx
        subst hx
        exact ⟨rfl, rfl, rfl⟩
      · exact Or.inr ⟨by simp, trivial⟩
    · simp only [hd, ne_eq, not_false_eq_true, if_true]
      obtain ⟨hf, hs, ha⟩ := row_time_string_spec env settings now item relative_to relative_time
        (((if row = 0 then item.row1design else item.row2design)
          / env.ROW_DESIGN_TIME_TYPE_OFFSET) % 8) s
      refine ⟨hf, hs, ?_⟩
      simp only [ha.1, ha.2.2, List.append_assoc]
      refine ⟨_, rfl, ?_, by simp, ?_, ?_⟩
      · simp only [List.length_append, List.length_cons, List.length_nil]
      · intro x hx
        simp only [List.mem_append, List.mem_singleton] at hx
        rcases hx with hx | hx <;> subst hx <;> exact ⟨rfl, rfl, rfl⟩
      · exact Or.inr ⟨by simp, trivial⟩

theorem create_item_layers_spec (env : Env) (settings : Nat) (now : Int) (i : Nat) (y : Int)
    (item : AgendaItem) (relative_to : Int) (relative_time : Bool) (s : State) :
    same_frame s (create_item_layers env settings now i y item relative_to relative_time s).2
      ∧ same_signal s (create_item_layers env settings now i y item relative_to relative_time s).2
      ∧ ∃ rows : List TextLayer,
          (create_item_layers env settings now i y item relative_to relative_time s).2.item_layers
              = s.item_layers ++ rows
            ∧ (create_item_layers env settings now i y item relative_to relative_time s).2.num_layers
              = s.num_layers + rows.length
            ∧ rows.length ≤ 4
            ∧ (∃ x ∈ rows, x.y = y)
            ∧ (∀ x ∈ rows, x.item = i ∧ x.h = s.line_height)
            ∧ (((create_item_layers env settings now i y item relative_to relative_time s).1
                    = y + s.line_height ∧ ∀ x ∈ rows, x.y = y)
                ∨ ((create_item_layers env settings now i y item relative_to relative_time s).1
                    = y + s.line_height + s.line_height
                  ∧ ∀ x ∈ rows, x.y = y ∨ x.y = y + s.line_height)) := by
  unfold create_item_layers
  obtain ⟨hf0, hs0, new0, hl0, hn0, hlen0, hall0, hy0⟩ :=
    create_item_row_spec env settings now i item relative_to relative_time 0 y s
  have hy0' : new0 ≠ [] ∧ (create_item_row env settings now i item relative_to relative_time 0 y s).1
      = y + s.line_height := by
    rcases hy0 with ⟨_, h, _⟩ | h
    · exact absurd h (by decide)
    · exact h
  obtain ⟨hf1, hs1, new1, hl1, hn1, hlen1, hall1, hy1⟩ :=
    create_item_row_spec env settings now i item relative_to relative_time 1
      (create_item_row env settings now i item relative_to relative_time 0 y s).1
      (create_item_row env settings now i item relative_to relative_time 0 y s).2
  refine ⟨same_frame_trans hf0 hf1, same_signal_trans hs0 hs1, new0 ++ new1, ?_, ?_, ?_, ?_, ?_, ?_⟩
  · rw [hl1, hl0, List.append_assoc]
  · rw [hn1, hn0, List.length_append]; omega
  · rw [List.length_append]; omega
  · obtain ⟨x, hx⟩ := List.exists_mem_of_ne_nil new0 hy0'.1
    exact ⟨x, List.mem_append_left _ hx, (hall0 x hx).2.1⟩
  · intro x hx
    rcases List.mem_append.mp hx with hx | hx
    · exact ⟨(hall0 x hx).1, (hall0 x hx).2.2⟩
    · exact ⟨(hall1 x hx).1, (hall1 x hx).2.2.trans hf0.1⟩
  · rcases hy1 with ⟨hnil, _, hy⟩ | ⟨_, hy⟩
    · left
      refine ⟨by rw [hy, hy0'.2], ?_⟩
      intro x hx
      rw [hnil, List.append_nil] at hx
      exact (hall0 x hx).2.1
    · right
      refine ⟨by rw [hy, hy0'.2, hf0.1], ?_⟩
      intro x hx
      rcases List.mem_append.mp hx with hx | hx
      · exact Or.inl (hall0 x hx).2.1
      · exact Or.inr ((hall1 x hx).2.1.trans hy0'.2)

theorem schedule_refresh_frame (now : Int) (item : AgendaItem) (s : State) :
    same_frame s (schedule_refresh now item s) ∧ same_arrays s (schedule_refresh now item s)
      ∧ (schedule_refresh now item s).countdown_shown = s.countdown_shown := by
  unfold schedule_refresh
  by_cases h1 : (s.refresh_at = 0 ∨ s.refresh_at > item.start_time) ∧ item.start_time > now
  · simp only [h1, if_true]
    split_ifs <;> exact ⟨⟨rfl, rfl, rfl, rfl, rfl, rfl, rfl⟩, ⟨rfl, rfl, rfl⟩, rfl⟩
  · simp only [h1, if_false]
    split_ifs <;> exact ⟨⟨rfl, rfl, rfl, rfl, rfl, rfl, rfl⟩, ⟨rfl, rfl, rfl⟩, rfl⟩

theorem display_step_elapsed (env : Env) (settings : Nat) (now : Int) (item : AgendaItem)
    (l : Loop) (h : item.end_time ≠ 0 ∧ item.end_time < now) :
    display_step env settings now item l
      = { l with i := l.i + 1,
                 st := { l.st with elapsed_item_num := l.st.elapsed_item_num + 1 } } := by
  unfold display_step
  rw [if_pos h]

theorem place_separator_spec (env : Env) (settings : Nat) (now : Int) (item : AgendaItem)
    (l : Loop) :
    (separator_needed env now l.previous_item item = false
        ∧ place_separator env settings now item l = l)
      ∨ (separator_needed env now l.previous_item item = true
        ∧ (place_separator env settings now item l).y = l.y + l.st.line_height
        ∧ (place_separator env settings now item l).last_separator_date = item.start_time
        ∧ (place_separator env settings now item l).st.num_separators = l.st.num_separators + 1
        ∧ (place_separator env settings now item l).st.line_height = l.st.line_height
        ∧ (place_separator env settings now item l).st.header_height = l.st.header_height
        ∧ (place_separator env settings now item l).st.elapsed_item_num = l.st.elapsed_item_num
        ∧ same_arrays l.st (place_separator env settings now item l).st
        ∧ (place_separator env settings now item l).st.refresh_at = l.st.refresh_at
        ∧ (place_separator env settings now item l).st.countdown_shown = l.st.countdown_shown
        ∧ ∃ sep : TextLayer,
            (place_separator env settings now item l).st.day_separator_layers
                = l.st.day_separator_layers ++ [sep]
              ∧ sep.item = l.i ∧ sep.y = l.y ∧ sep.h = l.st.line_height) := by
  unfold place_separator
  cases hsep : separator_needed env now l.previous_item item
  · left
    simp
  · right
    rw [if_pos rfl]
    exact ⟨rfl, rfl, rfl, rfl, rfl, rfl, rfl, ⟨rfl, rfl, rfl⟩, rfl, rfl, _, rfl, rfl, rfl, rfl⟩

theorem display_step_shown (env : Env) (settings : Nat) (now : Int) (item : AgendaItem)
    (l l1 : Loop) (hl1 : l1 = display_step env settings now item l)
    (h : ¬ (item.end_time ≠ 0 ∧ item.end_time < now)) (hlh : 0 < l.st.line_height) :
    ∃ (seps rows : List TextLayer) (r : State),
      l1.i = l.i + 1
      ∧ l1.previous_item = some item
      ∧ l1.st.line_height = l.st.line_height
      ∧ l1.st.header_height = l.st.header_height
      ∧ l1.st.elapsed_item_num = l.st.elapsed_item_num
      ∧ l1.st.day_separator_layers = l.st.day_separator_layers ++ seps
      ∧ l1.st.item_layers = l.st.item_layers ++ rows
      ∧ l1.st.num_separators = l.st.num_separators + seps.length
      ∧ l1.st.num_layers = l.st.num_layers + rows.length
      ∧ rows.length ≤ 4
      ∧ (∀ x ∈ seps ++ rows, x.item = l.i ∧ x.h = l.st.line_height ∧ l.y ≤ x.y
            ∧ x.y + x.h < l1.y ∧ x.y ≤ l.y + 2 * l.st.line_height)
      ∧ ((separator_needed env now l.previous_item item = false ∧ seps = []
            ∧ ∃ x ∈ rows, x.y = l.y)
          ∨ (separator_needed env now l.previous_item item = true
            ∧ ∃ sep, seps = [sep] ∧ sep.y = l.y ∧ (∃ x ∈ rows, x.y = sep.y + sep.h)
                ∧ ∀ x ∈ rows, sep.y + sep.h ≤ x.y))
      ∧ same_signal l.st r
      ∧ l1.st.refresh_at = (schedule_refresh now item r).refresh_at
      ∧ l1.st.countdown_shown = r.countdown_shown := by
  subst hl1
  unfold display_step
  rw [if_neg h]
  obtain ⟨hf, hs, rows, hrows, hnum, hlen, hfirst, hall, hy⟩ :=
    create_item_layers_spec env settings now l.i (place_separator env settings now item l).y item
      (place_separator env settings now item l).last_separator_date
      (decide ((place_separator env settings now item l).st.num_separators = 0))
      (place_separator env settings now item l).st
  obtain ⟨hsf, hsa, hsc⟩ := schedule_refresh_frame now item
    (create_item_layers env settings now l.i (place_separator env settings now item l).y item
      (place_separator env settings now item l).last_separator_date
      (decide ((place_separator env settings now item l).st.num_separators = 0))
      (place_separator env settings now item l).st).2
  rcases place_separator_spec env settings now item l with ⟨hno, hp⟩ | ⟨hyes, hpy, -, hpn, hplh,
    hphh, hpel, hpa, hpr, hpc, sep, hpsep, hsepi, hsepy, hseph⟩
  · rw [hp] at hf hs hrows hnum hfirst hall hy hsf hsa hsc ⊢
    refine ⟨[], rows, _, rfl, rfl, hsf.1.trans hf.1, hsf.2.2.1.trans hf.2.2.1,
      hsf.2.2.2.1.trans hf.2.2.2.1, ?_, hsa.1.trans hrows, ?_, hsa.2.2.trans hnum, hlen, ?_,
      Or.inl ⟨hno, rfl, hfirst⟩, hs, rfl, hsc⟩
    · rw [hsf.2.2.2.2.2.1, hf.2.2.2.2.2.1, List.append_nil]
    · rw [hsf.2.2.2.2.1, hf.2.2.2.2.1]; rfl
    · intro x hx
      rw [List.nil_append] at hx
      refine ⟨(hall x hx).1, (hall x hx).2, ?_⟩
      show l.y ≤ x.y ∧ x.y + x.h < _ + 1 ∧ x.y ≤ l.y + 2 * l.st.line_height
      rw [(hall x hx).2]
      rcases hy with ⟨hy, hrow⟩ | ⟨hy, hrow⟩
      · rw [hy, hrow x hx]; omega
      · rw [hy]
        rcases hrow x hx with hx | hx <;> rw [hx] <;> omega
  · rw [hplh] at hall
    rw [hpy] at hfirst
    refine ⟨[sep], rows, _, rfl, rfl, hsf.1.trans (hf.1.trans hplh),
      (hsf.2.2.1.trans hf.2.2.1).trans hphh,
      (hsf.2.2.2.1.trans hf.2.2.2.1).trans hpel, ?_, (hsa.1.trans hrows).trans ?_, ?_,
      (hsa.2.2.trans hnum).trans ?_, hlen, ?_,
      Or.inr ⟨hyes, sep, rfl, hsepy, ?_, ?_⟩, same_signal_trans ?_ hs, rfl, hsc⟩
    · rw [hsf.2.2.2.2.2.1, hf.2.2.2.2.2.1, hpsep]
    · rw [hpa.1]
    · rw [hsf.2.2.2.2.1, hf.2.2.2.2.1, hpn]; rfl
    · rw [hpa.2.2]
    · intro x hx
      show x.item = l.i ∧ x.h = l.st.line_height ∧ l.y ≤ x.y ∧ x.y + x.h < _ + 1
        ∧ x.y ≤ l.y + 2 * l.st.line_height
      rcases List.mem_append.mp hx with hx | hx
      · rw [List.mem_singleton] at hx
        subst hx
        refine ⟨hsepi, hseph, by omega, ?_, by omega⟩
        rcases hy with ⟨hy, -⟩ | ⟨hy, -⟩ <;> omega
      · refine ⟨(hall x hx).1, (hall x hx).2, ?_⟩
        have hxh := (hall x hx).2
        rcases hy with ⟨hy, hrow⟩ | ⟨hy, hrow⟩
        · have := hrow x hx
          omega
        · rcases hrow x hx with hx | hx <;> omega
    · obtain ⟨x, hx, hxy⟩ := hfirst
      exact ⟨x, hx, by rw [hxy, hsepy, hseph]⟩
    · intro x hx
      rcases hy with ⟨-, hrow⟩ | ⟨-, hrow⟩
      · have := hrow x hx
        omega
      · rcases hrow x hx with hx | hx <;> omega
    · exact Or.inl ⟨hpr, hpc⟩

/-! ## The loop of `display_data` -/

theorem display_step_index (env : Env) (settings : Nat) (now : Int) (item : AgendaItem)
    (l : Loop) : (display_step env settings now item l).i = l.i + 1 := by
  unfold display_step
  split_ifs <;> rfl

theorem display_loop_invariant (env : Env) (settings : Nat) (now : Int) (db : List AgendaItem)
    (P : List AgendaItem → Loop → Prop)
    (hstep : ∀ pre item post l, db = pre ++ item :: post → P pre l → l.y < 168 →
      P (pre ++ [item]) (display_step env settings now item l)) :
    ∀ (rest pre : List AgendaItem) (l : Loop), db = pre ++ rest → P pre l →
      ∃ k, k ≤ rest.length
        ∧ (display_loop env settings now rest l).i = l.i + k
        ∧ P (pre ++ rest.take k) (display_loop env settings now rest l)
        ∧ (k = rest.length ∨ 168 ≤ (display_loop env settings now rest l).y) := by
  intro rest
  induction rest with
  | nil =>
    intro pre l _ hP
    exact ⟨0, le_refl _, rfl, by simpa using hP, Or.inl rfl⟩
  | cons item rest ih =>
    intro pre l hdb hP
    unfold display_loop
    by_cases hy : l.y < 168
    · rw [if_pos hy]
      obtain ⟨k, hk, hi, hPk, hend⟩ := ih (pre ++ [item]) (display_step env settings now item l)
        (by rw [hdb, List.append_assoc, List.singleton_append])
        (hstep pre item rest l hdb hP hy)
      refine ⟨k + 1, by simpa using hk, ?_, ?_, ?_⟩
      · rw [hi, display_step_index]; omega
      · rw [List.take_succ_cons, ← List.singleton_append, ← List.append_assoc]
        exact hPk
      · rcases hend with h | h
        · exact Or.inl (by simp [h])
        · exact Or.inr h
    · rw [if_neg hy]
      exact ⟨0, Nat.zero_le _, rfl, by simpa using hP, Or.inr (by omega)⟩

theorem display_init_line_height (env : Env) (settings : Nat) (now : Int) (s : State) :
    (display_init env settings now s).st.line_height = 16
      ∨ (display_init env settings now s).st.line_height = 22
      ∨ (display_init env settings now s).st.line_height = 28 := by
  unfold display_init set_font_from_settings
  simp only
  split_ifs <;> simp

theorem display_items_invariant (env : Env) (settings : Nat) (now : Int) (db : List AgendaItem)
    (s : State) (P : List AgendaItem → Loop → Prop)
    (hinit : ∀ l : Loop, l.i = 0 → l.y = s.header_height → l.previous_item = none →
      l.last_separator_date = now → l.st.item_layers = [] → l.st.day_separator_layers = [] →
      l.st.num_layers = 0 → l.st.num_separators = 0 → l.st.elapsed_item_num = 0 →
      l.st.refresh_at = 0 → l.st.countdown_shown = false → l.st.header_height = s.header_height →
      (l.st.line_height = 16 ∨ l.st.line_height = 22 ∨ l.st.line_height = 28) → P [] l)
    (hstep : ∀ pre item post l, db = pre ++ item :: post → P pre l → l.y < 168 →
      P (pre ++ [item]) (display_step env settings now item l)) :
    (display_items env settings now db s).i ≤ db.length
      ∧ P (db.take (display_items env settings now db s).i) (display_items env settings now db s)
      ∧ ((display_items env settings now db s).i = db.length
          ∨ 168 ≤ (display_items env settings now db s).y) := by
  unfold display_items
  have h0 : P [] (display_init env settings now s) :=
    hinit _ rfl rfl rfl rfl rfl rfl rfl rfl rfl rfl rfl rfl
      (display_init_line_height env settings now s)
  obtain ⟨k, hk, hi, hP, hend⟩ := display_loop_invariant env settings now db P hstep db []
    (display_init env settings now s) (List.nil_append db).symm h0
  have hi0 : (display_init env settings now s).i = 0 := rfl
  rw [hi0, Nat.zero_add] at hi
  rw [List.nil_append] at hP
  rw [hi]
  exact ⟨hk, hP, hend⟩

/-! ## Elapsed items -/

theorem adjust_refresh_at_frame (s : State) :
    same_frame s (adjust_refresh_at s) ∧ same_arrays s (adjust_refresh_at s)
      ∧ (adjust_refresh_at s).countdown_shown = s.countdown_shown := by
  unfold adjust_refresh_at
  split_ifs <;> exact ⟨⟨rfl, rfl, rfl, rfl, rfl, rfl, rfl⟩, ⟨rfl, rfl, rfl⟩, rfl⟩

theorem display_data_of_ne_nil (env : Env) (settings : Nat) (now : Int) (db : List AgendaItem)
    (s : State) (hdb : db ≠ []) :
    display_data env settings now db s
      = adjust_refresh_at (display_items env settings now db s).st := by
  unfold display_data
  have : ¬ db.length ≤ 0 := by
    have := List.length_pos.mpr hdb
    omega
  rw [if_neg this]

/-- C1, the claim as stated fails: with three two-row items that fill the screen
(font tier 2, header height 40) the loop stops before the fourth item, which
has elapsed; the elapsed count left is 0 although one item of the list has
`end_time != 0` and `end_time < now`. -/
theorem display_data_elapsed_counterexample :
    (display_data stdEnv 2 28800600
        [⟨0, 8, 28800500, 28800900, none, none⟩, ⟨0, 8, 28800500, 28800900, none, none⟩,
         ⟨0, 8, 28800500, 28800900, none, none⟩, ⟨0, 0, 28800510, 28800520, none, none⟩]
        (initial_state 40)).elapsed_item_num = 0
      ∧ (List.filter (elapsed 28800600)
          [⟨0, 8, 28800500, 28800900, none, none⟩, ⟨0, 8, 28800500, 28800900, none, none⟩,
           ⟨0, 8, 28800500, 28800900, none, none⟩, ⟨0, 0, 28800510, 28800520, none, none⟩]).length
        = 1 := by
  decide

/-- C1 as amended: for every item list that is not empty and every `now`, a
rebuild creates no region for an item with `end_time != 0` and `end_time < now`,
and the elapsed count it leaves is the number of such items among the items that
the loop has visited, which are the first `i` items of the list, where the loop
stops at the first index `i` at which the cursor `y` has reached 168 (or at the
end of the list); when the loop visits the whole list, the count is the number
of such items in the list. -/
theorem display_data_skips_elapsed (env : Env) (settings : Nat) (now : Int)
    (db : List AgendaItem) (s : State) (hdb : db ≠ []) :
    (∀ x ∈ (display_data env settings now db s).item_layers
          ++ (display_data env settings now db s).day_separator_layers,
        ∃ item, db[x.item]? = some item ∧ ¬ (item.end_time ≠ 0 ∧ item.end_time < now))
      ∧ (display_data env settings now db s).elapsed_item_num
          = ((db.take (display_items env settings now db s).i).filter (elapsed now)).length
      ∧ ((display_items env settings now db s).i = db.length
          ∨ 168 ≤ (display_items env settings now db s).y)
      ∧ ((display_items env settings now db s).i = db.length →
          (display_data env settings now db s).elapsed_item_num
            = (db.filter (elapsed now)).length) := by
  rw [display_data_of_ne_nil env settings now db s hdb]
  obtain ⟨haf, haa, -⟩ := adjust_refresh_at_frame (display_items env settings now db s).st
  rw [haf.2.2.2.1, haf.2.2.2.2.2.1, haa.1]
  obtain ⟨hle, ⟨hI, hcount, hlay, hlh⟩, hend⟩ := display_items_invariant env settings now db s
    (fun pre l => l.i = pre.length
      ∧ l.st.elapsed_item_num = (pre.filter (elapsed now)).length
      ∧ (∀ x ∈ l.st.item_layers ++ l.st.day_separator_layers,
          ∃ item, pre[x.item]? = some item ∧ ¬ (item.end_time ≠ 0 ∧ item.end_time < now))
      ∧ 0 < l.st.line_height)
    (by
      intro l h1 _ _ _ h5 h6 _ _ h9 _ _ _ h13
      refine ⟨by simpa using h1, by simpa using h9, ?_, by omega⟩
      intro x hx
      rw [h5, h6] at hx
      exact absurd hx (by simp))
    (by
      intro pre item post l _ ⟨hi, hcount, hlay, hlh⟩ _
      by_cases hel : item.end_time ≠ 0 ∧ item.end_time < now
      · rw [display_step_elapsed env settings now item l hel]
        refine ⟨by simp [hi], ?_, ?_, hlh⟩
        · have : elapsed now item = true := by simp [elapsed, hel]
          simp [List.filter_append, this, hcount]
        · intro x hx
          obtain ⟨it, hit, hne⟩ := hlay x hx
          refine ⟨it, ?_, hne⟩
          have hlt : x.item < pre.length := by
            by_contra hcon
            rw [List.getElem?_eq_none (by omega)] at hit
            exact absurd hit (by simp)
          rw [List.getElem?_append_left hlt]
          exact hit
      · obtain ⟨seps, rows, r, h1, -, h3, -, h5, h6, h7, -, -, -, hall, -⟩ :=
          display_step_shown env settings now item l _ rfl hel hlh
        refine ⟨by rw [h1, hi]; simp, ?_, ?_, by rw [h3]; exact hlh⟩
        · have : elapsed now item = false := by simp [elapsed, hel]
          rw [h5, hcount]
          simp [List.filter_append, this]
        · intro x hx
          rw [h6, h7] at hx
          have hx' : x ∈ (l.st.item_layers ++ l.st.day_separator_layers) ∨ x ∈ seps ++ rows := by
            simp only [List.mem_append] at hx ⊢
            tauto
          rcases hx' with hx' | hx'
          · obtain ⟨it, hit, hne⟩ := hlay x hx'
            refine ⟨it, ?_, hne⟩
            have hlt : x.item < pre.length := by
              by_contra hcon
              rw [List.getElem?_eq_none (by omega)] at hit
              exact absurd hit (by simp)
            rw [List.getElem?_append_left hlt]
            exact hit
          · refine ⟨item, ?_, hel⟩
            rw [(hall x hx').1, hi]
            simp)
  refine ⟨?_, hcount, hend, ?_⟩
  · intro x hx
    obtain ⟨it, hit, hne⟩ := hlay x hx
    refine ⟨it, ?_, hne⟩
    rw [List.getElem?_take] at hit
    split_ifs at hit
    exact hit
  · intro hall
    rw [hcount, hall, List.take_length]

/-- Witness of C1 as amended: one elapsed item followed by one running item. -/
theorem display_data_skips_elapsed_witness :
    ([⟨1, 0, 28800500, 28800520, none, none⟩, ⟨1, 0, 28800500, 28800900, none, none⟩] :
        List AgendaItem) ≠ []
      ∧ (display_data stdEnv 0 28800600
          [⟨1, 0, 28800500, 28800520, none, none⟩, ⟨1, 0, 28800500, 28800900, none, none⟩]
          (initial_state 40)).elapsed_item_num = 1 :=
  ⟨by decide,
    ((display_data_skips_elapsed stdEnv 0 28800600
      [⟨1, 0, 28800500, 28800520, none, none⟩, ⟨1, 0, 28800500, 28800900, none, none⟩]
      (initial_state 40) (by decide)).2.2.2 (by decide)).trans (by decide)⟩

/-! ## Geometry of the layout -/

theorem mem_step_layers {A B rows seps : List TextLayer} {x : TextLayer} :
    x ∈ (A ++ rows) ++ (B ++ seps) ↔ x ∈ A ++ B ∨ x ∈ seps ++ rows := by
  simp only [List.mem_append]
  tauto

theorem display_items_geometry (env : Env) (settings : Nat) (now : Int) (db : List AgendaItem)
    (s : State) :
    ((display_items env settings now db s).st.line_height = 16
        ∨ (display_items env settings now db s).st.line_height = 22
        ∨ (display_items env settings now db s).st.line_height = 28)
      ∧ (∀ x ∈ (display_items env settings now db s).st.item_layers
            ++ (display_items env settings now db s).st.day_separator_layers,
          x.item < (display_items env settings now db s).i
            ∧ s.header_height ≤ x.y
            ∧ x.y + x.h < (display_items env settings now db s).y
            ∧ x.h = (display_items env settings now db s).st.line_height
            ∧ x.y < 168 + 2 * (display_items env settings now db s).st.line_height
            ∧ ∃ x0 ∈ (display_items env settings now db s).st.item_layers
                ++ (display_items env settings now db s).st.day_separator_layers,
                x0.item = x.item ∧ x0.y < 168 ∧ x0.y ≤ x.y)
      ∧ (∀ x ∈ (display_items env settings now db s).st.item_layers
            ++ (display_items env settings now db s).st.day_separator_layers,
          ∀ x1 ∈ (display_items env settings now db s).st.item_layers
            ++ (display_items env settings now db s).st.day_separator_layers,
          x.item < x1.item → x.y + x.h < x1.y) := by
  obtain ⟨-, ⟨-, hlh, hall, hpair⟩, -⟩ := display_items_invariant env settings now db s
    (fun _ l => s.header_height ≤ l.y
      ∧ (l.st.line_height = 16 ∨ l.st.line_height = 22 ∨ l.st.line_height = 28)
      ∧ (∀ x ∈ l.st.item_layers ++ l.st.day_separator_layers,
          x.item < l.i ∧ s.header_height ≤ x.y ∧ x.y + x.h < l.y ∧ x.h = l.st.line_height
            ∧ x.y < 168 + 2 * l.st.line_height
            ∧ ∃ x0 ∈ l.st.item_layers ++ l.st.day_separator_layers,
                x0.item = x.item ∧ x0.y < 168 ∧ x0.y ≤ x.y)
      ∧ (∀ x ∈ l.st.item_layers ++ l.st.day_separator_layers,
          ∀ x1 ∈ l.st.item_layers ++ l.st.day_separator_layers,
          x.item < x1.item → x.y + x.h < x1.y))
    (by
      intro l _ h2 _ _ h5 h6 _ _ _ _ _ _ h13
      refine ⟨by omega, h13, ?_, ?_⟩
      · intro x hx
        rw [h5, h6] at hx
        exact absurd hx (by simp)
      · intro x hx
        rw [h5, h6] at hx
        exact absurd hx (by simp))
    (by
      intro pre item post l _ ⟨hy0, hlh3, hall, hpair⟩ hy
      have hlh : 0 < l.st.line_height := by omega
      by_cases hel : item.end_time ≠ 0 ∧ item.end_time < now
      · rw [display_step_elapsed env settings now item l hel]
        refine ⟨hy0, hlh3, ?_, hpair⟩
        intro x hx
        obtain ⟨h1, h2⟩ := hall x hx
        exact ⟨Nat.lt_succ_of_lt h1, h2⟩
      · obtain ⟨seps, rows, r, h1, -, h3, -, -, h6, h7, -, -, -, hnew, hfirst, -⟩ :=
          display_step_shown env settings now item l _ rfl hel hlh
        have hx0 : ∃ x0 ∈ seps ++ rows, x0.y = l.y := by
          rcases hfirst with ⟨-, -, x, hx, hxy⟩ | ⟨-, sep, hsep, hsy, -⟩
          · exact ⟨x, List.mem_append_right _ hx, hxy⟩
          · exact ⟨sep, List.mem_append_left _ (by simp [hsep]), hsy⟩
        have hmono : l.y < (display_step env settings now item l).y := by
          obtain ⟨x0, hx0m, hx0y⟩ := hx0
          have := hnew x0 hx0m
          omega
        rw [h6, h7, h3, h1]
        refine ⟨by omega, hlh3, ?_, ?_⟩
        · intro x hx
          rcases mem_step_layers.mp hx with hx | hx
          · obtain ⟨a1, a2, a3, a4, a5, x0, hx0m, a6⟩ := hall x hx
            exact ⟨by omega, a2, by omega, a4, a5, x0, mem_step_layers.mpr (Or.inl hx0m), a6⟩
          · obtain ⟨b1, b2, b3, b4, b5⟩ := hnew x hx
            obtain ⟨x0, hx0m, hx0y⟩ := hx0
            exact ⟨by omega, by omega, b4, b2, by omega, x0, mem_step_layers.mpr (Or.inr hx0m),
              by rw [(hnew x0 hx0m).1, b1], by omega, by omega⟩
        · intro x hx x1 hx1 hlt
          rcases mem_step_layers.mp hx with hx | hx <;>
            rcases mem_step_layers.mp hx1 with hx1 | hx1
          · exact hpair x hx x1 hx1 hlt
          · have := (hall x hx).2.2.1
            have := (hnew x1 hx1).2.2.1
            omega
          · have := (hall x1 hx1).1
            have := (hnew x hx).1
            omega
          · have := (hnew x1 hx1).1
            have := (hnew x hx).1
            omega)
  exact ⟨hlh, hall, hpair⟩

/-- C6, the claim as stated fails: with font tier 2 and header height 40 the
third of three two-row items is begun at `y = 154`, so its second row is
created at `y = 182` with height 28: top and bottom lie beyond 168. -/
theorem display_data_beyond_bound :
    ∃ x ∈ (display_data stdEnv 2 28800600
        [⟨0, 8, 28800500, 28800900, none, none⟩, ⟨0, 8, 28800500, 28800900, none, none⟩,
         ⟨0, 8, 28800500, 28800900, none, none⟩] (initial_state 40)).item_layers,
      x.item = 2 ∧ x.y = 182 ∧ x.h = 28 ∧ ¬ (x.y ≤ 168) ∧ ¬ (x.y + x.h ≤ 168) :=
  ⟨{ x := 0, y := 182, w := 144, h := 28, text := none, bold := true, inverted := false,
     item := 2 }, by decide, by decide⟩

/-- C6 as amended: for every item list that is not empty, header height and
font tier, `display_data` begins an item only while the cursor is above the
bound: every region it creates belongs to one of the first `i` items, where the
loop stops at the first index `i` at which the cursor `y` has reached 168 (the
items from there on are omitted); the first region created for an item has its
top `y` below 168; every region has its top between the header height and
`168 + 2 * line_height` (exclusive) and its bottom below `168 + 3 * line_height`,
where `line_height` is 16, 22 or 28.  Regions of an item that is begun above
the bound may thus reach beyond 168. -/
theorem display_data_vertical_bound (env : Env) (settings : Nat) (now : Int)
    (db : List AgendaItem) (s : State) (hdb : db ≠ []) :
    ((display_data env settings now db s).line_height = 16
        ∨ (display_data env settings now db s).line_height = 22
        ∨ (display_data env settings now db s).line_height = 28)
      ∧ (∀ x ∈ (display_data env settings now db s).item_layers
            ++ (display_data env settings now db s).day_separator_layers,
          x.item < (display_items env settings now db s).i
            ∧ s.header_height ≤ x.y
            ∧ x.y < 168 + 2 * (display_data env settings now db s).line_height
            ∧ x.y + x.h < 168 + 3 * (display_data env settings now db s).line_height
            ∧ ∃ x0 ∈ (display_data env settings now db s).item_layers
                ++ (display_data env settings now db s).day_separator_layers,
                x0.item = x.item ∧ x0.y < 168 ∧ x0.y ≤ x.y)
      ∧ ((display_items env settings now db s).i = db.length
          ∨ 168 ≤ (display_items env settings now db s).y) := by
  rw [display_data_of_ne_nil env settings now db s hdb]
  obtain ⟨haf, haa, -⟩ := adjust_refresh_at_frame (display_items env settings now db s).st
  rw [haf.1, haf.2.2.2.2.2.1, haa.1]
  obtain ⟨hlh, hall, -⟩ := display_items_geometry env settings now db s
  obtain ⟨-, -, hend⟩ := display_items_invariant env settings now db s (fun _ _ => True)
    (fun _ _ _ _ _ _ _ _ _ _ _ _ _ _ => trivial) (fun _ _ _ _ _ _ _ => trivial)
  refine ⟨hlh, ?_, hend⟩
  intro x hx
  obtain ⟨a1, a2, -, a4, a5, a6⟩ := hall x hx
  exact ⟨a1, a2, a5, by omega, a6⟩

/-- Witness of C6 as amended: the three two-row items of the counterexample; the
region at `y = 182` belongs to item 2, whose first row lies at `y = 154`. -/
theorem display_data_vertical_bound_witness :
    ([⟨0, 8, 28800500, 28800900, none, none⟩, ⟨0, 8, 28800500, 28800900, none, none⟩,
      ⟨0, 8, 28800500, 28800900, none, none⟩] : List AgendaItem) ≠ []
      ∧ (182 : Int) < 168 + 2 * (display_data stdEnv 2 28800600
          [⟨0, 8, 28800500, 28800900, none, none⟩, ⟨0, 8, 28800500, 28800900, none, none⟩,
           ⟨0, 8, 28800500, 28800900, none, none⟩] (initial_state 40)).line_height :=
  ⟨by decide,
    ((display_data_vertical_bound stdEnv 2 28800600
      [⟨0, 8, 28800500, 28800900, none, none⟩, ⟨0, 8, 28800500, 28800900, none, none⟩,
       ⟨0, 8, 28800500, 28800900, none, none⟩] (initial_state 40) (by decide)).2.1
      { x := 0, y := 182, w := 144, h := 28, text := none, bold := true, inverted := false,
        item := 2 } (by decide)).2.2.1⟩

/-- C8: for every item list that is not empty and every two items at input
positions `i < j`, every region created for item `i` (its separator and its
rows) lies above every region created for item `j`: it ends before the other
begins, so its `y` is strictly smaller.  The line height that
`set_font_from_settings` chooses is always positive. -/
theorem display_data_vertical_order (env : Env) (settings : Nat) (now : Int)
    (db : List AgendaItem) (s : State) (hdb : db ≠ []) :
    0 < (display_data env settings now db s).line_height
      ∧ ∀ x ∈ (display_data env settings now db s).item_layers
            ++ (display_data env settings now db s).day_separator_layers,
          ∀ x1 ∈ (display_data env settings now db s).item_layers
            ++ (display_data env settings now db s).day_separator_layers,
          x.item < x1.item → x.y < x1.y ∧ x.y + x.h < x1.y := by
  rw [display_data_of_ne_nil env settings now db s hdb]
  obtain ⟨haf, haa, -⟩ := adjust_refresh_at_frame (display_items env settings now db s).st
  rw [haf.1, haf.2.2.2.2.2.1, haa.1]
  obtain ⟨hlh, hall, hpair⟩ := display_items_geometry env settings now db s
  refine ⟨by omega, ?_⟩
  intro x hx x1 hx1 hlt
  have h1 := hpair x hx x1 hx1 hlt
  have h2 := (hall x hx).2.2.2.1
  exact ⟨by omega, h1⟩

/-- Witness of C8: two one-row items without time column; the region of the
first has `y = 40`, that of the second `y = 57`. -/
theorem display_data_vertical_order_witness :
    ([⟨0, 0, 28800500, 28800900, none, none⟩, ⟨0, 0, 28800700, 28800900, none, none⟩] :
        List AgendaItem) ≠ []
      ∧ (40 : Int) < 57 ∧ (40 : Int) + 16 < 57 :=
  ⟨by decide,
    (display_data_vertical_order stdEnv 0 28800600
      [⟨0, 0, 28800500, 28800900, none, none⟩, ⟨0, 0, 28800700, 28800900, none, none⟩]
      (initial_state 40) (by decide)).2
      { x := 0, y := 40, w := 144, h := 16, text := none, bold := false, inverted := false,
        item := 0 } (by decide)
      { x := 0, y := 57, w := 144, h := 16, text := none, bold := false, inverted := false,
        item := 1 } (by decide) (by decide)⟩

/-! ## The refresh instant -/

theorem tmod_3600_of_nonneg (r : Int) (h : 0 ≤ r) :
    (60 ≤ r.tmod (60 * 60)) ↔ (r / 60) % 60 ≠ 0 := by
  rw [Int.tmod_eq_emod h (by decide)]
  omega

theorem tmod_3600_of_neg (r : Int) (h : r < 0) : ¬ (60 ≤ r.tmod (60 * 60)) := by
  obtain ⟨n, rfl⟩ := Int.eq_negSucc_of_lt_zero h
  have h1 : (Int.negSucc n).tmod (60 * 60) = -((n.succ % 3600 : Nat) : Int) := rfl
  rw [h1]
  omega

/-- C4, the claim as stated fails, in both directions.  An item from 00:05 to
01:00 seen at 00:01 gives the minimum `r` = 00:05, whose minute within the hour
is 5, and the final refresh instant is `r`, not `r - 60`.  An item from 10:00 to
11:00 seen at 09:30 gives the minimum `r` = 10:00, exactly on the hour, and the
final refresh instant is `r - 60`. -/
theorem display_data_pull_back_counterexample :
    ((display_items stdEnv 0 28800001 [⟨0, 0, 28800005, 28800060, none, none⟩]
          (initial_state 40)).st.refresh_at = 28800005
        ∧ stdEnv.caltime_get_minute 28800005 = 5
        ∧ (display_data stdEnv 0 28800001 [⟨0, 0, 28800005, 28800060, none, none⟩]
            (initial_state 40)).refresh_at = 28800005)
      ∧ ((display_items stdEnv 0 28800570 [⟨0, 0, 28800600, 28800660, none, none⟩]
          (initial_state 40)).st.refresh_at = 28800600
        ∧ stdEnv.caltime_get_minute 28800600 = 0
        ∧ (display_data stdEnv 0 28800570 [⟨0, 0, 28800600, 28800660, none, none⟩]
            (initial_state 40)).refresh_at = 28800600 - 60) := by
  decide

/-- C4 as amended: with `r` the refresh instant that the loop of `display_data`
leaves (a count of minutes), the final refresh instant is `r - 60` when the C
remainder `r % 3600` is at least 60 and `r` unchanged otherwise; for `r >= 0`
this means: `r - 60` when the number of whole hours in `r` is not a multiple of
60, and `r` when it is (in particular for the values 0 and 1); a negative `r` is
left unchanged.  The minute within the hour of `r` plays no part. -/
theorem display_data_pull_back (env : Env) (settings : Nat) (now : Int) (db : List AgendaItem)
    (s : State) (hdb : db ≠ []) :
    (display_data env settings now db s).refresh_at
        = (if 60 ≤ (display_items env settings now db s).st.refresh_at.tmod (60 * 60) then
            (display_items env settings now db s).st.refresh_at - 60
          else (display_items env settings now db s).st.refresh_at)
      ∧ (0 ≤ (display_items env settings now db s).st.refresh_at →
          ((display_items env settings now db s).st.refresh_at / 60) % 60 ≠ 0 →
          (display_data env settings now db s).refresh_at
            = (display_items env settings now db s).st.refresh_at - 60)
      ∧ (0 ≤ (display_items env settings now db s).st.refresh_at →
          ((display_items env settings now db s).st.refresh_at / 60) % 60 = 0 →
          (display_data env settings now db s).refresh_at
            = (display_items env settings now db s).st.refresh_at)
      ∧ ((display_items env settings now db s).st.refresh_at < 0 →
          (display_data env settings now db s).refresh_at
            = (display_items env settings now db s).st.refresh_at) := by
  rw [display_data_of_ne_nil env settings now db s hdb]
  generalize (display_items env settings now db s).st = st
  have key : (adjust_refresh_at st).refresh_at
      = (if 60 ≤ st.refresh_at.tmod (60 * 60) then st.refresh_at - 60 else st.refresh_at) := by
    unfold adjust_refresh_at
    split_ifs <;> rfl
  refine ⟨key, ?_, ?_, ?_⟩
  · intro h0 h1
    rw [key, if_pos ((tmod_3600_of_nonneg _ h0).mpr h1)]
  · intro h0 h1
    rw [key, if_neg (fun h => (tmod_3600_of_nonneg _ h0).mp h h1)]
  · intro h0
    rw [key, if_neg (tmod_3600_of_neg _ h0)]

/-- Witness of C4 as amended: the item from 10:00 to 11:00 seen at 09:30. -/
theorem display_data_pull_back_witness :
    ([⟨0, 0, 28800600, 28800660, none, none⟩] : List AgendaItem) ≠ []
      ∧ (display_data stdEnv 0 28800570 [⟨0, 0, 28800600, 28800660, none, none⟩]
          (initial_state 40)).refresh_at = 28800540 :=
  ⟨by decide,
    (display_data_pull_back stdEnv 0 28800570 [⟨0, 0, 28800600, 28800660, none, none⟩]
      (initial_state 40) (by decide)).1.trans (by decide)⟩

/-- C5, the code at the failing input: one item that starts in five minutes and
has no end (`end_time = 0`), shown with its start time.  The time text is the
countdown "5min", yet the rebuild leaves `refresh_at = 0`: the line that offers
`end_time` compares the forced value 1 with 0 and overwrites it.  The tick of
the next minute (10:01) therefore does not rebuild. -/
theorem display_data_countdown_lost :
    (display_data stdEnv 0 28800600 [⟨1, 0, 28800605, 0, some "Meeting".toList, none⟩]
        (initial_state 40)).item_texts = [some "5min".toList, some "Meeting".toList]
      ∧ (display_data stdEnv 0 28800600 [⟨1, 0, 28800605, 0, some "Meeting".toList, none⟩]
          (initial_state 40)).countdown_shown = true
      ∧ (display_data stdEnv 0 28800600 [⟨1, 0, 28800605, 0, some "Meeting".toList, none⟩]
          (initial_state 40)).refresh_at = 0
      ∧ refresh_due 10 1 28800601
          (display_data stdEnv 0 28800600 [⟨1, 0, 28800605, 0, some "Meeting".toList, none⟩]
            (initial_state 40)) = false := by
  decide

theorem refresh_candidates_append (now : Int) (pre : List AgendaItem) (item : AgendaItem) :
    refresh_candidates now (pre ++ [item])
      = refresh_candidates now pre ++ refresh_candidates now [item] := by
  induction pre with
  | nil => simp [refresh_candidates]
  | cons a pre ih =>
    have e1 : ∀ l, refresh_candidates now (a :: l)
        = if elapsed now a then refresh_candidates now l
          else (if a.start_time > now then [a.start_time] else [])
            ++ a.end_time :: refresh_candidates now l := fun l => rfl
    rw [List.cons_append, e1, e1, ih]
    split_ifs <;> simp

theorem refresh_candidates_ne_zero (now : Int) (l : List AgendaItem)
    (hzero : ∀ item ∈ l, item.end_time ≠ 0 ∧ (item.start_time > now → item.start_time ≠ 0)) :
    ∀ c ∈ refresh_candidates now l, c ≠ 0 := by
  induction l with
  | nil => intro c hc; simp [refresh_candidates] at hc
  | cons a l ih =>
    have ih1 := ih (fun item hitem => hzero item (List.mem_cons_of_mem _ hitem))
    have ha := hzero a (List.mem_cons_self _ _)
    intro c hc
    unfold refresh_candidates at hc
    by_cases hel : elapsed now a = true
    · rw [if_pos hel] at hc
      exact ih1 c hc
    · rw [if_neg hel] at hc
      rcases List.mem_append.mp hc with hc | hc
      · split_ifs at hc with hs
        · simp only [List.mem_singleton] at hc
          rw [hc]
          exact ha.2 hs
        · simp at hc
      · rcases List.mem_cons.mp hc with hc | hc
        · rw [hc]
          exact ha.1
        · exact ih1 c hc

theorem schedule_refresh_value (now : Int) (item : AgendaItem) (s : State) :
    (schedule_refresh now item s).refresh_at
      = (if (if (s.refresh_at = 0 ∨ s.refresh_at > item.start_time) ∧ item.start_time > now
              then item.start_time else s.refresh_at) = 0
            ∨ (if (s.refresh_at = 0 ∨ s.refresh_at > item.start_time) ∧ item.start_time > now
              then item.start_time else s.refresh_at) > item.end_time
          then item.end_time
          else (if (s.refresh_at = 0 ∨ s.refresh_at > item.start_time) ∧ item.start_time > now
              then item.start_time else s.refresh_at)) := by
  unfold schedule_refresh
  by_cases h1 : (s.refresh_at = 0 ∨ s.refresh_at > item.start_time) ∧ item.start_time > now
  · simp only [h1, if_true]
    split_ifs <;> rfl
  · simp only [h1, if_false]
    split_ifs <;> rfl

theorem refresh_value_minimum (now R a b V : Int) (ha : a > now → a ≠ 0) (hb : b ≠ 0)
    (hV : V = (if (if (R = 0 ∨ R > a) ∧ a > now then a else R) = 0
              ∨ (if (R = 0 ∨ R > a) ∧ a > now then a else R) > b
            then b else (if (R = 0 ∨ R > a) ∧ a > now then a else R))) :
    (a > now → (V = a ∨ V = b ∨ (V = R ∧ R ≠ 0)) ∧ V ≤ a)
      ∧ (¬ a > now → (V = b ∨ (V = R ∧ R ≠ 0)))
      ∧ V ≤ b
      ∧ (R ≠ 0 → V ≤ R) := by
  subst hV
  split_ifs <;> omega

theorem refresh_candidates_single (now : Int) (item : AgendaItem)
    (hshown : ¬ (item.end_time ≠ 0 ∧ item.end_time < now)) :
    refresh_candidates now [item]
      = (if item.start_time > now then [item.start_time] else []) ++ [item.end_time] := by
  have hel : ¬ (elapsed now item = true) := by simpa [elapsed] using hshown
  simp [refresh_candidates, hel]

theorem schedule_refresh_minimum (now : Int) (item : AgendaItem) (s : State) (cs : List Int)
    (hzero : item.end_time ≠ 0 ∧ (item.start_time > now → item.start_time ≠ 0))
    (hshown : ¬ (item.end_time ≠ 0 ∧ item.end_time < now))
    (hpos : ∀ c ∈ cs, c ≠ 0)
    (hmin : (cs = [] ∧ s.refresh_at = 0) ∨ (s.refresh_at ∈ cs ∧ ∀ c ∈ cs, s.refresh_at ≤ c)) :
    (schedule_refresh now item s).refresh_at ∈ cs ++ refresh_candidates now [item]
      ∧ ∀ c ∈ cs ++ refresh_candidates now [item], (schedule_refresh now item s).refresh_at ≤ c := by
  have hV := schedule_refresh_value now item s
  generalize (schedule_refresh now item s).refresh_at = V at hV ⊢
  obtain ⟨k1, k2, k3, k4⟩ := refresh_value_minimum now s.refresh_at item.start_time item.end_time
    V hzero.2 hzero.1 hV
  have hRmem : s.refresh_at ≠ 0 → s.refresh_at ∈ cs ∧ ∀ c ∈ cs, s.refresh_at ≤ c := by
    intro hne
    rcases hmin with ⟨-, h0⟩ | h
    · exact absurd h0 hne
    · exact h
  have hcs : ∀ c ∈ cs, s.refresh_at ≠ 0 := by
    intro c hc h0
    rcases hmin with ⟨hnil, -⟩ | ⟨hmem, -⟩
    · rw [hnil] at hc
      exact absurd hc (List.not_mem_nil _)
    · exact hpos _ hmem h0
  rw [refresh_candidates_single now item hshown]
  by_cases hs : item.start_time > now
  · obtain ⟨m1, m2⟩ := k1 hs
    rw [if_pos hs]
    simp only [List.mem_append, List.mem_singleton]
    constructor
    · rcases m1 with m | m | ⟨m, hne⟩
      · exact Or.inr (Or.inl m)
      · exact Or.inr (Or.inr m)
      · rw [m]
        exact Or.inl (hRmem hne).1
    · intro c hc
      rcases hc with hc | hc | hc
      · exact le_trans (k4 (hcs c hc)) ((hRmem (hcs c hc)).2 c hc)
      · omega
      · omega
  · have m1 := k2 hs
    rw [if_neg hs]
    simp only [List.mem_append, List.mem_singleton, List.not_mem_nil, false_or]
    constructor
    · rcases m1 with m | ⟨m, hne⟩
      · exact Or.inr m
      · rw [m]
        exact Or.inl (hRmem hne).1
    · intro c hc
      rcases hc with hc | hc
      · exact le_trans (k4 (hcs c hc)) ((hRmem (hcs c hc)).2 c hc)
      · omega

theorem refresh_candidates_eq_nil (now : Int) (l : List AgendaItem) :
    refresh_candidates now l = [] ↔ ∀ item ∈ l, elapsed now item = true := by
  induction l with
  | nil => simp [refresh_candidates]
  | cons a l ih =>
    unfold refresh_candidates
    by_cases hel : elapsed now a = true
    · rw [if_pos hel, ih]
      simp [hel]
    · rw [if_neg hel]
      simp [hel]

/-- C3: when every item that the loop of `display_data` has visited (the first
`i` items) has `end_time != 0`, no start time that is offered is the value 0 of
"unset" (no item starts at instant 0 after `now`: so for every `now >= 0`) and no
time text was rendered as a countdown, the refresh instant that the loop leaves (before the
pull-back) is the minimum of the candidates offered by the visited items that
are not skipped, each of which offers its `start_time` if `start_time > now`
and always its `end_time`; it is 0 when there is no candidate, which is the
case exactly when every visited item is skipped. -/
theorem display_data_refresh_minimum (env : Env) (settings : Nat) (now : Int)
    (db : List AgendaItem) (s : State)
    (hend : ∀ item ∈ db.take (display_items env settings now db s).i,
      item.end_time ≠ 0 ∧ (item.start_time > now → item.start_time ≠ 0))
    (hcd : (display_items env settings now db s).st.countdown_shown = false) :
    (refresh_candidates now (db.take (display_items env settings now db s).i) = [] →
        (display_items env settings now db s).st.refresh_at = 0)
      ∧ (refresh_candidates now (db.take (display_items env settings now db s).i) ≠ [] →
        (display_items env settings now db s).st.refresh_at
            ∈ refresh_candidates now (db.take (display_items env settings now db s).i)
          ∧ ∀ c ∈ refresh_candidates now (db.take (display_items env settings now db s).i),
              (display_items env settings now db s).st.refresh_at ≤ c)
      ∧ (refresh_candidates now (db.take (display_items env settings now db s).i) = [] ↔
          ∀ item ∈ db.take (display_items env settings now db s).i, elapsed now item = true) := by
  obtain ⟨-, ⟨-, hP⟩, -⟩ := display_items_invariant env settings now db s
    (fun pre l => 0 < l.st.line_height
      ∧ ((l.st.countdown_shown = false
            ∧ ∀ item ∈ pre, item.end_time ≠ 0 ∧ (item.start_time > now → item.start_time ≠ 0)) →
          ((refresh_candidates now pre = [] ∧ l.st.refresh_at = 0)
            ∨ (l.st.refresh_at ∈ refresh_candidates now pre
                ∧ ∀ c ∈ refresh_candidates now pre, l.st.refresh_at ≤ c))))
    (by
      intro l _ _ _ _ _ _ _ _ _ h10 _ _ h13
      exact ⟨by omega, fun _ => Or.inl ⟨rfl, h10⟩⟩)
    (by
      intro pre item post l _ ⟨hlh, hP⟩ _
      by_cases hel : item.end_time ≠ 0 ∧ item.end_time < now
      · rw [display_step_elapsed env settings now item l hel]
        refine ⟨hlh, ?_⟩
        intro ⟨hcd, hend⟩
        have hcs : refresh_candidates now (pre ++ [item]) = refresh_candidates now pre := by
          have : elapsed now item = true := by simp [elapsed, hel]
          rw [refresh_candidates_append]
          simp [refresh_candidates, this]
        rw [hcs]
        exact hP ⟨hcd, fun it hit => hend it (List.mem_append_left _ hit)⟩
      · obtain ⟨seps, rows, r, -, -, h3, -, -, -, -, -, -, -, -, -, hsig, href, hcount⟩ :=
          display_step_shown env settings now item l _ rfl hel hlh
        refine ⟨by rw [h3]; exact hlh, ?_⟩
        intro ⟨hcd, hend⟩
        rw [hcount] at hcd
        have hr : r.refresh_at = l.st.refresh_at ∧ r.countdown_shown = l.st.countdown_shown := by
          rcases hsig with h | ⟨-, h⟩
          · exact h
          · rw [hcd] at h
            exact absurd h (by decide)
        have hpre := hP ⟨hr.2 ▸ hcd, fun it hit => hend it (List.mem_append_left _ hit)⟩
        rw [← hr.1] at hpre
        have hpos := refresh_candidates_ne_zero now pre
          (fun it hit => hend it (List.mem_append_left _ hit))
        have := schedule_refresh_minimum now item r (refresh_candidates now pre)
          (hend item (List.mem_append_right _ (List.mem_singleton_self _))) hel hpos hpre
        rw [href, refresh_candidates_append]
        exact Or.inr this)
  have h := hP ⟨hcd, hend⟩
  refine ⟨?_, ?_, refresh_candidates_eq_nil now _⟩
  · intro hnil
    rcases h with ⟨-, h0⟩ | ⟨hmem, -⟩
    · exact h0
    · rw [hnil] at hmem
      exact absurd hmem (List.not_mem_nil _)
  · intro hne
    rcases h with ⟨hnil, -⟩ | h
    · exact absurd hnil hne
    · exact h

/-- Witness of C3: items A (start `T + 10`, end `T + 70`) and B (start `T + 5`,
end `T + 65`) without time column, seen at `now = T` = 10:00: the refresh
instant before the pull-back is `T + 5`. -/
theorem display_data_refresh_minimum_witness :
    (∀ item ∈ List.take
          (display_items stdEnv 0 28800600
            [⟨0, 0, 28800610, 28800670, none, none⟩, ⟨0, 0, 28800605, 28800665, none, none⟩]
            (initial_state 40)).i
          ([⟨0, 0, 28800610, 28800670, none, none⟩, ⟨0, 0, 28800605, 28800665, none, none⟩] :
            List AgendaItem),
        item.end_time ≠ 0 ∧ (item.start_time > 28800600 → item.start_time ≠ 0))
      ∧ (display_items stdEnv 0 28800600
          [⟨0, 0, 28800610, 28800670, none, none⟩, ⟨0, 0, 28800605, 28800665, none, none⟩]
          (initial_state 40)).st.countdown_shown = false
      ∧ refresh_candidates 28800600 (List.take
          (display_items stdEnv 0 28800600
            [⟨0, 0, 28800610, 28800670, none, none⟩, ⟨0, 0, 28800605, 28800665, none, none⟩]
            (initial_state 40)).i
          [⟨0, 0, 28800610, 28800670, none, none⟩, ⟨0, 0, 28800605, 28800665, none, none⟩])
          = [28800610, 28800670, 28800605, 28800665]
      ∧ (display_items stdEnv 0 28800600
          [⟨0, 0, 28800610, 28800670, none, none⟩, ⟨0, 0, 28800605, 28800665, none, none⟩]
          (initial_state 40)).st.refresh_at = 28800605
      ∧ (display_items stdEnv 0 28800600
          [⟨0, 0, 28800610, 28800670, none, none⟩, ⟨0, 0, 28800605, 28800665, none, none⟩]
          (initial_state 40)).st.refresh_at ≤ 28800605 :=
  ⟨by decide, by decide, by decide, by decide,
    ((display_data_refresh_minimum stdEnv 0 28800600
      [⟨0, 0, 28800610, 28800670, none, none⟩, ⟨0, 0, 28800605, 28800665, none, none⟩]
      (initial_state 40) (by decide) (by decide)).2.1 (by decide)).2 28800605
      (by decide)⟩

/-! ## Day separators -/

theorem lt_length_of_getElem? {α : Type} {l : List α} {k : Nat} {a : α} (h : l[k]? = some a) :
    k < l.length := by
  by_contra hcon
  rw [List.getElem?_eq_none (by omega)] at h
  exact absurd h (by simp)

theorem getElem?_append_of_some {α : Type} {l ext : List α} {k : Nat} {a : α}
    (h : l[k]? = some a) : (l ++ ext)[k]? = some a := by
  rw [List.getElem?_append_left (lt_length_of_getElem? h)]
  exact h

theorem separator_placed_mono (env : Env) (now : Int) (pre ext : List AgendaItem)
    (rows newR : List TextLayer) (sep : TextLayer)
    (h : separator_placed env now pre rows sep) (hnew : ∀ row ∈ newR, row.item ≠ sep.item) :
    separator_placed env now (pre ++ ext) (rows ++ newR) sep := by
  obtain ⟨item, hit, hne, htom, hfirst, ⟨row, hrow, hri, hry⟩, hmin⟩ := h
  have hlt := lt_length_of_getElem? hit
  refine ⟨item, getElem?_append_of_some hit, hne, htom, ?_,
    ⟨row, List.mem_append_left _ hrow, hri, hry⟩, ?_⟩
  · intro j item1 hj hj1
    rw [List.getElem?_append_left (by omega)] at hj1
    exact hfirst j item1 hj hj1
  · intro r hr hri
    rcases List.mem_append.mp hr with hr | hr
    · exact hmin r hr hri
    · exact absurd hri (hnew r hr)

theorem date_has_separator_mono (env : Env) (pre ext : List AgendaItem)
    (seps newS : List TextLayer) (item : AgendaItem)
    (h : date_has_separator env pre seps item) :
    date_has_separator env (pre ++ ext) (seps ++ newS) item := by
  obtain ⟨sep, hsep, item0, hit, hd⟩ := h
  exact ⟨sep, List.mem_append_left _ hsep, item0, getElem?_append_of_some hit, hd⟩

theorem eq_of_pairwise_item_lt (seps : List TextLayer)
    (h : seps.Pairwise (fun a b => a.item < b.item)) (a b : TextLayer) (ha : a ∈ seps)
    (hb : b ∈ seps) (hab : a.item = b.item) : a = b := by
  induction seps with
  | nil => exact absurd ha (List.not_mem_nil _)
  | cons c seps ih =>
    rw [List.pairwise_cons] at h
    rcases List.mem_cons.mp ha with ha | ha <;> rcases List.mem_cons.mp hb with hb | hb
    · rw [ha, hb]
    · have := h.1 b hb
      rw [← ha] at this
      omega
    · have := h.1 a ha
      rw [← hb] at this
      omega
    · exact ih h.2 ha hb

theorem separator_needed_true (env : Env) (now : Int) (prev : Option AgendaItem)
    (item : AgendaItem) (h : separator_needed env now prev item = true) :
    env.caltime_get_tomorrow now ≤ env.caltime_to_date_only item.start_time
      ∧ ∀ p, prev = some p →
          env.caltime_to_date_only p.start_time ≠ env.caltime_to_date_only item.start_time := by
  cases prev with
  | none =>
    simp only [separator_needed, decide_eq_true_eq] at h
    exact ⟨h, fun p hp => absurd hp (by simp)⟩
  | some q =>
    simp only [separator_needed, decide_eq_true_eq] at h
    refine ⟨h.2, fun p hp => ?_⟩
    cases hp
    exact h.1

theorem separator_needed_false (env : Env) (now : Int) (prev : Option AgendaItem)
    (item : AgendaItem) (h : separator_needed env now prev item = false)
    (htom : env.caltime_get_tomorrow now ≤ env.caltime_to_date_only item.start_time) :
    ∃ p, prev = some p
      ∧ env.caltime_to_date_only p.start_time = env.caltime_to_date_only item.start_time := by
  cases prev with
  | none =>
    simp only [separator_needed, decide_eq_false_iff_not] at h
    exact absurd htom h
  | some q =>
    simp only [separator_needed, decide_eq_false_iff_not] at h
    refine ⟨q, rfl, ?_⟩
    by_contra hne
    exact h ⟨hne, htom⟩

theorem display_items_separators (env : Env) (settings : Nat) (now : Int)
    (db : List AgendaItem) (s : State)
    (hsorted : db.Pairwise (fun a b => a.start_time ≤ b.start_time))
    (hmono : ∀ a b : Int, a ≤ b → env.caltime_to_date_only a ≤ env.caltime_to_date_only b) :
    (∀ sep ∈ (display_items env settings now db s).st.day_separator_layers,
        separator_placed env now (db.take (display_items env settings now db s).i)
          (display_items env settings now db s).st.item_layers sep)
      ∧ (∀ item ∈ db.take (display_items env settings now db s).i,
          ¬ (item.end_time ≠ 0 ∧ item.end_time < now) →
          env.caltime_get_tomorrow now ≤ env.caltime_to_date_only item.start_time →
          date_has_separator env (db.take (display_items env settings now db s).i)
            (display_items env settings now db s).st.day_separator_layers item)
      ∧ (display_items env settings now db s).st.day_separator_layers.Pairwise
          (fun a b => a.item < b.item) := by
  obtain ⟨-, ⟨-, -, -, -, hA, hB, hC⟩, -⟩ := display_items_invariant env settings now db s
    (fun pre l => l.i = pre.length ∧ 0 < l.st.line_height
      ∧ ((l.previous_item = none ∧ ∀ it ∈ pre, (it.end_time ≠ 0 ∧ it.end_time < now))
          ∨ (∃ p, l.previous_item = some p ∧ p ∈ pre
              ∧ ¬ (p.end_time ≠ 0 ∧ p.end_time < now)
              ∧ ∀ it ∈ pre, ¬ (it.end_time ≠ 0 ∧ it.end_time < now) →
                  it.start_time ≤ p.start_time))
      ∧ (∀ x ∈ l.st.item_layers ++ l.st.day_separator_layers, x.item < l.i)
      ∧ (∀ sep ∈ l.st.day_separator_layers, separator_placed env now pre l.st.item_layers sep)
      ∧ (∀ item ∈ pre, ¬ (item.end_time ≠ 0 ∧ item.end_time < now) →
          env.caltime_get_tomorrow now ≤ env.caltime_to_date_only item.start_time →
          date_has_separator env pre l.st.day_separator_layers item)
      ∧ l.st.day_separator_layers.Pairwise (fun a b => a.item < b.item))
    (by
      intro l h1 _ h3 _ h5 h6 _ _ _ _ _ _ h13
      refine ⟨by simpa using h1, by omega, Or.inl ⟨h3, fun it hit => absurd hit (by simp)⟩,
        ?_, ?_, fun it hit => absurd hit (by simp), by rw [h6]; exact List.Pairwise.nil⟩
      · intro x hx
        rw [h5, h6] at hx
        exact absurd hx (by simp)
      · intro x hx
        rw [h6] at hx
        exact absurd hx (by simp))
    (by
      intro pre item post l hdb ⟨hi, hlh, hprev, hidx, hA, hB, hC⟩ _
      have hsort : ∀ it ∈ pre, it.start_time ≤ item.start_time := by
        rw [hdb] at hsorted
        exact fun it hit =>
          (List.pairwise_append.mp hsorted).2.2 it hit item (List.mem_cons_self _ _)
      by_cases hel : item.end_time ≠ 0 ∧ item.end_time < now
      · rw [display_step_elapsed env settings now item l hel]
        refine ⟨by simp [hi], hlh, ?_, fun x hx => Nat.lt_succ_of_lt (hidx x hx), ?_, ?_, hC⟩
        · rcases hprev with ⟨hn, hall⟩ | ⟨p, hp, hmem, hpne, hle⟩
          · refine Or.inl ⟨hn, fun it hit => ?_⟩
            rcases List.mem_append.mp hit with h | h
            · exact hall it h
            · rw [List.mem_singleton] at h
              rw [h]
              exact hel
          · refine Or.inr ⟨p, hp, List.mem_append_left _ hmem, hpne, fun it hit hne => ?_⟩
            rcases List.mem_append.mp hit with h | h
            · exact hle it h hne
            · rw [List.mem_singleton] at h
              rw [h] at hne
              exact absurd hel hne
        · intro sep hsep
          have := separator_placed_mono env now pre [item] l.st.item_layers [] sep (hA sep hsep)
            (fun row hrow => absurd hrow (List.not_mem_nil _))
          rw [List.append_nil] at this
          exact this
        · intro it hit hne htom
          rcases List.mem_append.mp hit with h | h
          · have := date_has_separator_mono env pre [item] l.st.day_separator_layers [] it
              (hB it h hne htom)
            rw [List.append_nil] at this
            exact this
          · rw [List.mem_singleton] at h
            rw [h] at hne
            exact absurd hel hne
      · obtain ⟨newS, newR, r, h1, h2, h3, -, -, h6, h7, -, -, -, hnew, hcase, -⟩ :=
          display_step_shown env settings now item l _ rfl hel hlh
        have hitem : (pre ++ [item])[l.i]? = some item := by
          rw [hi]
          simp
        have hnewS : newS = [] ∨ ∃ sep, newS = [sep] := by
          rcases hcase with ⟨-, hnil, -⟩ | ⟨-, sep, hsep, -⟩
          · exact Or.inl hnil
          · exact Or.inr ⟨sep, hsep⟩
        refine ⟨by rw [h1, hi]; simp, by rw [h3]; exact hlh, ?_, ?_, ?_, ?_, ?_⟩
        · refine Or.inr ⟨item, h2, List.mem_append_right _ (List.mem_singleton_self _), hel,
            fun it hit _ => ?_⟩
          rcases List.mem_append.mp hit with h | h
          · exact hsort it h
          · rw [List.mem_singleton] at h
            rw [h]
        · intro x hx
          rw [h7, h6] at hx
          rw [h1]
          rcases mem_step_layers.mp hx with hx | hx
          · exact Nat.lt_succ_of_lt (hidx x hx)
          · rw [(hnew x hx).1]
            exact Nat.lt_succ_self _
        · intro sep hsep
          rw [h6] at hsep
          rw [h7]
          rcases List.mem_append.mp hsep with hs | hs
          · refine separator_placed_mono env now pre [item] l.st.item_layers newR sep (hA sep hs)
              (fun row hrow => ?_)
            have e1 := (hnew row (List.mem_append_right _ hrow)).1
            have e2 := hidx sep (List.mem_append_right _ hs)
            omega
          · rcases hcase with ⟨-, hnil, -⟩ | ⟨hyes, sep0, hsep0, -, ⟨row, hrow, hrowy⟩, hrowmin⟩
            · rw [hnil] at hs
              exact absurd hs (List.not_mem_nil _)
            · rw [hsep0, List.mem_singleton] at hs
              have hsi : sep.item = l.i := by
                rw [hs]
                exact (hnew sep0 (List.mem_append_left _ (by rw [hsep0]; simp))).1
              obtain ⟨htom, hdiff⟩ := separator_needed_true env now l.previous_item item hyes
              refine ⟨item, by rw [hsi]; exact hitem, hel, htom, ?_, ?_, ?_⟩
              · intro j item1 hj hj1 hne1
                rw [hsi, hi] at hj
                rw [List.getElem?_append_left hj] at hj1
                have hmem1 : item1 ∈ pre := List.getElem?_mem hj1
                rcases hprev with ⟨-, hall⟩ | ⟨p, hp, hpmem, -, hle⟩
                · exact absurd (hall item1 hmem1) hne1
                · have d1 := hmono _ _ (hle item1 hmem1 hne1)
                  have d2 := hmono _ _ (hsort p hpmem)
                  have d3 := hdiff p hp
                  omega
              · refine ⟨row, List.mem_append_right _ hrow, ?_, by rw [hs]; exact hrowy⟩
                rw [hsi]
                exact (hnew row (List.mem_append_right _ hrow)).1
              · intro r1 hr1 hr1i
                rcases List.mem_append.mp hr1 with h | h
                · have := hidx r1 (List.mem_append_left _ h)
                  omega
                · rw [hs]
                  exact hrowmin r1 h
        · intro it hit hne htom
          rw [h6]
          rcases List.mem_append.mp hit with h | h
          · exact date_has_separator_mono env pre [item] l.st.day_separator_layers newS it
              (hB it h hne htom)
          · rw [List.mem_singleton] at h
            rw [h] at htom ⊢
            rcases hcase with ⟨hno, -, -⟩ | ⟨-, sep0, hsep0, -, -, -⟩
            · obtain ⟨p, hp, hpd⟩ := separator_needed_false env now l.previous_item item hno htom
              rcases hprev with ⟨hnone, -⟩ | ⟨p1, hp1, hpmem, hpne, -⟩
              · rw [hnone] at hp
                exact absurd hp (by simp)
              · rw [hp1] at hp
                cases hp
                have hsepp := hB p hpmem hpne (by rw [hpd]; exact htom)
                obtain ⟨sep, hsep, item0, hit0, hd0⟩ :=
                  date_has_separator_mono env pre [item] l.st.day_separator_layers newS p hsepp
                exact ⟨sep, hsep, item0, hit0, hd0.trans hpd⟩
            · refine ⟨sep0, List.mem_append_right _ (by rw [hsep0]; simp), item, ?_, rfl⟩
              rw [(hnew sep0 (List.mem_append_left _ (by rw [hsep0]; simp))).1]
              exact hitem
        · rw [h6]
          refine List.pairwise_append.mpr ⟨hC, ?_, ?_⟩
          · rcases hnewS with h | ⟨sep, h⟩ <;> rw [h]
            · exact List.Pairwise.nil
            · exact List.pairwise_singleton _ _
          · intro a ha b hb
            have e1 := hidx a (List.mem_append_right _ ha)
            have e2 := (hnew b (List.mem_append_left _ hb)).1
            omega)
  exact ⟨hA, hB, hC⟩

/-- C7: for every item list that is not empty and sorted ascending by
`start_time` (the date accessor being monotone in time), `display_data` creates
exactly one day separator for each calendar date on or after tomorrow that
occurs among the laid-out items (visited, that is among the first `i` items, and
not skipped), none for another date, and each separator is placed immediately
before the first laid-out item of its date: the rows of that item begin exactly
where the separator ends.  The separators are created in the order of the
items. -/
theorem display_data_separators (env : Env) (settings : Nat) (now : Int)
    (db : List AgendaItem) (s : State) (hdb : db ≠ [])
    (hsorted : db.Pairwise (fun a b => a.start_time ≤ b.start_time))
    (hmono : ∀ a b : Int, a ≤ b → env.caltime_to_date_only a ≤ env.caltime_to_date_only b) :
    (∀ sep ∈ (display_data env settings now db s).day_separator_layers,
        sep.item < (display_items env settings now db s).i
          ∧ separator_placed env now db (display_data env settings now db s).item_layers sep)
      ∧ (∀ k item, k < (display_items env settings now db s).i → db[k]? = some item →
          ¬ (item.end_time ≠ 0 ∧ item.end_time < now) →
          env.caltime_get_tomorrow now ≤ env.caltime_to_date_only item.start_time →
          date_has_separator env db (display_data env settings now db s).day_separator_layers
            item)
      ∧ (display_data env settings now db s).day_separator_layers.Pairwise
          (fun a b => a.item < b.item)
      ∧ (∀ sep1 ∈ (display_data env settings now db s).day_separator_layers,
          ∀ sep2 ∈ (display_data env settings now db s).day_separator_layers,
          ∀ item1 item2, db[sep1.item]? = some item1 → db[sep2.item]? = some item2 →
            env.caltime_to_date_only item1.start_time
              = env.caltime_to_date_only item2.start_time →
            sep1 = sep2) := by
  rw [display_data_of_ne_nil env settings now db s hdb]
  obtain ⟨haf, haa, -⟩ := adjust_refresh_at_frame (display_items env settings now db s).st
  rw [haf.2.2.2.2.2.1, haa.1]
  obtain ⟨hA, hB, hC⟩ := display_items_separators env settings now db s hsorted hmono
  have hlift : ∀ sep ∈ (display_items env settings now db s).st.day_separator_layers,
      sep.item < (display_items env settings now db s).i
        ∧ separator_placed env now db (display_items env settings now db s).st.item_layers
            sep := by
    intro sep hsep
    have h1 := hA sep hsep
    have h2 := separator_placed_mono env now _ (db.drop (display_items env settings now db s).i)
      _ [] sep h1 (fun row hrow => absurd hrow (List.not_mem_nil _))
    rw [List.take_append_drop, List.append_nil] at h2
    obtain ⟨item, hit, -⟩ := h1
    have h3 := lt_length_of_getElem? hit
    rw [List.length_take] at h3
    exact ⟨by omega, h2⟩
  refine ⟨hlift, ?_, hC, ?_⟩
  · intro k item hk hit hne htom
    have hmem : item ∈ db.take (display_items env settings now db s).i := by
      refine List.getElem?_mem (n := k) ?_
      rw [List.getElem?_take, if_pos hk]
      exact hit
    have h1 := date_has_separator_mono env _ (db.drop (display_items env settings now db s).i)
      _ [] item (hB item hmem hne htom)
    rw [List.take_append_drop, List.append_nil] at h1
    exact h1
  · intro sep1 hs1 sep2 hs2 item1 item2 hi1 hi2 hd
    obtain ⟨-, it1, hit1, hne1, -, hfirst1, -⟩ := hlift sep1 hs1
    obtain ⟨-, it2, hit2, hne2, -, hfirst2, -⟩ := hlift sep2 hs2
    rw [hi1] at hit1
    rw [hi2] at hit2
    cases hit1
    cases hit2
    refine eq_of_pairwise_item_lt _ hC sep1 sep2 hs1 hs2 ?_
    rcases Nat.lt_trichotomy sep1.item sep2.item with h | h | h
    · exact absurd hd (hfirst2 sep1.item item1 h hi1 hne1)
    · exact h
    · exact absurd hd.symm (hfirst1 sep2.item item2 h hi2 hne2)

/-- Witness of C7: seen at 10:00, one item today at 11:00 and two items
tomorrow, at 09:00 and 10:00: the date of the third item has its separator (the
one created before the second item). -/
theorem display_data_separators_witness :
    ([⟨0, 0, 28800660, 28800720, none, none⟩, ⟨0, 0, 28801980, 28802040, none, none⟩,
      ⟨0, 0, 28802040, 28802100, none, none⟩] : List AgendaItem) ≠ []
      ∧ (display_data stdEnv 0 28800600
          [⟨0, 0, 28800660, 28800720, none, none⟩, ⟨0, 0, 28801980, 28802040, none, none⟩,
           ⟨0, 0, 28802040, 28802100, none, none⟩] (initial_state 40)).num_separators = 1
      ∧ date_has_separator stdEnv
          [⟨0, 0, 28800660, 28800720, none, none⟩, ⟨0, 0, 28801980, 28802040, none, none⟩,
           ⟨0, 0, 28802040, 28802100, none, none⟩]
          (display_data stdEnv 0 28800600
            [⟨0, 0, 28800660, 28800720, none, none⟩, ⟨0, 0, 28801980, 28802040, none, none⟩,
             ⟨0, 0, 28802040, 28802100, none, none⟩] (initial_state 40)).day_separator_layers
          ⟨0, 0, 28802040, 28802100, none, none⟩ :=
  ⟨by decide, by decide,
    (display_data_separators stdEnv 0 28800600
      [⟨0, 0, 28800660, 28800720, none, none⟩, ⟨0, 0, 28801980, 28802040, none, none⟩,
       ⟨0, 0, 28802040, 28802100, none, none⟩] (initial_state 40) (by decide)
      (by decide)
      (by
        intro a b hab
        simp only [stdEnv]
        omega)).2.1 2 ⟨0, 0, 28802040, 28802100, none, none⟩ (by decide) (by decide)
      (by decide) (by decide)⟩

/-! ## The forced refresh while a countdown is shown -/

theorem schedule_refresh_forced (now : Int) (item : AgendaItem) (s : State)
    (h1 : s.refresh_at = 1) (hs : 0 < item.start_time) (he : 0 < item.end_time) :
    (schedule_refresh now item s).refresh_at = 1 := by
  rw [schedule_refresh_value, h1]
  split_ifs <;> omega

/-- Apart from the items without end: when every visited item has a positive
`start_time` and a positive `end_time`, a rebuild that has rendered a countdown
leaves `refresh_at = 1`, so that every later tick rebuilds. -/
theorem display_data_countdown_forces_refresh (env : Env) (settings : Nat) (now : Int)
    (db : List AgendaItem) (s : State) (hdb : db ≠ [])
    (hpos : ∀ item ∈ db.take (display_items env settings now db s).i,
      0 < item.start_time ∧ 0 < item.end_time)
    (hcd : (display_data env settings now db s).countdown_shown = true) :
    (display_data env settings now db s).refresh_at = 1 := by
  rw [display_data_of_ne_nil env settings now db s hdb] at hcd ⊢
  obtain ⟨-, -, hac⟩ := adjust_refresh_at_frame (display_items env settings now db s).st
  rw [hac] at hcd
  obtain ⟨-, ⟨-, hP⟩, -⟩ := display_items_invariant env settings now db s
    (fun pre l => 0 < l.st.line_height
      ∧ ((∀ item ∈ pre, 0 < item.start_time ∧ 0 < item.end_time) →
          l.st.countdown_shown = true → l.st.refresh_at = 1))
    (by
      intro l _ _ _ _ _ _ _ _ _ _ h11 _ h13
      refine ⟨by omega, fun _ h => ?_⟩
      rw [h11] at h
      exact absurd h (by decide))
    (by
      intro pre item post l _ ⟨hlh, hP⟩ _
      by_cases hel : item.end_time ≠ 0 ∧ item.end_time < now
      · rw [display_step_elapsed env settings now item l hel]
        exact ⟨hlh, fun hall h => hP (fun it hit => hall it (List.mem_append_left _ hit)) h⟩
      · obtain ⟨seps, rows, r, -, -, h3, -, -, -, -, -, -, -, -, -, hsig, href, hcount⟩ :=
          display_step_shown env settings now item l _ rfl hel hlh
        refine ⟨by rw [h3]; exact hlh, fun hall h => ?_⟩
        rw [hcount] at h
        have hr : r.refresh_at = 1 := by
          rcases hsig with ⟨e1, e2⟩ | ⟨e1, -⟩
          · rw [e1]
            exact hP (fun it hit => hall it (List.mem_append_left _ hit)) (e2 ▸ h)
          · exact e1
        have hitem := hall item (List.mem_append_right _ (List.mem_singleton_self _))
        rw [href]
        exact schedule_refresh_forced now item r hr hitem.1 hitem.2)
  have h1 := hP hpos hcd
  have key : (adjust_refresh_at (display_items env settings now db s).st).refresh_at
      = (if 60 ≤ (display_items env settings now db s).st.refresh_at.tmod (60 * 60) then
          (display_items env settings now db s).st.refresh_at - 60
        else (display_items env settings now db s).st.refresh_at) := by
    unfold adjust_refresh_at
    split_ifs <;> rfl
  rw [key, h1]
  decide

/-! ## Width of the time column -/

/-- C11: for a row whose time mode is not `none`, `get_item_text_offset` returns
`(base + extra) * times + pad`, where `extra` is added only when am/pm is shown,
`times` is 2 when two times are shown and 1 otherwise, and base/extra/pad are
35/17/11 for font tier 1, 45/20/13 for tier 2 and 28/15/9 for every other tier
(tier 0 and the out-of-range tiers); tier 0 gives 37 for a single time, 52 with
am/pm and 65 for two times without am/pm; for time mode `none` it returns 0. -/
theorem get_item_text_offset_table (env : Env) (font_index : Int)
    (row_design number_of_times : Nat) (append_am_pm : Bool) :
    ((row_design / env.ROW_DESIGN_TIME_TYPE_OFFSET) % 8 ≠ 0 →
        (font_index = 1 →
          get_item_text_offset env font_index row_design number_of_times append_am_pm
            = (35 + (if append_am_pm then 17 else 0)) * (if number_of_times > 1 then 2 else 1)
              + 11)
        ∧ (font_index = 2 →
          get_item_text_offset env font_index row_design number_of_times append_am_pm
            = (45 + (if append_am_pm then 20 else 0)) * (if number_of_times > 1 then 2 else 1)
              + 13)
        ∧ (font_index ≠ 1 → font_index ≠ 2 →
          get_item_text_offset env font_index row_design number_of_times append_am_pm
            = (28 + (if append_am_pm then 15 else 0)) * (if number_of_times > 1 then 2 else 1)
              + 9)
        ∧ get_item_text_offset env 0 row_design 1 false = 37
        ∧ get_item_text_offset env 0 row_design 1 true = 52
        ∧ get_item_text_offset env 0 row_design 2 false = 65)
      ∧ ((row_design / env.ROW_DESIGN_TIME_TYPE_OFFSET) % 8 = 0 →
        get_item_text_offset env font_index row_design number_of_times append_am_pm = 0) := by
  constructor
  · intro hmode
    unfold get_item_text_offset
    simp only [hmode, if_false]
    refine ⟨?_, ?_, ?_, ?_, ?_, ?_⟩
    · intro h
      subst h
      cases append_am_pm <;> by_cases hn : number_of_times > 1 <;> simp [hn]
    · intro h
      subst h
      cases append_am_pm <;> by_cases hn : number_of_times > 1 <;> simp [hn]
    · intro h1 h2
      cases append_am_pm <;> by_cases hn : number_of_times > 1 <;> simp [hn, h1, h2]
    · simp
    · simp
    · simp
  · intro hmode
    unfold get_item_text_offset
    simp only [hmode, if_true]

/-- Witness of C11: in the concrete environment a row design 1 (show the start
time) at font tier 0 gets the widths 37, 52 and 65. -/
theorem get_item_text_offset_table_witness :
    (1 / stdEnv.ROW_DESIGN_TIME_TYPE_OFFSET) % 8 ≠ 0
      ∧ get_item_text_offset stdEnv 0 1 1 false = 37
      ∧ get_item_text_offset stdEnv 0 1 1 true = 52
      ∧ get_item_text_offset stdEnv 0 1 2 false = 65 :=
  ⟨by decide,
    ((get_item_text_offset_table stdEnv 0 1 1 false).1 (by decide)).2.2.2.1,
    ((get_item_text_offset_table stdEnv 0 1 1 false).1 (by decide)).2.2.2.2.1,
    ((get_item_text_offset_table stdEnv 0 1 1 false).1 (by decide)).2.2.2.2.2⟩

/-! ## Absolute time -/

theorem fmt_02d_two_digits (n : Nat) (h : n < 100) :
    fmt_02d (n : Int) = [Nat.digitChar (n / 10), Nat.digitChar (n % 10)] := by
  interval_cases n <;> decide

theorem repr_toList_length_le_two (n : Nat) (h : n ≤ 60) : (Nat.repr n).toList.length ≤ 2 := by
  have := toDigits_length_le_two n h
  simpa [Nat.repr, List.asString] using this

theorem regular_time_12 (env : Env) (time : Int) (append_am_pm : Bool) (h m : Nat)
    (hh : env.caltime_get_hour time = (h : Int)) (hm : env.caltime_get_minute time = (m : Int))
    (hm60 : m < 60) :
    regular_time env time true append_am_pm
      = (Nat.repr (if h % 12 = 0 then 12 else h % 12)).toList ++ [':']
          ++ [Nat.digitChar (m / 10), Nat.digitChar (m % 10)]
          ++ (if append_am_pm then (if h < 12 then "am".toList else "pm".toList) else []) := by
  have e1 : (if (h : Int).tmod 12 = 0 then (12 : Int) else (h : Int).tmod 12)
      = ((if h % 12 = 0 then 12 else h % 12 : Nat) : Int) := by
    have : (h : Int).tmod 12 = ((h % 12 : Nat) : Int) := (Int.ofNat_tmod h 12).symm
    rw [this]
    split_ifs <;> omega
  have e2 : ((h : Int) < 12) ↔ h < 12 := by omega
  simp only [regular_time, if_true, hh, hm, e1, fmt_d_natCast, fmt_02d_two_digits m (by omega),
    e2]
  rfl

theorem regular_time_24 (env : Env) (time : Int) (h m : Nat)
    (hh : env.caltime_get_hour time = (h : Int)) (hm : env.caltime_get_minute time = (m : Int))
    (hh24 : h < 24) (hm60 : m < 60) :
    regular_time env time false false
      = [Nat.digitChar (h / 10), Nat.digitChar (h % 10), ':', Nat.digitChar (m / 10),
          Nat.digitChar (m % 10)] := by
  simp only [regular_time, hh, hm, fmt_02d_two_digits m (by omega),
    fmt_02d_two_digits h (by omega)]
  rfl

theorem time_to_showstring_regular (env : Env) (s : State) (buffersize : Nat)
    (time relative_to : Int) (relative_time hour_12 append_am_pm : Bool)
    (hdate : env.caltime_to_date_only time = env.caltime_to_date_only relative_to)
    (hnc : ¬ (relative_time = true ∧ relative_to ≤ time ∧ time - relative_to ≤ 60)) :
    time_to_showstring env s buffersize time relative_to relative_time hour_12 append_am_pm false
      = (snprintf buffersize (regular_time env time hour_12 append_am_pm), s) := by
  have h1 : ¬ (env.caltime_to_date_only relative_to ≠ env.caltime_to_date_only time
      ∧ ¬ (env.caltime_get_tomorrow relative_to = env.caltime_to_date_only time
            ∧ env.caltime_get_hour time < 3)) := by
    rw [hdate]
    exact fun h => h.1 rfl
  have h2 : ¬ (relative_time = true ∧ time ≥ relative_to ∧ time - relative_to ≤ 60) := hnc
  simp only [time_to_showstring, h1, h2, if_false, Bool.false_eq_true, List.nil_append]

/-- C12: for `time` on the calendar date of `relative_to`, not rendered as a
countdown (relative time disabled, or `time < relative_to`, or more than 60
minutes ahead), without dash, with the hour in 0..23 and the minute in 0..59
(and a buffer of at least 8 bytes; the program passes 20): in 12-hour mode
`time_to_showstring` writes the unpadded hour `h'` (12 when the hour is a
multiple of 12, else the hour modulo 12), a colon, the two digits of the minute
and then, if the am/pm suffix is requested, "am" for an hour below 12 and "pm"
otherwise; in 24-hour mode without suffix it writes the two digits of the hour,
a colon and the two digits of the minute. -/
theorem time_to_showstring_absolute (env : Env) (s : State) (buffersize : Nat)
    (time relative_to : Int) (relative_time append_am_pm : Bool)
    (hdate : env.caltime_to_date_only time = env.caltime_to_date_only relative_to)
    (hnc : ¬ (relative_time = true ∧ relative_to ≤ time ∧ time - relative_to ≤ 60))
    (hhour : 0 ≤ env.caltime_get_hour time ∧ env.caltime_get_hour time < 24)
    (hmin : 0 ≤ env.caltime_get_minute time ∧ env.caltime_get_minute time < 60)
    (hbuf : 8 ≤ buffersize) :
    (time_to_showstring env s buffersize time relative_to relative_time true append_am_pm
        false).1
        = (Nat.repr (if (env.caltime_get_hour time).toNat % 12 = 0 then 12
              else (env.caltime_get_hour time).toNat % 12)).toList
          ++ [':']
          ++ [Nat.digitChar ((env.caltime_get_minute time).toNat / 10),
              Nat.digitChar ((env.caltime_get_minute time).toNat % 10)]
          ++ (if append_am_pm then
                (if env.caltime_get_hour time < 12 then "am".toList else "pm".toList)
              else [])
      ∧ (time_to_showstring env s buffersize time relative_to relative_time false false
          false).1
        = [Nat.digitChar ((env.caltime_get_hour time).toNat / 10),
            Nat.digitChar ((env.caltime_get_hour time).toNat % 10), ':',
            Nat.digitChar ((env.caltime_get_minute time).toNat / 10),
            Nat.digitChar ((env.caltime_get_minute time).toNat % 10)] := by
  obtain ⟨h, hh⟩ : ∃ h : Nat, env.caltime_get_hour time = (h : Int) :=
    ⟨(env.caltime_get_hour time).toNat, by omega⟩
  obtain ⟨m, hm⟩ : ∃ m : Nat, env.caltime_get_minute time = (m : Int) :=
    ⟨(env.caltime_get_minute time).toNat, by omega⟩
  have hh24 : h < 24 := by omega
  have hm60 : m < 60 := by omega
  rw [time_to_showstring_regular env s buffersize time relative_to relative_time true
      append_am_pm hdate hnc,
    time_to_showstring_regular env s buffersize time relative_to relative_time false false
      hdate hnc,
    regular_time_12 env time append_am_pm h m hh hm hm60,
    regular_time_24 env time h m hh hm hh24 hm60]
  simp only [hh, hm, Int.toNat_ofNat]
  have e2 : ((h : Int) < 12) ↔ h < 12 := by omega
  simp only [e2]
  constructor
  · unfold snprintf
    rw [List.take_of_length_le]
    have hl := repr_toList_length_le_two (if h % 12 = 0 then 12 else h % 12)
      (by split_ifs <;> omega)
    have hs : (if append_am_pm = true then (if h < 12 then "am".toList else "pm".toList)
        else ([] : List Char)).length ≤ 2 := by
      split_ifs <;> simp
    simp only [List.length_append, List.length_cons, List.length_nil]
    omega
  · unfold snprintf
    rw [List.take_of_length_le]
    simp only [List.length_cons, List.length_nil]
    omega

/-- Witness of C12: 14:05 relative to 10:00 of the same day, relative time
enabled (more than 60 minutes ahead): "2:05pm" in 12-hour mode with suffix and
"14:05" in 24-hour mode. -/
theorem time_to_showstring_absolute_witness :
    stdEnv.caltime_to_date_only 28800845 = stdEnv.caltime_to_date_only 28800600
      ∧ (time_to_showstring stdEnv (initial_state 40) 20 28800845 28800600 true true true
          false).1 = "2:05pm".toList
      ∧ (time_to_showstring stdEnv (initial_state 40) 20 28800845 28800600 true false false
          false).1 = "14:05".toList :=
  ⟨by decide,
    (time_to_showstring_absolute stdEnv (initial_state 40) 20 28800845 28800600 true true
      (by decide) (by decide) (by decide) (by decide) (by decide)).1.trans (by decide),
    (time_to_showstring_absolute stdEnv (initial_state 40) 20 28800845 28800600 true true
      (by decide) (by decide) (by decide) (by decide) (by decide)).2.trans (by decide)⟩

/-! ## Sync requests -/

theorem App.display_data_frame (env : Env) (w : World) (a : App) :
    (App.display_data env w a).sync_requests = a.sync_requests
      ∧ (App.display_data env w a).last_sync = a.last_sync
      ∧ (App.display_data env w a).last_sync_id = a.last_sync_id
      ∧ (App.display_data env w a).font_events = a.font_events
      ∧ (App.display_data env w a).time_font = a.time_font
      ∧ (App.display_data env w a).time_font_id = a.time_font_id
      ∧ (App.display_data env w a).sync_indicator_layer = a.sync_indicator_layer := by
  unfold App.display_data
  split_ifs <;> exact ⟨rfl, rfl, rfl, rfl, rfl, rfl, rfl⟩

theorem handle_time_tick_requests (env : Env) (w : World) (tm_hour tm_min tick : Int) (a : App) :
    (handle_time_tick env w tm_hour tm_min tick a).sync_requests
      = (if w.connected = true
            ∧ (w.unix_time - a.last_sync > 60 * 30 - 60 * 20 * (a.st.elapsed_item_num : Int)
                ∨ w.unix_time < a.last_sync) then
          a.sync_requests ++ [a.last_sync_id]
        else a.sync_requests) := by
  unfold handle_time_tick
  by_cases hc : w.connected = true
      ∧ (w.unix_time - a.last_sync > 60 * 30 - 60 * 20 * (a.st.elapsed_item_num : Int)
          ∨ w.unix_time < a.last_sync)
  · simp only [if_pos hc]
    split_ifs
    · rw [(App.display_data_frame env w _).1]
      rfl
    · rfl
  · simp only [if_neg hc]
    split_ifs
    · rw [(App.display_data_frame env w _).1]
      rfl
    · rfl

/-- C13: on a minute tick `handle_time_tick` sends one sync request, carrying
`last_sync_id`, if connectivity is available and either the seconds elapsed
since `last_sync` exceed `30 - 20 * elapsed_item_num` minutes or the clock is
before `last_sync`; in every other case it sends none.  The threshold is 30
minutes (1800 seconds) for an elapsed count of 0 and 10 minutes (600 seconds)
for an elapsed count of 1. -/
theorem handle_time_tick_sync_request (env : Env) (w : World) (tm_hour tm_min tick : Int)
    (a : App) :
    ((w.connected = true
          ∧ (w.unix_time - a.last_sync > 60 * (30 - 20 * (a.st.elapsed_item_num : Int))
              ∨ w.unix_time < a.last_sync)) →
        (handle_time_tick env w tm_hour tm_min tick a).sync_requests
          = a.sync_requests ++ [a.last_sync_id])
      ∧ (¬ (w.connected = true
          ∧ (w.unix_time - a.last_sync > 60 * (30 - 20 * (a.st.elapsed_item_num : Int))
              ∨ w.unix_time < a.last_sync)) →
        (handle_time_tick env w tm_hour tm_min tick a).sync_requests = a.sync_requests)
      ∧ (a.st.elapsed_item_num = 0 →
          ((handle_time_tick env w tm_hour tm_min tick a).sync_requests
              = a.sync_requests ++ [a.last_sync_id]
            ↔ (w.connected = true
                ∧ (w.unix_time - a.last_sync > 1800 ∨ w.unix_time < a.last_sync))))
      ∧ (a.st.elapsed_item_num = 1 →
          ((handle_time_tick env w tm_hour tm_min tick a).sync_requests
              = a.sync_requests ++ [a.last_sync_id]
            ↔ (w.connected = true
                ∧ (w.unix_time - a.last_sync > 600 ∨ w.unix_time < a.last_sync)))) := by
  rw [handle_time_tick_requests]
  have harith : (60 : Int) * 30 - 60 * 20 * (a.st.elapsed_item_num : Int)
      = 60 * (30 - 20 * (a.st.elapsed_item_num : Int)) := by ring
  rw [harith]
  refine ⟨fun h => by rw [if_pos h], fun h => by rw [if_neg h], ?_, ?_⟩
  · intro h0
    rw [h0]
    simp only [Nat.cast_zero, mul_zero, sub_zero]
    constructor
    · intro h
      by_contra hcon
      have hcon' : ¬ (w.connected = true
          ∧ (w.unix_time - a.last_sync > 60 * 30 ∨ w.unix_time < a.last_sync)) := by
        intro hx
        exact hcon ⟨hx.1, by omega⟩
      rw [if_neg hcon'] at h
      simp at h
    · intro h
      rw [if_pos ⟨h.1, by omega⟩]
  · intro h1
    rw [h1]
    simp only [Nat.cast_one, mul_one]
    constructor
    · intro h
      by_contra hcon
      have hcon' : ¬ (w.connected = true
          ∧ (w.unix_time - a.last_sync > 60 * (30 - 20) ∨ w.unix_time < a.last_sync)) := by
        intro hx
        exact hcon ⟨hx.1, by omega⟩
      rw [if_neg hcon'] at h
      simp at h
    · intro h
      rw [if_pos ⟨h.1, by omega⟩]

/-- Witness of C13: connected, 31 minutes after the last sync, no elapsed item:
one request carrying the id 7. -/
theorem handle_time_tick_sync_request_witness :
    (handle_time_tick stdEnv
        { settings := 0, db := [], now := 28800600, unix_time := 1728036000 + 1860,
          connected := true }
        10 0 28800600 { App.boot with last_sync := 1728036000, last_sync_id := 7 }).sync_requests
      = [7] :=
  (handle_time_tick_sync_request stdEnv
    { settings := 0, db := [], now := 28800600, unix_time := 1728036000 + 1860,
      connected := true }
    10 0 28800600 { App.boot with last_sync := 1728036000, last_sync_id := 7 }).1 (by decide)

/-- C14, the claim as stated fails: the watchface starts with a database of two
elapsed items and one running item (elapsed count 2), a sync without new data
ends at second 1728036000, and the minute tick arrives in that same second with
connectivity available: no time has passed and the clock has not moved back, yet
the tick sends a request (carrying the persisted id 7). -/
theorem handle_time_tick_storm :
    (handle_no_new_data
        { settings := 0, db := [⟨0, 0, 28800400, 28800500, none, none⟩,
            ⟨0, 0, 28800450, 28800550, none, none⟩, ⟨0, 0, 28800500, 28800900, none, none⟩],
          now := 28800600, unix_time := 1728036000, connected := true }
        (handle_init stdEnv
          { settings := 0, db := [⟨0, 0, 28800400, 28800500, none, none⟩,
              ⟨0, 0, 28800450, 28800550, none, none⟩, ⟨0, 0, 28800500, 28800900, none, none⟩],
            now := 28800600, unix_time := 1728036000, connected := true }
          (some 7) App.boot)).st.elapsed_item_num = 2
      ∧ (handle_time_tick stdEnv
          { settings := 0, db := [⟨0, 0, 28800400, 28800500, none, none⟩,
              ⟨0, 0, 28800450, 28800550, none, none⟩, ⟨0, 0, 28800500, 28800900, none, none⟩],
            now := 28800600, unix_time := 1728036000, connected := true }
          10 0 28800600
          (handle_no_new_data
            { settings := 0, db := [⟨0, 0, 28800400, 28800500, none, none⟩,
                ⟨0, 0, 28800450, 28800550, none, none⟩, ⟨0, 0, 28800500, 28800900, none, none⟩],
              now := 28800600, unix_time := 1728036000, connected := true }
            (handle_init stdEnv
              { settings := 0, db := [⟨0, 0, 28800400, 28800500, none, none⟩,
                  ⟨0, 0, 28800450, 28800550, none, none⟩,
                  ⟨0, 0, 28800500, 28800900, none, none⟩],
                now := 28800600, unix_time := 1728036000, connected := true }
              (some 7) App.boot))).sync_requests = [7] := by
  decide

/-- C14 as amended: for every elapsed count of 2 or more (threshold
`30 - 20 * elapsed_item_num` not positive) a minute tick with connectivity
available sends exactly one sync request, carrying `last_sync_id`, whatever the
time since the last successful sync, also when no time has passed; without
connectivity it sends none. -/
theorem handle_time_tick_always_requests (env : Env) (w : World) (tm_hour tm_min tick : Int)
    (a : App) (he : 2 ≤ a.st.elapsed_item_num) :
    (w.connected = true →
        (handle_time_tick env w tm_hour tm_min tick a).sync_requests
          = a.sync_requests ++ [a.last_sync_id])
      ∧ (w.connected = false →
        (handle_time_tick env w tm_hour tm_min tick a).sync_requests = a.sync_requests) := by
  rw [handle_time_tick_requests]
  constructor
  · intro hc
    have hcast : (2 : Int) ≤ (a.st.elapsed_item_num : Int) := by exact_mod_cast he
    rw [if_pos ⟨hc, by omega⟩]
  · intro hc
    rw [if_neg (fun h => by rw [hc] at h; exact absurd h.1 (by decide))]

/-- Witness of C14 as amended: elapsed count 3, ten minutes after the last sync,
connected: one request. -/
theorem handle_time_tick_always_requests_witness :
    (2 : Nat) ≤ 3
      ∧ (handle_time_tick stdEnv
          { settings := 0, db := [], now := 28800600, unix_time := 1728036600,
            connected := true }
          10 10 28800610
          { App.boot with st := { App.boot.st with elapsed_item_num := 3 },
                          last_sync := 1728036000, last_sync_id := 5 }).sync_requests = [5] :=
  ⟨by decide,
    (handle_time_tick_always_requests stdEnv
      { settings := 0, db := [], now := 28800600, unix_time := 1728036600, connected := true }
      10 10 28800610
      { App.boot with st := { App.boot.st with elapsed_item_num := 3 },
                      last_sync := 1728036000, last_sync_id := 5 } (by decide)).1 rfl⟩

/-! ## Header -/

theorem set_time_font_id (env : Env) (settings : Nat) (a : App) :
    (set_time_font_from_settings env settings a).time_font_id = header_size env settings := by
  unfold set_time_font_from_settings
  by_cases h : header_size env settings ≠ a.time_font_id
  · simp only [if_pos h]
    split_ifs <;> rfl
  · simp only [if_neg h]
    have h1 : a.time_font_id = header_size env settings := by
      by_contra hc
      exact h (fun e => hc e.symm)
    split_ifs <;> exact h1

theorem set_time_font_sizes (env : Env) (settings : Nat) (a : App) :
    (header_size env settings = 1 →
        (set_time_font_from_settings env settings a).st.header_height = 48
          ∧ (set_time_font_from_settings env settings a).header_time_width = 95
          ∧ (set_time_font_from_settings env settings a).header_weekday_height = 18)
      ∧ (header_size env settings ≠ 1 →
        (set_time_font_from_settings env settings a).st.header_height = 40
          ∧ (set_time_font_from_settings env settings a).header_time_width = 75
          ∧ (set_time_font_from_settings env settings a).header_weekday_height = 16) := by
  unfold set_time_font_from_settings
  by_cases h : header_size env settings ≠ a.time_font_id
  · simp only [if_pos h]
    constructor
    · intro h1
      rw [if_pos h1]
      exact ⟨rfl, rfl, rfl⟩
    · intro h1
      rw [if_neg h1]
      exact ⟨rfl, rfl, rfl⟩
  · simp only [if_neg h]
    have h0 : a.time_font_id = header_size env settings := by
      by_contra hc
      exact h (fun e => hc e.symm)
    constructor
    · intro h1
      rw [if_pos (h0.trans h1)]
      exact ⟨rfl, rfl, rfl⟩
    · intro h1
      rw [if_neg (fun e => h1 (h0.symm.trans e))]
      exact ⟨rfl, rfl, rfl⟩

/-- C15: for every settings value, after `set_time_font_from_settings` the
header height, the width of the time column and the height of the weekday row
are 48, 95 and 18 when the two-bit header size is 1, and 40, 75 and 16 for every
other value; `create_header` with the header flag cleared sets the header
height to 2 and creates none of the time, date and weekday layers (the three
layers stay as they were: absent after `destroy_header`). -/
theorem header_sizes (env : Env) (settings : Nat) (a : App) :
    (header_size env settings = 1 →
        (set_time_font_from_settings env settings a).st.header_height = 48
          ∧ (set_time_font_from_settings env settings a).header_time_width = 95
          ∧ (set_time_font_from_settings env settings a).header_weekday_height = 18)
      ∧ (header_size env settings ≠ 1 →
        (set_time_font_from_settings env settings a).st.header_height = 40
          ∧ (set_time_font_from_settings env settings a).header_time_width = 75
          ∧ (set_time_font_from_settings env settings a).header_weekday_height = 16)
      ∧ (flag_set settings env.SETTINGS_BOOL_SHOW_CLOCK_HEADER = false →
        (create_header env settings a).st.header_height = 2
          ∧ (create_header env settings a).text_layer_time = a.text_layer_time
          ∧ (create_header env settings a).text_layer_date = a.text_layer_date
          ∧ (create_header env settings a).text_layer_weekday = a.text_layer_weekday
          ∧ (create_header env settings (destroy_header a)).text_layer_time = none
          ∧ (create_header env settings (destroy_header a)).text_layer_date = none
          ∧ (create_header env settings (destroy_header a)).text_layer_weekday = none
          ∧ (create_header env settings a).font_events = a.font_events) := by
  refine ⟨(set_time_font_sizes env settings a).1, (set_time_font_sizes env settings a).2, ?_⟩
  intro hflag
  have hn : ¬ flag_set settings env.SETTINGS_BOOL_SHOW_CLOCK_HEADER = true := by
    rw [hflag]
    decide
  unfold create_header
  rw [if_pos hn, if_pos hn]
  exact ⟨rfl, rfl, rfl, rfl, rfl, rfl, rfl, rfl⟩

/-- Witness of C15: header size 1 with the header shown, and the header flag
cleared, in the concrete environment. -/
theorem header_sizes_witness :
    header_size stdEnv (128 + 4) = 1
      ∧ (set_time_font_from_settings stdEnv (128 + 4) App.boot).st.header_height = 48
      ∧ flag_set 4 stdEnv.SETTINGS_BOOL_SHOW_CLOCK_HEADER = false
      ∧ (create_header stdEnv 4 App.boot).st.header_height = 2 :=
  ⟨by decide, ((header_sizes stdEnv (128 + 4) App.boot).1 (by decide)).1, by decide,
    ((header_sizes stdEnv 4 App.boot).2.2 (by decide)).1⟩

theorem load_count_append (xs ys : List FontEvent) :
    load_count (xs ++ ys) = load_count xs + load_count ys := by
  induction xs with
  | nil => simp [load_count]
  | cons x xs ih =>
    cases x with
    | load r h =>
      show load_count (xs ++ ys) + 1 = load_count xs + 1 + load_count ys
      rw [ih]
      omega
    | unload h =>
      show load_count (xs ++ ys) = load_count xs + load_count ys
      exact ih

theorem unload_count_append (xs ys : List FontEvent) :
    unload_count (xs ++ ys) = unload_count xs + unload_count ys := by
  induction xs with
  | nil => simp [unload_count]
  | cons x xs ih =>
    cases x with
    | load r h =>
      show unload_count (xs ++ ys) = unload_count xs + unload_count ys
      exact ih
    | unload h =>
      show unload_count (xs ++ ys) + 1 = unload_count xs + 1 + unload_count ys
      rw [ih]
      omega

theorem set_time_font_same (env : Env) (settings : Nat) (a : App)
    (h : header_size env settings = a.time_font_id) :
    (set_time_font_from_settings env settings a).font_events = a.font_events
      ∧ (set_time_font_from_settings env settings a).time_font = a.time_font := by
  unfold set_time_font_from_settings
  simp only [h, ne_eq, not_true_eq_false, if_false]
  split_ifs <;> exact ⟨rfl, rfl⟩

theorem set_time_font_changed (env : Env) (settings : Nat) (a : App)
    (h : header_size env settings ≠ a.time_font_id) :
    (set_time_font_from_settings env settings a).font_events
        = a.font_events ++ (if a.time_font ≠ 0 then [FontEvent.unload a.time_font] else [])
          ++ [FontEvent.load
              (if header_size env settings = 1 then FontResource.ROBOTO_CONDENSED_BOLD_38
               else FontResource.ROBOTO_CONDENSED_30)
              (set_time_font_from_settings env settings a).time_font]
      ∧ (set_time_font_from_settings env settings a).time_font ≠ 0 := by
  unfold set_time_font_from_settings
  simp only [if_pos h]
  by_cases hf : a.time_font ≠ 0
  · simp only [if_pos hf]
    split_ifs <;> exact ⟨rfl, Nat.succ_ne_zero _⟩
  · simp only [if_neg hf, List.append_nil]
    split_ifs <;> exact ⟨rfl, Nat.succ_ne_zero _⟩

theorem apply_header_settings_loads (env : Env) (seq : List Nat) :
    ∀ a : App, load_count (apply_header_settings env seq a).font_events
      = load_count a.font_events + tier_changes env a.time_font_id seq := by
  induction seq with
  | nil => intro a; simp [apply_header_settings, tier_changes]
  | cons settings rest ih =>
    intro a
    unfold apply_header_settings tier_changes
    rw [ih, set_time_font_id]
    by_cases h : header_size env settings ≠ a.time_font_id
    · rw [(set_time_font_changed env settings a h).1, if_pos h, load_count_append,
        load_count_append]
      have : load_count (if a.time_font ≠ 0 then [FontEvent.unload a.time_font] else []) = 0 := by
        split_ifs <;> rfl
      rw [this]
      simp only [load_count]
      omega
    · have h1 : header_size env settings = a.time_font_id := by
        by_contra hc
        exact h hc
      rw [(set_time_font_same env settings a h1).1, if_neg h]
      omega

/-- C16: an application of `set_time_font_from_settings` whose header size
equals the loaded one makes no font call and leaves the font handle as it is; an
application whose header size differs makes exactly one load, preceded by one
unload when a font was loaded, and by nothing else; so over every sequence of
applications the number of loads is the number of applications whose header
size differs from the one before, and with header size 0 loaded the applications
1, 1 load the font once, on the first. -/
theorem time_font_reload (env : Env) (a : App) :
    (∀ settings, header_size env settings = a.time_font_id →
        (set_time_font_from_settings env settings a).font_events = a.font_events
          ∧ (set_time_font_from_settings env settings a).time_font = a.time_font)
      ∧ (∀ settings, header_size env settings ≠ a.time_font_id →
        (set_time_font_from_settings env settings a).font_events
            = a.font_events ++ (if a.time_font ≠ 0 then [FontEvent.unload a.time_font] else [])
              ++ [FontEvent.load
                  (if header_size env settings = 1 then FontResource.ROBOTO_CONDENSED_BOLD_38
                   else FontResource.ROBOTO_CONDENSED_30)
                  (set_time_font_from_settings env settings a).time_font]
          ∧ (set_time_font_from_settings env settings a).time_font ≠ 0
          ∧ load_count (set_time_font_from_settings env settings a).font_events
              = load_count a.font_events + 1
          ∧ unload_count (set_time_font_from_settings env settings a).font_events
              = unload_count a.font_events + (if a.time_font ≠ 0 then 1 else 0))
      ∧ (∀ seq, load_count (apply_header_settings env seq a).font_events
          = load_count a.font_events + tier_changes env a.time_font_id seq)
      ∧ (∀ s1 s2, a.time_font_id = 0 → header_size env s1 = 1 → header_size env s2 = 1 →
          load_count (apply_header_settings env [s1] a).font_events
              = load_count a.font_events + 1
            ∧ (apply_header_settings env [s1, s2] a).font_events
              = (apply_header_settings env [s1] a).font_events
            ∧ (apply_header_settings env [s1, s2] a).time_font
              = (apply_header_settings env [s1] a).time_font) := by
  refine ⟨fun settings h => set_time_font_same env settings a h, ?_,
    fun seq => apply_header_settings_loads env seq a, ?_⟩
  · intro settings h
    obtain ⟨h1, h2⟩ := set_time_font_changed env settings a h
    refine ⟨h1, h2, ?_, ?_⟩
    · rw [h1, load_count_append, load_count_append]
      have : load_count (if a.time_font ≠ 0 then [FontEvent.unload a.time_font] else []) = 0 := by
        split_ifs <;> rfl
      rw [this]
      simp only [load_count]
    · rw [h1, unload_count_append, unload_count_append]
      simp only [unload_count]
      split_ifs <;> simp [unload_count]
  · intro s1 s2 h0 h1 h2
    have hne : header_size env s1 ≠ a.time_font_id := by
      rw [h0, h1]
      decide
    have hsame : header_size env s2 = (set_time_font_from_settings env s1 a).time_font_id := by
      rw [set_time_font_id, h1, h2]
    refine ⟨?_, ?_, ?_⟩
    · rw [apply_header_settings_loads]
      simp only [tier_changes, if_pos hne]
    · simp only [apply_header_settings]
      exact (set_time_font_same env s2 _ hsame).1
    · simp only [apply_header_settings]
      exact (set_time_font_same env s2 _ hsame).2

/-- Witness of C16: with header size 0 loaded (handle 1), the applications 1, 1
in the concrete environment: one unload and one load, both on the first. -/
theorem time_font_reload_witness :
    (apply_header_settings stdEnv [4, 4] (set_time_font_from_settings stdEnv 0 App.boot)).font_events
      = [FontEvent.load FontResource.ROBOTO_CONDENSED_30 1, FontEvent.unload 1,
          FontEvent.load FontResource.ROBOTO_CONDENSED_BOLD_38 3] :=
  ((time_font_reload stdEnv (set_time_font_from_settings stdEnv 0 App.boot)).2.2.2 4 4
    (by decide) (by decide) (by decide)).2.1.trans (by decide)

/-- C17, the claim as stated fails: the bar created by `create_header` and then
set with `sync_layer_set_progress(0, 10)` has the bounds `GRect(0, 0, 144, 1)`,
of width 144 and not 0; set with `sync_layer_set_progress(10, 10)` it has width
0 and not 144; and set with `sync_layer_set_progress(5, 0)` it has the bounds
`GRect(144, 0, 0, 1)`, of width 0 and not 144. -/
theorem sync_layer_set_progress_counterexample :
    (sync_layer_set_progress 0 10 (create_header stdEnv 0 App.boot)).sync_indicator_layer
        = some { frame := { x := 0, y := 0, w := 144, h := 1 },
                 bounds := { x := 0, y := 0, w := 144, h := 1 } }
      ∧ (sync_layer_set_progress 10 10 (create_header stdEnv 0 App.boot)).sync_indicator_layer
        = some { frame := { x := 0, y := 0, w := 144, h := 1 },
                 bounds := { x := 144, y := 0, w := 0, h := 1 } }
      ∧ (sync_layer_set_progress 5 0 (create_header stdEnv 0 App.boot)).sync_indicator_layer
        = some { frame := { x := 0, y := 0, w := 144, h := 1 },
                 bounds := { x := 144, y := 0, w := 0, h := 1 } } := by
  decide

/-- C17 as amended: `sync_layer_set_progress(current, total)` sets the bounds of
the bar to `GRect(p, 0, 144 - p, 1)`, where `p` is `current * 144 / total`
(integer division) for `total > 0` and `0 <= current <= total`, and 144 for
`total == 0`: the offset `p` grows from 0 to 144 and the width of the region
shrinks from 144 (for `current = 0`) to 0 (for `current = total`); for
`total == 0` the width is 0 (no bar); the bar created by `create_header` before
any sync has width 0; without a bar the call changes nothing. -/
theorem sync_layer_set_progress_bounds (env : Env) (settings : Nat) (a : App)
    (layer : HeaderLayer) (current total : Int) (hlayer : a.sync_indicator_layer = some layer) :
    (0 < total → 0 ≤ current → current ≤ total →
        (sync_layer_set_progress current total a).sync_indicator_layer
            = some { layer with
                bounds := { x := current * 144 / total, y := 0,
                            w := 144 - current * 144 / total, h := 1 } }
          ∧ 0 ≤ current * 144 / total ∧ current * 144 / total ≤ 144)
      ∧ (0 < total →
          (sync_layer_set_progress 0 total a).sync_indicator_layer
            = some { layer with bounds := { x := 0, y := 0, w := 144, h := 1 } })
      ∧ (0 < total →
          (sync_layer_set_progress total total a).sync_indicator_layer
            = some { layer with bounds := { x := 144, y := 0, w := 0, h := 1 } })
      ∧ (sync_layer_set_progress current 0 a).sync_indicator_layer
          = some { layer with bounds := { x := 144, y := 0, w := 0, h := 1 } }
      ∧ (create_header env settings a).sync_indicator_layer
          = some { frame := { x := 0, y := 0, w := 144, h := 1 },
                   bounds := { x := 0, y := 0, w := 0, h := 0 } }
      ∧ sync_layer_set_progress current total { a with sync_indicator_layer := none }
          = { a with sync_indicator_layer := none } := by
  have key : ∀ c t : Int, (sync_layer_set_progress c t a).sync_indicator_layer
      = some { layer with
          bounds := { x := if t = 0 then 144 else (c * 144).tdiv t, y := 0,
                      w := 144 - (if t = 0 then 144 else (c * 144).tdiv t), h := 1 } } := by
    intro c t
    unfold sync_layer_set_progress
    rw [hlayer]
  refine ⟨?_, ?_, ?_, ?_, ?_, rfl⟩
  · intro ht hc hct
    have hne : ¬ total = 0 := by omega
    have hdiv : (current * 144).tdiv total = current * 144 / total :=
      Int.tdiv_eq_ediv (by positivity) (le_of_lt ht)
    rw [key, if_neg hne, hdiv]
    refine ⟨rfl, Int.ediv_nonneg (by positivity) (le_of_lt ht), ?_⟩
    have : current * 144 ≤ 144 * total := by nlinarith
    exact Int.ediv_le_of_le_mul ht (by linarith)
  · intro ht
    have hne : ¬ total = 0 := by omega
    rw [key, if_neg hne]
    simp
  · intro ht
    have hne : ¬ total = 0 := by omega
    have hdiv : (total * 144).tdiv total = 144 := by
      rw [Int.tdiv_eq_ediv (by positivity) (le_of_lt ht)]
      exact Int.mul_ediv_cancel_left 144 (by omega)
    rw [key, if_neg hne, hdiv]
    simp
  · rw [key]
    simp
  · unfold create_header
    split_ifs <;> rfl

/-- Witness of C17 as amended: the bar of the concrete header at 3 of 4: the
bounds are `GRect(108, 0, 36, 1)`. -/
theorem sync_layer_set_progress_bounds_witness :
    (create_header stdEnv 0 App.boot).sync_indicator_layer
        = some { frame := { x := 0, y := 0, w := 144, h := 1 },
                 bounds := { x := 0, y := 0, w := 0, h := 0 } }
      ∧ (sync_layer_set_progress 3 4 (create_header stdEnv 0 App.boot)).sync_indicator_layer
        = some { frame := { x := 0, y := 0, w := 144, h := 1 },
                 bounds := { x := 108, y := 0, w := 36, h := 1 } } :=
  ⟨by decide,
    ((sync_layer_set_progress_bounds stdEnv 0 (create_header stdEnv 0 App.boot)
      { frame := { x := 0, y := 0, w := 144, h := 1 },
        bounds := { x := 0, y := 0, w := 0, h := 0 } } 3 4 (by decide)).1
      (by decide) (by decide) (by decide)).1.trans (by decide)⟩

/-! ## Items without end -/

/-- What line 258 does with an item without end: for `now >= 0`, a refresh
instant that is set (positive) is reset to 0 by an item whose `end_time` is 0. -/
theorem schedule_refresh_end_zero (now : Int) (item : AgendaItem) (s : State) (hnow : 0 ≤ now)
    (hend : item.end_time = 0) (hset : 0 < s.refresh_at) :
    (schedule_refresh now item s).refresh_at = 0 := by
  rw [schedule_refresh_value, hend]
  split_ifs <;> omega

/-- C18, the code at the failing input: seen at 10:00, item A from 10:10 to
11:10 sets the refresh instant to 10:10; item B, which starts at 10:20 and has
no end (`end_time = 0`), then resets it to 0, and `display_data` ends with
`refresh_at = 0`, so that no tick before midnight rebuilds (not even the tick at
11:11, after A has ended).  A single item without end does the same to the
candidate that its own start has set. -/
theorem display_data_refresh_reset :
    (display_items stdEnv 0 28800600 [⟨0, 0, 28800610, 28800670, none, none⟩]
        (initial_state 40)).st.refresh_at = 28800610
      ∧ (display_items stdEnv 0 28800600
          [⟨0, 0, 28800610, 28800670, none, none⟩, ⟨0, 0, 28800620, 0, none, none⟩]
          (initial_state 40)).st.refresh_at = 0
      ∧ (display_data stdEnv 0 28800600
          [⟨0, 0, 28800610, 28800670, none, none⟩, ⟨0, 0, 28800620, 0, none, none⟩]
          (initial_state 40)).refresh_at = 0
      ∧ refresh_due 11 11 28800671
          (display_data stdEnv 0 28800600
            [⟨0, 0, 28800610, 28800670, none, none⟩, ⟨0, 0, 28800620, 0, none, none⟩]
            (initial_state 40)) = false
      ∧ (schedule_refresh 28800600 ⟨0, 0, 28800620, 0, none, none⟩
          { initial_state 40 with refresh_at := 28800610 }).refresh_at = 0
      ∧ (display_data stdEnv 0 28800600 [⟨0, 0, 28800620, 0, none, none⟩]
          (initial_state 40)).refresh_at = 0 := by
  decide

/-! ## Start and end time in one row -/

theorem time_to_showstring_dashed (env : Env) (s : State) (time relative_to : Int)
    (relative_time hour_12 append_am_pm : Bool) :
    (time_to_showstring env s 10 time relative_to relative_time hour_12 append_am_pm true).1
      = '-' :: snprintf 9
          (if env.caltime_to_date_only relative_to ≠ env.caltime_to_date_only time
              ∧ ¬ (env.caltime_get_tomorrow relative_to = env.caltime_to_date_only time
                    ∧ env.caltime_get_hour time < 3) then
            table_get daystrings_short (env.caltime_get_weekday time)
          else if relative_time = true ∧ relative_to ≤ time ∧ time - relative_to ≤ 60 then
            fmt_d (time - relative_to) ++ "min".toList
          else regular_time env time hour_12 append_am_pm) := by
  have h9 : (10 + 4294967295) % 4294967296 = 9 := by decide
  unfold time_to_showstring
  simp only [if_true, h9]
  split_ifs <;> rfl

/-- C19, the claim as stated fails: seen at 10:00 with relative time enabled, an
item from 09:30 to 10:30 in time mode show-both gets the time text
"09:30-30min": the second time is a countdown. -/
theorem row_time_string_both_countdown :
    (row_time_string stdEnv 0 28800600 ⟨3, 0, 28800570, 28800630, none, none⟩ 28800600 true 3
        (initial_state 40)).1 = "09:30-30min".toList
      ∧ (row_time_string stdEnv 0 28800600 ⟨3, 0, 28800570, 28800630, none, none⟩ 28800600 true
          3 (initial_state 40)).2.refresh_at = 1 := by
  decide

/-- C19 as amended: in time mode show-both the time text is the rendering of
`start_time` followed by a second text that always begins with '-' and
continues, cut to 8 characters, with the weekday abbreviation of `end_time` when
its date is not that of `relative_to` (the hours before 3 of the next day
excepted), else with the countdown when relative time is enabled, the item has
started (`start_time <= now`) and `0 <= end_time - relative_to <= 60`, else with
the absolute time of `end_time`.  So the second time is never a countdown when
relative time is disabled or the item has not started. -/
theorem row_time_string_both (env : Env) (settings : Nat) (now : Int) (item : AgendaItem)
    (relative_to : Int) (relative_time : Bool) (s : State) :
    (row_time_string env settings now item relative_to relative_time 3 s).1
      = (time_to_showstring env s 20 item.start_time relative_to relative_time
            (flag_set settings env.SETTINGS_BOOL_12H)
            (flag_set settings env.SETTINGS_BOOL_12H && flag_set settings env.SETTINGS_BOOL_AMPM)
            (decide (item.start_time = item.end_time))).1
        ++ '-' :: snprintf 9
          (if env.caltime_to_date_only relative_to ≠ env.caltime_to_date_only item.end_time
              ∧ ¬ (env.caltime_get_tomorrow relative_to = env.caltime_to_date_only item.end_time
                    ∧ env.caltime_get_hour item.end_time < 3) then
            table_get daystrings_short (env.caltime_get_weekday item.end_time)
          else if (relative_time = true ∧ item.start_time ≤ now) ∧ relative_to ≤ item.end_time
              ∧ item.end_time - relative_to ≤ 60 then
            fmt_d (item.end_time - relative_to) ++ "min".toList
          else
            regular_time env item.end_time (flag_set settings env.SETTINGS_BOOL_12H)
              (flag_set settings env.SETTINGS_BOOL_12H
                && flag_set settings env.SETTINGS_BOOL_AMPM)) := by
  unfold row_time_string
  simp only [if_true, show ¬ ((3 : Nat) = 2) by decide, show ¬ ((3 : Nat) = 4) by decide,
    if_false, false_and]
  rw [time_to_showstring_dashed]
  simp only [Bool.and_eq_true, decide_eq_true_eq, ge_iff_le]

/-! ## Rebuilds and the regions of the rebuild before -/

theorem App.display_data_starts (env : Env) (w : World) (a : App) :
    (App.display_data env w a).rebuild_starts
      = (if w.db.length ≤ 0 then a.rebuild_starts
        else a.rebuild_starts
          ++ [{ num_layers := a.st.num_layers, num_separators := a.st.num_separators,
                arrays_allocated := a.arrays_allocated }]) := by
  unfold App.display_data
  split_ifs <;> rfl

theorem set_time_font_frame (env : Env) (settings : Nat) (a : App) :
    (set_time_font_from_settings env settings a).rebuild_starts = a.rebuild_starts
      ∧ (set_time_font_from_settings env settings a).st.num_layers = a.st.num_layers
      ∧ (set_time_font_from_settings env settings a).st.num_separators = a.st.num_separators
      ∧ (set_time_font_from_settings env settings a).arrays_allocated = a.arrays_allocated := by
  unfold set_time_font_from_settings
  by_cases h : header_size env settings ≠ a.time_font_id
  · simp only [if_pos h]
    split_ifs <;> exact ⟨rfl, rfl, rfl, rfl⟩
  · simp only [if_neg h]
    split_ifs <;> exact ⟨rfl, rfl, rfl, rfl⟩

theorem create_header_frame (env : Env) (settings : Nat) (a : App) :
    (create_header env settings a).rebuild_starts = a.rebuild_starts
      ∧ (create_header env settings a).st.num_layers = a.st.num_layers
      ∧ (create_header env settings a).st.num_separators = a.st.num_separators
      ∧ (create_header env settings a).arrays_allocated = a.arrays_allocated := by
  obtain ⟨h1, h2, h3, h4⟩ := set_time_font_frame env settings a
  unfold create_header
  by_cases h : ¬ flag_set settings env.SETTINGS_BOOL_SHOW_CLOCK_HEADER = true
  · rw [if_pos h]
    exact ⟨rfl, rfl, rfl, rfl⟩
  · rw [if_neg h]
    exact ⟨h1, h2, h3, h4⟩

/-- The rebuilds of `handle_time_tick` and of `handle_init` begin after
`remove_displayed_data`, with no region left and the arrays released; the
rebuild of `handle_new_data` begins in the state in which the handler is
called. -/
theorem rebuild_starts_of_handlers (env : Env) (w : World) (a : App) :
    (∀ tm_hour tm_min tick,
        (handle_time_tick env w tm_hour tm_min tick a).rebuild_starts = a.rebuild_starts
          ∨ (handle_time_tick env w tm_hour tm_min tick a).rebuild_starts
            = a.rebuild_starts
              ++ [{ num_layers := 0, num_separators := 0, arrays_allocated := false }])
      ∧ (∀ persisted,
        (handle_init env w persisted a).rebuild_starts = a.rebuild_starts
          ∨ (handle_init env w persisted a).rebuild_starts
            = a.rebuild_starts
              ++ [{ num_layers := 0, num_separators := 0, arrays_allocated := false }])
      ∧ (∀ sync_id, w.db ≠ [] →
        (handle_new_data env w sync_id a).rebuild_starts
          = a.rebuild_starts
            ++ [{ num_layers := a.st.num_layers, num_separators := a.st.num_separators,
                  arrays_allocated := a.arrays_allocated }]) := by
  refine ⟨?_, ?_, ?_⟩
  · intro tm_hour tm_min tick
    unfold handle_time_tick
    by_cases hc : w.connected = true
        ∧ (w.unix_time - a.last_sync > 60 * 30 - 60 * 20 * (a.st.elapsed_item_num : Int)
            ∨ w.unix_time < a.last_sync)
    · simp only [if_pos hc]
      split_ifs
      · rw [App.display_data_starts]
        split_ifs
        · exact Or.inl rfl
        · exact Or.inr rfl
      · exact Or.inl rfl
    · simp only [if_neg hc]
      split_ifs
      · rw [App.display_data_starts]
        split_ifs
        · exact Or.inl rfl
        · exact Or.inr rfl
      · exact Or.inl rfl
  · intro persisted
    unfold handle_init
    rw [App.display_data_starts]
    obtain ⟨h1, h2, h3, h4⟩ := create_header_frame env w.settings
      (destroy_header (remove_displayed_data { a with last_sync_id := persisted.getD 0 }))
    unfold handle_new_settings
    rw [h1, h2, h3, h4]
    split_ifs
    · exact Or.inl rfl
    · exact Or.inr rfl
  · intro sync_id hdb
    have hlen : ¬ w.db.length ≤ 0 := by
      have := List.length_pos.mpr hdb
      omega
    show (App.display_data env w a).rebuild_starts = _
    rw [App.display_data_starts, if_neg hlen]

/-- C20, the code at the failing input.  The watchface starts with one item in
the database; the phone begins a sync (`handle_data_gone`); the tick of 10:01
finds the refresh instant passed and rebuilds from the database, which holds the
first item received; the sync ends (`handle_new_data`).  The first two rebuilds
begin with no region left and the arrays released, the third begins with
`num_layers = 1` and the arrays of the second rebuild still allocated: the layer
and the arrays of the second rebuild are never destroyed.  The same happens
when `handle_new_data` follows `handle_init` directly. -/
theorem handle_new_data_retains_regions :
    (handle_new_data stdEnv
        { settings := 0, db := [⟨0, 0, 28800700, 28800800, none, none⟩,
            ⟨0, 0, 28800800, 28800900, none, none⟩],
          now := 28800601, unix_time := 1728036090, connected := true } 1
        (handle_time_tick stdEnv
          { settings := 0, db := [⟨0, 0, 28800700, 28800800, none, none⟩],
            now := 28800601, unix_time := 1728036060, connected := true } 10 1 28800601
          (handle_data_gone
            (handle_init stdEnv
              { settings := 0, db := [⟨0, 0, 28800500, 28800630, none, none⟩],
                now := 28800600, unix_time := 1728036000, connected := true }
              none App.boot)))).rebuild_starts
        = [{ num_layers := 0, num_separators := 0, arrays_allocated := false },
           { num_layers := 0, num_separators := 0, arrays_allocated := false },
           { num_layers := 1, num_separators := 0, arrays_allocated := true }]
      ∧ (handle_new_data stdEnv
          { settings := 0, db := [⟨0, 0, 28800700, 28800800, none, none⟩],
            now := 28800601, unix_time := 1728036090, connected := true } 1
          (handle_init stdEnv
            { settings := 0, db := [⟨0, 0, 28800500, 28800630, none, none⟩],
              now := 28800600, unix_time := 1728036000, connected := true }
            none App.boot)).rebuild_starts
        = [{ num_layers := 0, num_separators := 0, arrays_allocated := false },
           { num_layers := 1, num_separators := 0, arrays_allocated := true }] := by
  decide

/-! ## Recomputation from scratch -/

theorem display_init_reset (env : Env) (settings : Nat) (now : Int) (s : State) (r : Int)
    (e : Nat) :
    display_init env settings now { s with refresh_at := r, elapsed_item_num := e }
      = display_init env settings now s := by
  rfl

/-- C21, the claim as stated fails for the empty list: `display_data` returns at
once, so two runs on the empty list that start with refresh instants 5 and 0 and
elapsed counts 3 and 0 end with these values unchanged, and different. -/
theorem display_data_empty_keeps :
    (display_data stdEnv 0 28800600 []
        { initial_state 40 with refresh_at := 5, elapsed_item_num := 3 }).refresh_at = 5
      ∧ (display_data stdEnv 0 28800600 [] (initial_state 40)).refresh_at = 0
      ∧ (display_data stdEnv 0 28800600 []
          { initial_state 40 with refresh_at := 5, elapsed_item_num := 3 }).elapsed_item_num = 3
      ∧ (display_data stdEnv 0 28800600 [] (initial_state 40)).elapsed_item_num = 0 := by
  decide

/-- C21 as amended: for every item list that is not empty, every `now` and all
settings, two runs of `display_data` that start from states differing only in
the previous values of `refresh_at` and `elapsed_item_num` end in the same
state, in particular with the same `refresh_at` and the same
`elapsed_item_num`. -/
theorem display_data_from_scratch (env : Env) (settings : Nat) (now : Int)
    (db : List AgendaItem) (s : State) (r : Int) (e : Nat) (hdb : db ≠ []) :
    display_data env settings now db { s with refresh_at := r, elapsed_item_num := e }
        = display_data env settings now db s
      ∧ (display_data env settings now db
          { s with refresh_at := r, elapsed_item_num := e }).refresh_at
        = (display_data env settings now db s).refresh_at
      ∧ (display_data env settings now db
          { s with refresh_at := r, elapsed_item_num := e }).elapsed_item_num
        = (display_data env settings now db s).elapsed_item_num := by
  have h : display_data env settings now db { s with refresh_at := r, elapsed_item_num := e }
      = display_data env settings now db s := by
    rw [display_data_of_ne_nil env settings now db _ hdb,
      display_data_of_ne_nil env settings now db s hdb]
    unfold display_items
    rw [display_init_reset]
  exact ⟨h, by rw [h], by rw [h]⟩

/-- Witness of C21 as amended: one running item seen at 10:00, from a state with
refresh instant 5 and elapsed count 3 and from the initial state. -/
theorem display_data_from_scratch_witness :
    ([⟨0, 0, 28800500, 28800630, none, none⟩] : List AgendaItem) ≠ []
      ∧ (display_data stdEnv 0 28800600 [⟨0, 0, 28800500, 28800630, none, none⟩]
          { initial_state 40 with refresh_at := 5, elapsed_item_num := 3 }).refresh_at
        = 28800570
      ∧ (display_data stdEnv 0 28800600 [⟨0, 0, 28800500, 28800630, none, none⟩]
          { initial_state 40 with refresh_at := 5, elapsed_item_num := 3 }).elapsed_item_num
        = 0 :=
  ⟨by decide,
    (display_data_from_scratch stdEnv 0 28800600 [⟨0, 0, 28800500, 28800630, none, none⟩]
      (initial_state 40) 5 3 (by decide)).2.1.trans (by decide),
    (display_data_from_scratch stdEnv 0 28800600 [⟨0, 0, 28800500, 28800630, none, none⟩]
      (initial_state 40) 5 3 (by decide)).2.2.trans (by decide)⟩

/-! ## Array indices -/

theorem create_item_row_texts (env : Env) (settings : Nat) (now : Int) (i : Nat)
    (item : AgendaItem) (relative_to : Int) (relative_time : Bool) (row : Nat) (y : Int)
    (s : State) :
    (create_item_row env settings now i item relative_to relative_time row y s).2.item_texts.length
        + s.num_layers
      = s.item_texts.length
        + (create_item_row env settings now i item relative_to relative_time row y s).2.num_layers := by
  unfold create_item_row
  by_cases hskip : row = 1 ∧ item.row2design = 0
  · rw [if_pos hskip]
  · rw [if_neg hskip]
    by_cases hd : ((if row = 0 then item.row1design else item.row2design)
        / env.ROW_DESIGN_TIME_TYPE_OFFSET) % 8 = 0
    · simp only [hd, ne_eq, not_true_eq_false, if_false, List.length_append, List.length_cons,
        List.length_nil]
      omega
    · simp only [hd, ne_eq, not_false_eq_true, if_true]
      obtain ⟨-, -, ha⟩ := row_time_string_spec env settings now item relative_to relative_time
        (((if row = 0 then item.row1design else item.row2design)
          / env.ROW_DESIGN_TIME_TYPE_OFFSET) % 8) s
      simp only [ha.2.1, ha.2.2, List.length_append, List.length_cons, List.length_nil]
      omega

theorem create_item_layers_texts (env : Env) (settings : Nat) (now : Int) (i : Nat) (y : Int)
    (item : AgendaItem) (relative_to : Int) (relative_time : Bool) (s : State) :
    (create_item_layers env settings now i y item relative_to relative_time s).2.item_texts.length
        + s.num_layers
      = s.item_texts.length
        + (create_item_layers env settings now i y item relative_to relative_time s).2.num_layers := by
  unfold create_item_layers
  have h0 := create_item_row_texts env settings now i item relative_to relative_time 0 y s
  have h1 := create_item_row_texts env settings now i item relative_to relative_time 1
    (create_item_row env settings now i item relative_to relative_time 0 y s).1
    (create_item_row env settings now i item relative_to relative_time 0 y s).2
  dsimp only
  omega

theorem place_separator_texts (env : Env) (settings : Nat) (now : Int) (item : AgendaItem)
    (l : Loop) :
    (place_separator env settings now item l).st.day_separator_texts.length
        + l.st.num_separators
      = l.st.day_separator_texts.length
        + (place_separator env settings now item l).st.num_separators
      ∧ (place_separator env settings now item l).st.item_texts = l.st.item_texts
      ∧ (place_separator env settings now item l).st.num_layers = l.st.num_layers
      ∧ (place_separator env settings now item l).st.num_separators
          ≤ l.st.num_separators + 1
      ∧ (place_separator env settings now item l).st.day_separator_layers.length
          + l.st.num_separators
        = l.st.day_separator_layers.length
          + (place_separator env settings now item l).st.num_separators := by
  unfold place_separator
  cases hsep : separator_needed env now l.previous_item item
  · simp
  · rw [if_pos rfl]
    simp only [create_day_separator_layer, List.length_append, List.length_cons,
      List.length_nil]
    refine ⟨by omega, trivial, trivial, by omega, by omega⟩

theorem display_step_counts (env : Env) (settings : Nat) (now : Int) (item : AgendaItem)
    (l : Loop) :
    (display_step env settings now item l).st.item_texts.length + l.st.num_layers
        = l.st.item_texts.length + (display_step env settings now item l).st.num_layers
      ∧ (display_step env settings now item l).st.item_layers.length + l.st.num_layers
        = l.st.item_layers.length + (display_step env settings now item l).st.num_layers
      ∧ (display_step env settings now item l).st.day_separator_texts.length
          + l.st.num_separators
        = l.st.day_separator_texts.length
          + (display_step env settings now item l).st.num_separators
      ∧ (display_step env settings now item l).st.day_separator_layers.length
          + l.st.num_separators
        = l.st.day_separator_layers.length
          + (display_step env settings now item l).st.num_separators
      ∧ l.st.num_layers ≤ (display_step env settings now item l).st.num_layers
      ∧ (display_step env settings now item l).st.num_layers ≤ l.st.num_layers + 4
      ∧ l.st.num_separators ≤ (display_step env settings now item l).st.num_separators
      ∧ (display_step env settings now item l).st.num_separators ≤ l.st.num_separators + 1 := by
  by_cases hel : item.end_time ≠ 0 ∧ item.end_time < now
  · rw [display_step_elapsed env settings now item l hel]
    simp
  · unfold display_step
    rw [if_neg hel]
    obtain ⟨hsf, hsa, -⟩ := schedule_refresh_frame now item
      (create_item_layers env settings now l.i (place_separator env settings now item l).y item
        (place_separator env settings now item l).last_separator_date
        (decide ((place_separator env settings now item l).st.num_separators = 0))
        (place_separator env settings now item l).st).2
    obtain ⟨hf, -, rows, hrows, hnum, hlen, -⟩ :=
      create_item_layers_spec env settings now l.i (place_separator env settings now item l).y
        item (place_separator env settings now item l).last_separator_date
        (decide ((place_separator env settings now item l).st.num_separators = 0))
        (place_separator env settings now item l).st
    have ht := create_item_layers_texts env settings now l.i
      (place_separator env settings now item l).y item
      (place_separator env settings now item l).last_separator_date
      (decide ((place_separator env settings now item l).st.num_separators = 0))
      (place_separator env settings now item l).st
    obtain ⟨p1, p2, p3, p4, p5⟩ := place_separator_texts env settings now item l
    have hpl : (place_separator env settings now item l).st.item_layers = l.st.item_layers := by
      rcases place_separator_spec env settings now item l with ⟨-, hp⟩ | ⟨-, -, -, -, -, -, -,
        hpa, -⟩
      · rw [hp]
      · exact hpa.1
    have hpn : l.st.num_separators ≤ (place_separator env settings now item l).st.num_separators := by
      rcases place_separator_spec env settings now item l with ⟨-, hp⟩ | ⟨-, -, -, hpn, -⟩
      · rw [hp]
      · omega
    simp only [hsa.1, hsa.2.1, hsa.2.2, hsf.2.2.2.2.1, hsf.2.2.2.2.2.1, hsf.2.2.2.2.2.2,
      hf.2.2.2.2.1, hf.2.2.2.2.2.1, hf.2.2.2.2.2.2, hrows, hnum, List.length_append, hpl]
    rw [p2, p3] at ht
    rw [p3] at hnum
    refine ⟨?_, ?_, p1, p5, ?_, ?_, hpn, p4⟩
    · rw [hnum] at ht
      omega
    · rw [p3]
      omega
    · rw [p3]
      omega
    · rw [p3]
      omega

theorem display_loop_append (env : Env) (settings : Nat) (now : Int) (xs ys : List AgendaItem) :
    ∀ l : Loop, display_loop env settings now (xs ++ ys) l
      = display_loop env settings now ys (display_loop env settings now xs l) := by
  induction xs with
  | nil => intro l; rfl
  | cons x xs ih =>
    intro l
    by_cases hy : l.y < 168
    · simp only [List.cons_append, display_loop, if_pos hy]
      exact ih _
    · simp only [List.cons_append, display_loop, if_neg hy]
      cases ys with
      | nil => rfl
      | cons z zs => simp only [display_loop, if_neg hy]

theorem display_loop_counts (env : Env) (settings : Nat) (now : Int) (xs : List AgendaItem) :
    ∀ l : Loop,
      l.st.item_layers.length = l.st.num_layers → l.st.item_texts.length = l.st.num_layers →
      l.st.day_separator_layers.length = l.st.num_separators →
      l.st.day_separator_texts.length = l.st.num_separators →
      l.st.num_layers ≤ 4 * l.i → l.st.num_separators ≤ l.i →
      (display_loop env settings now xs l).st.item_layers.length
          = (display_loop env settings now xs l).st.num_layers
        ∧ (display_loop env settings now xs l).st.item_texts.length
          = (display_loop env settings now xs l).st.num_layers
        ∧ (display_loop env settings now xs l).st.day_separator_layers.length
          = (display_loop env settings now xs l).st.num_separators
        ∧ (display_loop env settings now xs l).st.day_separator_texts.length
          = (display_loop env settings now xs l).st.num_separators
        ∧ (display_loop env settings now xs l).st.num_layers
          ≤ 4 * (display_loop env settings now xs l).i
        ∧ (display_loop env settings now xs l).st.num_separators
          ≤ (display_loop env settings now xs l).i
        ∧ (display_loop env settings now xs l).i ≤ l.i + xs.length := by
  induction xs with
  | nil =>
    intro l h1 h2 h3 h4 h5 h6
    exact ⟨h1, h2, h3, h4, h5, h6, Nat.le_refl _⟩
  | cons x xs ih =>
    intro l h1 h2 h3 h4 h5 h6
    by_cases hy : l.y < 168
    · simp only [display_loop, if_pos hy]
      obtain ⟨c1, c2, c3, c4, c5, c6, c7, c8⟩ := display_step_counts env settings now x l
      have hi := display_step_index env settings now x l
      obtain ⟨r1, r2, r3, r4, r5, r6, r7⟩ := ih (display_step env settings now x l)
        (by omega) (by omega) (by omega) (by omega) (by omega) (by omega)
      refine ⟨r1, r2, r3, r4, r5, r6, ?_⟩
      rw [List.length_cons]
      omega
    · simp only [display_loop, if_neg hy]
      exact ⟨h1, h2, h3, h4, h5, h6, by omega⟩

theorem display_items_counts (env : Env) (settings : Nat) (now : Int) (db : List AgendaItem)
    (s : State) :
    (display_items env settings now db s).st.item_layers.length
        = (display_items env settings now db s).st.num_layers
      ∧ (display_items env settings now db s).st.item_texts.length
        = (display_items env settings now db s).st.num_layers
      ∧ (display_items env settings now db s).st.day_separator_layers.length
        = (display_items env settings now db s).st.num_separators
      ∧ (display_items env settings now db s).st.day_separator_texts.length
        = (display_items env settings now db s).st.num_separators
      ∧ (display_items env settings now db s).st.num_layers
        ≤ 4 * (display_items env settings now db s).i
      ∧ (display_items env settings now db s).st.num_separators
        ≤ (display_items env settings now db s).i
      ∧ (display_items env settings now db s).i ≤ db.length := by
  unfold display_items
  have h := display_loop_counts env settings now db (display_init env settings now s)
    rfl rfl rfl rfl (Nat.zero_le _) (Nat.zero_le _)
  have hi0 : (display_init env settings now s).i = 0 := rfl
  rw [hi0, Nat.zero_add] at h
  exact h

/-- C22: for every item list of size n >= 1 and every number k <= n of loop
iterations considered, the loop state after the first k items is a state the
run on the whole list goes through, and in it the arrays `item_layers` and
`item_texts` hold exactly `num_layers` entries and the arrays
`day_separator_layers` and `day_separator_texts` exactly `num_separators`
entries, with `num_layers <= 4 * i <= 4 * n` and `num_separators <= i <= n` for
the number `i <= k` of items visited; visiting one more item only adds entries,
at most four layers and one separator, and stays within `4 * n` and `n` when
k < n; and the state that `display_data` returns has at most `4 * n` item
entries and `n` separator entries. Every entry is written at the index equal to
the current count, so every index written is below the capacity. -/
theorem display_data_indices_in_bounds (env : Env) (settings : Nat) (now : Int)
    (db : List AgendaItem) (s : State) (k : Nat) (hdb : db ≠ []) (hk : k ≤ db.length) :
    display_items env settings now db s
        = display_loop env settings now (db.drop k)
            (display_items env settings now (db.take k) s)
      ∧ (display_items env settings now (db.take k) s).i ≤ k
      ∧ (display_items env settings now (db.take k) s).st.num_layers
          ≤ 4 * (display_items env settings now (db.take k) s).i
      ∧ 4 * (display_items env settings now (db.take k) s).i ≤ 4 * db.length
      ∧ (display_items env settings now (db.take k) s).st.num_separators
          ≤ (display_items env settings now (db.take k) s).i
      ∧ (display_items env settings now (db.take k) s).i ≤ db.length
      ∧ (display_items env settings now (db.take k) s).st.item_layers.length
          = (display_items env settings now (db.take k) s).st.num_layers
      ∧ (display_items env settings now (db.take k) s).st.item_texts.length
          = (display_items env settings now (db.take k) s).st.num_layers
      ∧ (display_items env settings now (db.take k) s).st.day_separator_layers.length
          = (display_items env settings now (db.take k) s).st.num_separators
      ∧ (display_items env settings now (db.take k) s).st.day_separator_texts.length
          = (display_items env settings now (db.take k) s).st.num_separators
      ∧ (∀ item : AgendaItem, db[k]? = some item →
          (display_items env settings now (db.take k) s).st.num_layers
            ≤ (display_step env settings now item
                (display_items env settings now (db.take k) s)).st.num_layers
          ∧ (display_step env settings now item
                (display_items env settings now (db.take k) s)).st.num_layers
            ≤ (display_items env settings now (db.take k) s).st.num_layers + 4
          ∧ (display_step env settings now item
                (display_items env settings now (db.take k) s)).st.num_layers ≤ 4 * db.length
          ∧ (display_items env settings now (db.take k) s).st.num_separators
            ≤ (display_step env settings now item
                (display_items env settings now (db.take k) s)).st.num_separators
          ∧ (display_step env settings now item
                (display_items env settings now (db.take k) s)).st.num_separators
            ≤ (display_items env settings now (db.take k) s).st.num_separators + 1
          ∧ (display_step env settings now item
                (display_items env settings now (db.take k) s)).st.num_separators ≤ db.length)
      ∧ (display_data env settings now db s).item_layers.length
          = (display_data env settings now db s).num_layers
      ∧ (display_data env settings now db s).item_texts.length
          = (display_data env settings now db s).num_layers
      ∧ (display_data env settings now db s).num_layers ≤ 4 * db.length
      ∧ (display_data env settings now db s).day_separator_layers.length
          = (display_data env settings now db s).num_separators
      ∧ (display_data env settings now db s).day_separator_texts.length
          = (display_data env settings now db s).num_separators
      ∧ (display_data env settings now db s).num_separators ≤ db.length := by
  obtain ⟨a1, a2, a3, a4, a5, a6, a7⟩ :=
    display_items_counts env settings now (db.take k) s
  have hlen : (db.take k).length = k := by
    rw [List.length_take]
    omega
  rw [hlen] at a7
  obtain ⟨b1, b2, b3, b4, b5, b6, b7⟩ := display_items_counts env settings now db s
  have hrun : display_items env settings now db s
      = display_loop env settings now (db.drop k)
          (display_items env settings now (db.take k) s) := by
    unfold display_items
    rw [← display_loop_append, List.take_append_drop]
  obtain ⟨-, ha, -⟩ := adjust_refresh_at_frame (display_items env settings now db s).st
  obtain ⟨hf, -, -⟩ := adjust_refresh_at_frame (display_items env settings now db s).st
  have hd := display_data_of_ne_nil env settings now db s hdb
  refine ⟨hrun, a7, a5, by omega, a6, by omega, a1, a2, a3, a4, ?_, ?_⟩
  · intro item hitem
    have hlt : k < db.length := by
      by_contra hge
      rw [List.getElem?_eq_none (by omega)] at hitem
      exact Option.noConfusion hitem
    obtain ⟨-, -, -, -, c5, c6, c7, c8⟩ := display_step_counts env settings now item
      (display_items env settings now (db.take k) s)
    exact ⟨c5, c6, by omega, c7, c8, by omega⟩
  · rw [hd, ha.1, ha.2.1, ha.2.2, hf.2.2.2.2.1, hf.2.2.2.2.2.1, hf.2.2.2.2.2.2]
    exact ⟨b1, b2, by omega, b3, b4, by omega⟩

/-- Witness of C22: two items seen at 10:00, the second one on the next day, so
that a date separator is written; after the first item and at the end. -/
theorem display_data_indices_in_bounds_witness :
    ([⟨1, 1, 28800500, 28800630, some "A".toList, some "B".toList⟩,
        ⟨1, 0, 28802000, 28802060, some "C".toList, none⟩] : List AgendaItem) ≠ []
      ∧ 1 ≤ ([⟨1, 1, 28800500, 28800630, some "A".toList, some "B".toList⟩,
        ⟨1, 0, 28802000, 28802060, some "C".toList, none⟩] : List AgendaItem).length
      ∧ (display_data stdEnv 0 28800600
          [⟨1, 1, 28800500, 28800630, some "A".toList, some "B".toList⟩,
            ⟨1, 0, 28802000, 28802060, some "C".toList, none⟩] (initial_state 40)).num_layers
        ≤ 4 * ([⟨1, 1, 28800500, 28800630, some "A".toList, some "B".toList⟩,
            ⟨1, 0, 28802000, 28802060, some "C".toList, none⟩] : List AgendaItem).length
      ∧ (display_data stdEnv 0 28800600
          [⟨1, 1, 28800500, 28800630, some "A".toList, some "B".toList⟩,
            ⟨1, 0, 28802000, 28802060, some "C".toList, none⟩] (initial_state 40)).num_separators
        ≤ ([⟨1, 1, 28800500, 28800630, some "A".toList, some "B".toList⟩,
            ⟨1, 0, 28802000, 28802060, some "C".toList, none⟩] : List AgendaItem).length :=
  ⟨by decide, by decide,
    (display_data_indices_in_bounds stdEnv 0 28800600
      [⟨1, 1, 28800500, 28800630, some "A".toList, some "B".toList⟩,
        ⟨1, 0, 28802000, 28802060, some "C".toList, none⟩] (initial_state 40) 1
      (by decide) (by decide)).2.2.2.2.2.2.2.2.2.2.2.2.2.1,
    (display_data_indices_in_bounds stdEnv 0 28800600
      [⟨1, 1, 28800500, 28800630, some "A".toList, some "B".toList⟩,
        ⟨1, 0, 28802000, 28802060, some "C".toList, none⟩] (initial_state 40) 1
      (by decide) (by decide)).2.2.2.2.2.2.2.2.2.2.2.2.2.2.2.2⟩

/-! ## Length of the time text -/

theorem table_get_daystrings_short_length (w : Int) :
    (table_get daystrings_short w).length ≤ 3 := by
  unfold table_get
  by_cases hw : w < 0
  · rw [if_pos hw]
    exact Nat.zero_le _
  · rw [if_neg hw]
    obtain ⟨n, rfl⟩ : ∃ n : Nat, w = (n : Int) := ⟨w.toNat, by omega⟩
    rw [Int.toNat_ofNat]
    rcases n with _ | _ | _ | _ | _ | _ | _ | n
    all_goals first | decide | simp [daystrings_short]

theorem regular_time_length (env : Env) (time : Int) (hour_12 append_am_pm : Bool)
    (hh : 0 ≤ env.caltime_get_hour time ∧ env.caltime_get_hour time < 24)
    (hm : 0 ≤ env.caltime_get_minute time ∧ env.caltime_get_minute time < 60) :
    (regular_time env time hour_12 append_am_pm).length ≤ 7 := by
  obtain ⟨h, hh1⟩ : ∃ h : Nat, env.caltime_get_hour time = (h : Int) :=
    ⟨(env.caltime_get_hour time).toNat, by omega⟩
  obtain ⟨m, hm1⟩ : ∃ m : Nat, env.caltime_get_minute time = (m : Int) :=
    ⟨(env.caltime_get_minute time).toNat, by omega⟩
  have hh24 : h < 24 := by omega
  have hm60 : m < 60 := by omega
  cases hour_12
  · simp only [regular_time, Bool.false_eq_true, if_false, hh1, hm1,
      fmt_02d_two_digits m (by omega), fmt_02d_two_digits h (by omega), List.length_append,
      List.length_cons, List.length_nil]
    have hc : (":".toList).length = 1 := rfl
    rw [hc]
    cases append_am_pm
    · simp
    · simp only [if_true]
      split_ifs <;> simp
  · rw [regular_time_12 env time append_am_pm h m hh1 hm1 hm60]
    have hr : (Nat.repr (if h % 12 = 0 then 12 else h % 12)).toList.length ≤ 2 :=
      repr_toList_length_le_two _ (by split_ifs <;> omega)
    simp only [List.length_append, List.length_cons, List.length_nil]
    cases append_am_pm
    · simp only [Bool.false_eq_true, if_false, List.length_nil]
      omega
    · simp only [if_true]
      have h2 : (if h < 12 then "am".toList else "pm".toList).length = 2 := by
        split_ifs <;> rfl
      rw [h2]
      omega

theorem showstring_text_length (env : Env) (time relative_to : Int)
    (relative_time hour_12 append_am_pm : Bool)
    (hh : 0 ≤ env.caltime_get_hour time ∧ env.caltime_get_hour time < 24)
    (hm : 0 ≤ env.caltime_get_minute time ∧ env.caltime_get_minute time < 60) :
    (showstring_text env time relative_to relative_time hour_12 append_am_pm).length ≤ 7 := by
  unfold showstring_text
  split_ifs with h1 h2
  · have := table_get_daystrings_short_length (env.caltime_get_weekday time)
    omega
  · obtain ⟨n, hn⟩ : ∃ n : Nat, time - relative_to = (n : Int) :=
      ⟨(time - relative_to).toNat, by omega⟩
    rw [hn, fmt_d_natCast, List.length_append]
    have := repr_toList_length_le_two n (by omega)
    have h3 : ("min".toList).length = 3 := rfl
    omega
  · exact regular_time_length env time hour_12 append_am_pm hh hm

theorem time_to_showstring_text (env : Env) (s : State) (buffersize : Nat)
    (time relative_to : Int) (relative_time hour_12 append_am_pm prepend_dash : Bool) :
    (time_to_showstring env s buffersize time relative_to relative_time hour_12 append_am_pm
        prepend_dash).1
      = (if prepend_dash then ['-'] else [])
          ++ snprintf (if prepend_dash then (buffersize + 4294967295) % 4294967296
              else buffersize)
            (showstring_text env time relative_to relative_time hour_12 append_am_pm) := by
  unfold time_to_showstring showstring_text
  simp only
  split_ifs <;> rfl

theorem time_to_showstring_uncut (env : Env) (s : State) (buffersize : Nat)
    (time relative_to : Int) (relative_time hour_12 append_am_pm prepend_dash : Bool)
    (hbuf : buffersize = 10 ∨ buffersize = 20)
    (hh : 0 ≤ env.caltime_get_hour time ∧ env.caltime_get_hour time < 24)
    (hm : 0 ≤ env.caltime_get_minute time ∧ env.caltime_get_minute time < 60) :
    (time_to_showstring env s buffersize time relative_to relative_time hour_12 append_am_pm
        prepend_dash).1
      = (if prepend_dash then ['-'] else [])
          ++ showstring_text env time relative_to relative_time hour_12 append_am_pm := by
  rw [time_to_showstring_text]
  have hl := showstring_text_length env time relative_to relative_time hour_12 append_am_pm hh hm
  congr 1
  unfold snprintf
  apply List.take_of_length_le
  rcases hbuf with hb | hb <;> subst hb <;> cases prepend_dash <;> simp <;> omega

/-- C23: for every item, `now`, settings and time mode, with the hours of the
start and end times in 0..23 and their minutes in 0..59, the time string that
`create_item_layers` builds for a row is the uncut text: in mode 3 (show both)
the first time, with its dash when start and end are equal, followed by the dash
and the second time, which take at most 9 characters of the 10-byte budget; in
the other modes the one time shown, with its dash when it is the end time.  The
string has at most 19 characters, so it fits the buffer of 20 bytes with its
terminator. -/
theorem row_time_string_fits (env : Env) (settings : Nat) (now : Int) (item : AgendaItem)
    (relative_to : Int) (relative_time : Bool) (design_time : Nat) (s : State)
    (hsh : 0 ≤ env.caltime_get_hour item.start_time ∧ env.caltime_get_hour item.start_time < 24)
    (hsm : 0 ≤ env.caltime_get_minute item.start_time
      ∧ env.caltime_get_minute item.start_time < 60)
    (heh : 0 ≤ env.caltime_get_hour item.end_time ∧ env.caltime_get_hour item.end_time < 24)
    (hem : 0 ≤ env.caltime_get_minute item.end_time
      ∧ env.caltime_get_minute item.end_time < 60) :
    (row_time_string env settings now item relative_to relative_time design_time s).1
        = (if design_time = 3 then
            ((if item.start_time = item.end_time then ['-'] else [])
              ++ showstring_text env item.start_time relative_to relative_time
                  (flag_set settings env.SETTINGS_BOOL_12H)
                  (flag_set settings env.SETTINGS_BOOL_12H
                    && flag_set settings env.SETTINGS_BOOL_AMPM))
            ++ ('-' :: showstring_text env item.end_time relative_to
                  (relative_time && decide (now ≥ item.start_time))
                  (flag_set settings env.SETTINGS_BOOL_12H)
                  (flag_set settings env.SETTINGS_BOOL_12H
                    && flag_set settings env.SETTINGS_BOOL_AMPM))
          else
            (if (if design_time = 4 ∧ now ≥ item.start_time then item.end_time
                  else if design_time = 2 then item.end_time else item.start_time)
                = item.end_time then ['-'] else [])
              ++ showstring_text env
                  (if design_time = 4 ∧ now ≥ item.start_time then item.end_time
                    else if design_time = 2 then item.end_time else item.start_time)
                  relative_to relative_time (flag_set settings env.SETTINGS_BOOL_12H)
                  (flag_set settings env.SETTINGS_BOOL_12H
                    && flag_set settings env.SETTINGS_BOOL_AMPM))
      ∧ (row_time_string env settings now item relative_to relative_time design_time s).1.length
          ≤ 19
      ∧ ('-' :: showstring_text env item.end_time relative_to
            (relative_time && decide (now ≥ item.start_time))
            (flag_set settings env.SETTINGS_BOOL_12H)
            (flag_set settings env.SETTINGS_BOOL_12H
              && flag_set settings env.SETTINGS_BOOL_AMPM)).length ≤ 9 := by
  have hend : ∀ rt : Bool, (showstring_text env item.end_time relative_to rt
      (flag_set settings env.SETTINGS_BOOL_12H)
      (flag_set settings env.SETTINGS_BOOL_12H
        && flag_set settings env.SETTINGS_BOOL_AMPM)).length ≤ 7 :=
    fun rt => showstring_text_length env item.end_time relative_to rt _ _ heh hem
  have hstart : ∀ rt : Bool, (showstring_text env item.start_time relative_to rt
      (flag_set settings env.SETTINGS_BOOL_12H)
      (flag_set settings env.SETTINGS_BOOL_12H
        && flag_set settings env.SETTINGS_BOOL_AMPM)).length ≤ 7 :=
    fun rt => showstring_text_length env item.start_time relative_to rt _ _ hsh hsm
  have htext : (row_time_string env settings now item relative_to relative_time design_time s).1
      = (if design_time = 3 then
            ((if item.start_time = item.end_time then ['-'] else [])
              ++ showstring_text env item.start_time relative_to relative_time
                  (flag_set settings env.SETTINGS_BOOL_12H)
                  (flag_set settings env.SETTINGS_BOOL_12H
                    && flag_set settings env.SETTINGS_BOOL_AMPM))
            ++ ('-' :: showstring_text env item.end_time relative_to
                  (relative_time && decide (now ≥ item.start_time))
                  (flag_set settings env.SETTINGS_BOOL_12H)
                  (flag_set settings env.SETTINGS_BOOL_12H
                    && flag_set settings env.SETTINGS_BOOL_AMPM))
          else
            (if (if design_time = 4 ∧ now ≥ item.start_time then item.end_time
                  else if design_time = 2 then item.end_time else item.start_time)
                = item.end_time then ['-'] else [])
              ++ showstring_text env
                  (if design_time = 4 ∧ now ≥ item.start_time then item.end_time
                    else if design_time = 2 then item.end_time else item.start_time)
                  relative_to relative_time (flag_set settings env.SETTINGS_BOOL_12H)
                  (flag_set settings env.SETTINGS_BOOL_12H
                    && flag_set settings env.SETTINGS_BOOL_AMPM)) := by
    unfold row_time_string
    by_cases h3 : design_time = 3
    · have h4 : ¬ (design_time = 4 ∧ now ≥ item.start_time) := fun h => by omega
      have h2 : ¬ design_time = 2 := by omega
      simp only [h3, if_true]
      simp only [show ¬ ((3 : Nat) = 4 ∧ now ≥ item.start_time) from fun h => by omega,
        show ¬ ((3 : Nat) = 2) from by omega, if_false]
      rw [time_to_showstring_uncut env s 20 item.start_time relative_to relative_time _ _ _
          (Or.inr rfl) hsh hsm,
        time_to_showstring_uncut env _ 10 item.end_time relative_to _ _ _ true
          (Or.inl rfl) heh hem]
      simp only [decide_eq_true_eq, if_true, List.singleton_append]
    · simp only [h3, if_false]
      by_cases h4 : design_time = 4 ∧ now ≥ item.start_time
      · simp only [h4, and_self, if_true, decide_True]
        rw [time_to_showstring_uncut env s 20 item.end_time relative_to relative_time _ _ _
          (Or.inr rfl) heh hem]
        simp only [if_true]
      · simp only [h4, if_false]
        by_cases h2 : design_time = 2
        · simp only [h2, if_true, decide_True]
          rw [time_to_showstring_uncut env s 20 item.end_time relative_to relative_time _ _ _
            (Or.inr rfl) heh hem]
          simp only [if_true]
        · simp only [h2, if_false]
          rw [time_to_showstring_uncut env s 20 item.start_time relative_to relative_time _ _ _
            (Or.inr rfl) hsh hsm]
          simp only [decide_eq_true_eq]
  refine ⟨htext, ?_, ?_⟩
  · rw [htext]
    have e1 := hend relative_time
    have e2 := hend (relative_time && decide (now ≥ item.start_time))
    have s1 := hstart relative_time
    by_cases h3 : design_time = 3
    · simp only [h3, if_true, List.length_append, List.length_cons]
      split_ifs <;> simp only [List.length_cons, List.length_nil] <;> omega
    · simp only [h3, if_false, List.length_append]
      by_cases h4 : design_time = 4 ∧ now ≥ item.start_time
      · simp only [h4, and_self, if_true, List.length_cons, List.length_nil]
        omega
      · simp only [h4, if_false]
        by_cases h2 : design_time = 2
        · simp only [h2, if_true, List.length_cons, List.length_nil]
          omega
        · simp only [h2, if_false]
          split_ifs <;> simp only [List.length_cons, List.length_nil] <;> omega
  · have e2 := hend (relative_time && decide (now ≥ item.start_time))
    rw [List.length_cons]
    omega

/-- Witness of C23: an item from 12:30 to 22:45 seen at 10:00 of the same day in
mode 3 with the 12-hour clock and am/pm: the text is "12:30pm-10:45pm". -/
theorem row_time_string_fits_witness :
    (0 ≤ stdEnv.caltime_get_hour 28800750 ∧ stdEnv.caltime_get_hour 28800750 < 24)
      ∧ (0 ≤ stdEnv.caltime_get_minute 28800750 ∧ stdEnv.caltime_get_minute 28800750 < 60)
      ∧ (0 ≤ stdEnv.caltime_get_hour 28801365 ∧ stdEnv.caltime_get_hour 28801365 < 24)
      ∧ (0 ≤ stdEnv.caltime_get_minute 28801365 ∧ stdEnv.caltime_get_minute 28801365 < 60)
      ∧ (row_time_string stdEnv 48 28800600 ⟨0, 0, 28800750, 28801365, none, none⟩ 28800600
          false 3 (initial_state 40)).1 = "12:30pm-10:45pm".toList
      ∧ (row_time_string stdEnv 48 28800600 ⟨0, 0, 28800750, 28801365, none, none⟩ 28800600
          false 3 (initial_state 40)).1.length ≤ 19 :=
  ⟨by decide, by decide, by decide, by decide,
    (row_time_string_fits stdEnv 48 28800600 ⟨0, 0, 28800750, 28801365, none, none⟩ 28800600
      false 3 (initial_state 40) (by decide) (by decide) (by decide) (by decide)).1.trans
      (by decide),
    (row_time_string_fits stdEnv 48 28800600 ⟨0, 0, 28800750, 28801365, none, none⟩ 28800600
      false 3 (initial_state 40) (by decide) (by decide) (by decide) (by decide)).2.1⟩

end Agenda
